import Mathlib

/-!
# Vulkan loader trampolines (`loader/trampoline.c`)

A shallow embedding of the lifecycle and stamping trampolines of the Vulkan
loader.  The functions that `trampoline.c` calls but does not define
(`loader_layer_scan`, `loader_validate_layers`, the chain head's
`CreateInstance`, ...) are collaborators: each one appears as an event of the
call's trace, and the value it hands back is a field of `Collaborators`, over
which every theorem quantifies.  The process-wide list `loader.instances` is a
`List Ptr` (head first), and the caller's output cell `*pInstance` is a value
threaded through the call.  A collaborator of `vkCreateInstance` is observed
through the value it returns; the chain head's `CreateInstance`, which is passed
`pInstance`, is observed also through what it leaves in `*pInstance`.  The chain
slots of the device-level trampolines take and return the whole memory of
embedded pointers, and the chain's `DestroyInstance` and the helper
`loader_remove_logical_device` are functions on the lists they maintain.

The 126 trampolines whose body only forwards are tabulated from the source in
`hotPathTrampolines` (name, first parameter, getter, slot called, parameters,
arguments) and executed by `Forwarder.run`; the other trampolines are embedded
one by one.  A call of `vkDestroyInstance` or `vkDestroyDevice` that
dereferences `NULL` has no outcome (`none`).

Two threads are modelled by an interleaving of the steps of their two calls,
each step tagged with its thread and taken atomically; the mutex is granted to
one thread at a time (`mutexRespected`).
-/

namespace VkLoader

/-- Addresses of heap objects and handles; `NULL` is `0`. -/
abbrev Ptr := Nat

/-- The C null pointer. -/
def NULL : Ptr := 0

/-- Result codes of `vulkan.h` that the trampolines name, and every other code. -/
inductive VkResult where
  | VK_SUCCESS
  | VK_ERROR_OUT_OF_HOST_MEMORY
  | VK_ERROR_INITIALIZATION_FAILED
  | VK_ERROR_LAYER_NOT_PRESENT
  | VK_ERROR_EXTENSION_NOT_PRESENT
  | VK_RESULT_OTHER (code : Int)
  deriving DecidableEq, Repr

open VkResult

/-- The two layer lists of `struct loader_instance`. -/
inductive LayerList where
  | instance_layer_list
  | device_layer_list
  deriving DecidableEq, Repr

/-- The slots `disp->X` of the two dispatch tables that `trampoline.c` calls:
the six used by the lifecycle and stamping trampolines, then those of the
forwarding trampolines in source order. -/
inductive Slot where
  | CreateInstance
  | DestroyInstance
  | EnumeratePhysicalDevices
  | DestroyDevice
  | GetDeviceQueue
  | AllocateCommandBuffers
  | GetPhysicalDeviceFeatures
  | GetPhysicalDeviceFormatProperties
  | GetPhysicalDeviceImageFormatProperties
  | GetPhysicalDeviceProperties
  | GetPhysicalDeviceQueueFamilyProperties
  | GetPhysicalDeviceMemoryProperties
  | QueueSubmit
  | QueueWaitIdle
  | DeviceWaitIdle
  | AllocateMemory
  | FreeMemory
  | MapMemory
  | UnmapMemory
  | FlushMappedMemoryRanges
  | InvalidateMappedMemoryRanges
  | GetDeviceMemoryCommitment
  | BindBufferMemory
  | BindImageMemory
  | GetBufferMemoryRequirements
  | GetImageMemoryRequirements
  | GetImageSparseMemoryRequirements
  | GetPhysicalDeviceSparseImageFormatProperties
  | QueueBindSparse
  | CreateFence
  | DestroyFence
  | ResetFences
  | GetFenceStatus
  | WaitForFences
  | CreateSemaphore
  | DestroySemaphore
  | CreateEvent
  | DestroyEvent
  | GetEventStatus
  | SetEvent
  | ResetEvent
  | CreateQueryPool
  | DestroyQueryPool
  | GetQueryPoolResults
  | CreateBuffer
  | DestroyBuffer
  | CreateBufferView
  | DestroyBufferView
  | CreateImage
  | DestroyImage
  | GetImageSubresourceLayout
  | CreateImageView
  | DestroyImageView
  | CreateShaderModule
  | DestroyShaderModule
  | CreateShader
  | DestroyShader
  | CreatePipelineCache
  | DestroyPipelineCache
  | GetPipelineCacheData
  | MergePipelineCaches
  | CreateGraphicsPipelines
  | CreateComputePipelines
  | DestroyPipeline
  | CreatePipelineLayout
  | DestroyPipelineLayout
  | CreateSampler
  | DestroySampler
  | CreateDescriptorSetLayout
  | DestroyDescriptorSetLayout
  | CreateDescriptorPool
  | DestroyDescriptorPool
  | ResetDescriptorPool
  | AllocateDescriptorSets
  | FreeDescriptorSets
  | UpdateDescriptorSets
  | CreateFramebuffer
  | DestroyFramebuffer
  | CreateRenderPass
  | DestroyRenderPass
  | GetRenderAreaGranularity
  | CreateCommandPool
  | DestroyCommandPool
  | ResetCommandPool
  | FreeCommandBuffers
  | BeginCommandBuffer
  | EndCommandBuffer
  | ResetCommandBuffer
  | CmdBindPipeline
  | CmdSetViewport
  | CmdSetScissor
  | CmdSetLineWidth
  | CmdSetDepthBias
  | CmdSetBlendConstants
  | CmdSetDepthBounds
  | CmdSetStencilCompareMask
  | CmdSetStencilWriteMask
  | CmdSetStencilReference
  | CmdBindDescriptorSets
  | CmdBindIndexBuffer
  | CmdBindVertexBuffers
  | CmdDraw
  | CmdDrawIndexed
  | CmdDrawIndirect
  | CmdDrawIndexedIndirect
  | CmdDispatch
  | CmdDispatchIndirect
  | CmdCopyBuffer
  | CmdCopyImage
  | CmdBlitImage
  | CmdCopyBufferToImage
  | CmdCopyImageToBuffer
  | CmdUpdateBuffer
  | CmdFillBuffer
  | CmdClearColorImage
  | CmdClearDepthStencilImage
  | CmdClearAttachments
  | CmdResolveImage
  | CmdSetEvent
  | CmdResetEvent
  | CmdWaitEvents
  | CmdPipelineBarrier
  | CmdBeginQuery
  | CmdEndQuery
  | CmdResetQueryPool
  | CmdWriteTimestamp
  | CmdCopyQueryPoolResults
  | CmdPushConstants
  | CmdBeginRenderPass
  | CmdNextSubpass
  | CmdEndRenderPass
  | CmdExecuteCommands
  deriving DecidableEq, Repr

/-- One observable step of a trampoline: a collaborator call (with the value it
returned, where it returns one), a heap operation, a mutex operation, or an
access to `loader.instances` or to the caller's output cell. -/
inductive Event where
  /-- The call `loader_platform_thread_once(&once_init, ...)` -/
  | thread_once
  /-- The call `pAllocator->pfnAllocation(...)` (`viaCallbacks`) or `malloc(...)`, with the pointer returned -/
  | alloc_instance (viaCallbacks : Bool) (p : Ptr)
  /-- The assignment `tls_instance = ptr_instance` -/
  | set_tls_instance
  | lock_mutex
  | unlock_mutex
  /-- The call `memset(ptr_instance, 0, sizeof(struct loader_instance))` -/
  | memset_instance
  /-- The copy `ptr_instance->alloc_callbacks = *pAllocator` -/
  | copy_alloc_callbacks
  /-- The `memset` of one of the two layer lists to zero -/
  | memset_layer_list (l : LayerList)
  /-- The call `loader_layer_scan(inst, &instance_layer_list, &device_layer_list)` -/
  | layer_scan
  | validate_layers (r : VkResult)
  /-- The call `memset(&ptr_instance->icd_libs, 0, ...)` -/
  | memset_icd_libs
  | icd_scan
  | get_icd_loader_instance_extensions
  | validate_instance_extensions (r : VkResult)
  | delete_layer_properties (l : LayerList)
  | scanned_icd_clear
  | destroy_ext_list
  /-- The call `loader_heap_alloc(inst, sizeof(VkLayerInstanceDispatchTable), ...)`, with the pointer returned -/
  | heap_alloc_disp (d : Ptr)
  /-- The call `memcpy(ptr_instance->disp, &instance_disp, sizeof(instance_disp))` -/
  | memcpy_instance_disp
  /-- The insertion `ptr_instance->next = loader.instances; loader.instances = ptr_instance` -/
  | link_instance (p : Ptr)
  | enable_instance_layers (r : VkResult)
  /-- The unlinking `loader.instances = ptr_instance->next` -/
  | unlink_instance (p : Ptr)
  /-- The call `loader_heap_free(ptr_instance, ptr_instance->disp)` -/
  | heap_free_disp (d : Ptr)
  /-- The call `loader_heap_free(ptr_instance, ptr_instance)` -/
  | heap_free_instance (p : Ptr)
  | activate_instance_layers
  | wsi_swapchain_create_instance
  | debug_report_create_instance
  /-- The write `*pInstance = (VkInstance) ptr_instance` -/
  | write_pInstance (p : Ptr)
  /-- The call `ptr_instance->disp->CreateInstance(pCreateInfo, pAllocator, pInstance)`,
  with the content of `*pInstance` at the call and the result returned -/
  | chain_CreateInstance (handle : Ptr) (r : VkResult)
  | activate_instance_layer_extensions
  /-- The call `loader_get_instance_dispatch(obj)` -/
  | get_instance_dispatch (obj : Ptr)
  /-- The call `loader_get_dispatch(obj)` -/
  | get_dispatch (obj : Ptr)
  /-- The call `loader_set_dispatch(obj, disp)` or `loader_init_dispatch(obj, disp)` -/
  | set_dispatch (obj : Ptr) (disp : Ptr)
  /-- The lookup `loader_get_instance(handle)`, with the record it returned -/
  | get_instance (handle : Ptr) (found : Ptr)
  | deactivate_instance_layers (p : Ptr)
  /-- The call `loader_CreateDevice(gpu, pCreateInfo, pAllocator, pDevice)` -/
  | loader_CreateDevice (gpu : Ptr) (r : VkResult)
  /-- The lookup `loader_get_icd_and_device(device, &dev)`, with the ICD it returned -/
  | get_icd_and_device (device : Ptr) (icd : Ptr)
  /-- The call `loader_remove_logical_device(inst, device)` -/
  | remove_logical_device (inst : Ptr) (device : Ptr)
  | loader_EnumerateDeviceExtensionProperties (physicalDevice : Ptr) (r : VkResult)
  | loader_EnumerateDeviceLayerProperties (physicalDevice : Ptr) (r : VkResult)
  /-- The call `disp->slot(args)` through the dispatch table `disp` -/
  | call_slot (disp : Ptr) (slot : Slot) (args : List Nat)
  deriving DecidableEq, Repr

/-- The process-wide `struct loader_struct loader`, reduced to the field the
trampolines touch: the linked list `loader.instances`, head first. -/
structure LoaderState where
  instances : List Ptr
  deriving DecidableEq, Repr

/-- What the caller passes to `vkCreateInstance` and what each collaborator
returns during the call. -/
structure Collaborators where
  /-- Whether `pAllocator != NULL` -/
  pAllocator : Bool
  /-- The pointer returned by `pfnAllocation` or `malloc` (`NULL` on failure) -/
  alloc_instance : Ptr
  /-- The field `pCreateInfo->enabledLayerNameCount` -/
  enabledLayerNameCount : Nat
  /-- The result of `loader_validate_layers` -/
  validate_layers : VkResult
  /-- The result of `loader_validate_instance_extensions` -/
  validate_instance_extensions : VkResult
  /-- The pointer returned by `loader_heap_alloc` for the dispatch table -/
  alloc_disp : Ptr
  /-- The result of `loader_enable_instance_layers` -/
  enable_instance_layers : VkResult
  /-- The result of the chain head's `CreateInstance` -/
  chain_CreateInstance : VkResult
  /-- What the chain head's `CreateInstance` stores in `*pInstance`, which it is
  passed; `none` when it leaves the cell as it received it -/
  chain_pInstance : Option Ptr := none
  /-- The layers that `loader_enable_instance_layers` activated for the instance
  (`ptr_instance->activated_layer_list`), in order -/
  activated_layer_list : List Nat := []
  deriving DecidableEq, Repr

/-- What a call of `vkCreateInstance` leaves behind: the value returned, the
content of `*pInstance`, the loader state, and the steps taken in order. -/
structure Outcome where
  result : VkResult
  pInstance : Ptr
  loader : LoaderState
  trace : List Event
  deriving DecidableEq, Repr

/-- The release block shared by the three failure returns after the ICD scan
(`trampoline.c` lines 100-105, 116-123, 137-144). -/
def releaseLists : List Event :=
  [Event.delete_layer_properties LayerList.device_layer_list,
   Event.delete_layer_properties LayerList.instance_layer_list,
   Event.scanned_icd_clear,
   Event.destroy_ext_list]

/-- The body of `vkCreateInstance`, lines 88-171: from the ICD scan to the end.  `t` is the
trace so far, `pInstance` the content of the caller's output cell. -/
def vkCreateInstance_fromIcdScan (c : Collaborators) (loader : LoaderState)
    (pInstance : Ptr) (ptr_instance : Ptr) (t : List Event) : Outcome :=
  let t := t ++ [Event.memset_icd_libs, Event.icd_scan,
                 Event.get_icd_loader_instance_extensions]
  let res := c.validate_instance_extensions
  let t := t ++ [Event.validate_instance_extensions res]
  if res ≠ VK_SUCCESS then
    { result := res, pInstance := pInstance, loader := loader,
      trace := t ++ releaseLists ++
        [Event.unlock_mutex, Event.heap_free_instance ptr_instance] }
  else
    let disp := c.alloc_disp
    let t := t ++ [Event.heap_alloc_disp disp]
    if disp = NULL then
      { result := VK_ERROR_OUT_OF_HOST_MEMORY, pInstance := pInstance, loader := loader,
        trace := t ++ releaseLists ++
          [Event.unlock_mutex, Event.heap_free_instance ptr_instance] }
    else
      let next := loader.instances
      let loader := { loader with instances := ptr_instance :: next }
      let t := t ++ [Event.memcpy_instance_disp, Event.link_instance ptr_instance]
      let res := c.enable_instance_layers
      let t := t ++ [Event.enable_instance_layers res]
      if res ≠ VK_SUCCESS then
        { result := res, pInstance := pInstance,
          loader := { loader with instances := next },
          trace := t ++ releaseLists ++
            [Event.unlink_instance ptr_instance, Event.unlock_mutex,
             Event.heap_free_disp disp, Event.heap_free_instance ptr_instance] }
      else
        let t := t ++ [Event.activate_instance_layers,
                       Event.wsi_swapchain_create_instance,
                       Event.debug_report_create_instance]
        let pInstance := ptr_instance
        let t := t ++ [Event.write_pInstance ptr_instance]
        let res := c.chain_CreateInstance
        let t := t ++ [Event.chain_CreateInstance pInstance res]
        let pInstance := c.chain_pInstance.getD pInstance
        { result := res, pInstance := pInstance, loader := loader,
          trace := t ++ [Event.activate_instance_layer_extensions, Event.unlock_mutex] }

/-- The trampoline `vkCreateInstance(pCreateInfo, pAllocator, pInstance)`, lines 35-171.
`loader` is the loader state on entry and `pInstance` the content of the
caller's output cell on entry. -/
def vkCreateInstance (c : Collaborators) (loader : LoaderState) (pInstance : Ptr) : Outcome :=
  let ptr_instance := c.alloc_instance
  let t := [Event.thread_once, Event.alloc_instance c.pAllocator ptr_instance]
  if ptr_instance = NULL then
    { result := VK_ERROR_OUT_OF_HOST_MEMORY, pInstance := pInstance, loader := loader,
      trace := t }
  else
    let t := t ++ [Event.set_tls_instance, Event.lock_mutex, Event.memset_instance]
    let t := if c.pAllocator then t ++ [Event.copy_alloc_callbacks] else t
    let t := t ++ [Event.memset_layer_list LayerList.instance_layer_list,
                   Event.memset_layer_list LayerList.device_layer_list,
                   Event.layer_scan]
    if c.enabledLayerNameCount > 0 then
      let res := c.validate_layers
      let t := t ++ [Event.validate_layers res]
      if res ≠ VK_SUCCESS then
        { result := res, pInstance := pInstance, loader := loader,
          trace := t ++ [Event.unlock_mutex] }
      else
        vkCreateInstance_fromIcdScan c loader pInstance ptr_instance t
    else
      vkCreateInstance_fromIcdScan c loader pInstance ptr_instance t

/-! ## Observations on a trace -/

/-- The resources a call of `vkCreateInstance` constructs and releases. -/
inductive Resource where
  | instance_record
  | instance_layer_list
  | device_layer_list
  | icd_libs
  | ext_list
  | disp_table
  | registry_link
  deriving DecidableEq, Repr

/-- The resources an event brings into being: an allocation that returned a
non-null pointer, a scan filling a list, the insertion into `loader.instances`. -/
def Event.creates : Event → List Resource
  | Event.alloc_instance _ p => if p = NULL then [] else [Resource.instance_record]
  | Event.layer_scan => [Resource.instance_layer_list, Resource.device_layer_list]
  | Event.icd_scan => [Resource.icd_libs]
  | Event.get_icd_loader_instance_extensions => [Resource.ext_list]
  | Event.heap_alloc_disp d => if d = NULL then [] else [Resource.disp_table]
  | Event.link_instance _ => [Resource.registry_link]
  | _ => []

/-- The resource an event releases, if it is a release operation. -/
def Event.releases : Event → List Resource
  | Event.delete_layer_properties LayerList.instance_layer_list => [Resource.instance_layer_list]
  | Event.delete_layer_properties LayerList.device_layer_list => [Resource.device_layer_list]
  | Event.scanned_icd_clear => [Resource.icd_libs]
  | Event.destroy_ext_list => [Resource.ext_list]
  | Event.unlink_instance _ => [Resource.registry_link]
  | Event.heap_free_disp _ => [Resource.disp_table]
  | Event.heap_free_instance _ => [Resource.instance_record]
  | _ => []

/-- The resources created during a trace, in order of creation. -/
def creations : List Event → List Resource
  | [] => []
  | e :: t => e.creates ++ creations t

/-- The resources released during a trace, in order of release. -/
def releases : List Event → List Resource
  | [] => []
  | e :: t => e.releases ++ releases t

/-- The events of a trace before the first `unlock_mutex`. -/
def beforeUnlock : List Event → List Event
  | [] => []
  | e :: t => if e = Event.unlock_mutex then [] else e :: beforeUnlock t

/-- The events of a trace after the first `unlock_mutex`. -/
def afterUnlock : List Event → List Event
  | [] => []
  | e :: t => if e = Event.unlock_mutex then t else afterUnlock t

/-- The events of a trace before the first occurrence of `x`. -/
def eventsBefore (x : Event) : List Event → List Event
  | [] => []
  | e :: t => if e = x then [] else e :: eventsBefore x t

/-! ## Device-level handles -/

/-- Modelled from the spec: `loader.h`, which declares the layout of a
dispatchable handle and the helpers `loader_get_dispatch`, `loader_set_dispatch`
and `loader_init_dispatch`, is not among the sources.  The spec says that the
first memory slot of a dispatchable handle holds the pointer to its dispatch
table; a memory maps the address of each object to that first slot. -/
abbrev Memory := Ptr → Ptr

/-- Modelled from the spec: `loader_get_dispatch(obj)` reads the pointer
embedded in the first slot of `obj`. -/
def loader_get_dispatch (mem : Memory) (obj : Ptr) : Ptr := mem obj

/-- Modelled from the spec: `loader_set_dispatch(obj, data)` writes `data` into
the first slot of `obj`. -/
def loader_set_dispatch (mem : Memory) (obj : Ptr) (data : Ptr) : Memory :=
  fun a => if a = obj then data else mem a

/-- Modelled from the spec: `loader_init_dispatch(obj, data)` stamps a handle
the driver has just created, by the same write as `loader_set_dispatch`. -/
def loader_init_dispatch (mem : Memory) (obj : Ptr) (data : Ptr) : Memory :=
  loader_set_dispatch mem obj data

/-- The field of `VkCommandBufferAllocateInfo` that the trampoline reads. -/
structure VkCommandBufferAllocateInfo where
  bufferCount : Nat
  deriving DecidableEq, Repr

/-- The slots of `VkLayerDispatchTable` used by the stamping trampolines.  A
slot is the next link of the chain: it may read and write any handle's memory
and the caller's output array. -/
structure VkLayerDispatchTable where
  /-- Slot `GetDeviceQueue(device, queueNodeIndex, queueIndex, pQueue)`: takes the
  memory and the content of `*pQueue`, returns both as it leaves them. -/
  GetDeviceQueue : Memory → Ptr → Nat → Nat → Ptr → Memory × Ptr
  /-- Slot `AllocateCommandBuffers(device, pAllocateInfo, pCommandBuffers)`: takes
  the memory and the array, returns its result and both as it leaves them. -/
  AllocateCommandBuffers :
    Memory → Ptr → VkCommandBufferAllocateInfo → (Nat → Ptr) → VkResult × Memory × (Nat → Ptr)

/-- The trampoline `vkGetDeviceQueue(device, queueNodeIndex, queueIndex, pQueue)`,
lines 332-340.  `tables` resolves a table pointer to the table it points to;
the result is the memory and the content of `*pQueue` on return. -/
def vkGetDeviceQueue (tables : Ptr → VkLayerDispatchTable) (mem : Memory)
    (device : Ptr) (queueNodeIndex queueIndex : Nat) (pQueue : Ptr) : Memory × Ptr :=
  let disp := loader_get_dispatch mem device
  let (mem, pQueue) := (tables disp).GetDeviceQueue mem device queueNodeIndex queueIndex pQueue
  (loader_set_dispatch mem pQueue disp, pQueue)

/-- The loop `for (uint32_t i = 0; i < bufferCount; i++) if (pCommandBuffers[i])
loader_init_dispatch(pCommandBuffers[i], disp);` of `vkAllocateCommandBuffers`,
with `remaining = bufferCount - i` iterations left. -/
def stampCommandBuffers (disp : Ptr) (pCommandBuffers : Nat → Ptr) :
    (remaining : Nat) → (i : Nat) → Memory → Memory
  | 0, _, mem => mem
  | remaining + 1, i, mem =>
    stampCommandBuffers disp pCommandBuffers remaining (i + 1)
      (if pCommandBuffers i ≠ NULL then loader_init_dispatch mem (pCommandBuffers i) disp
       else mem)

/-- What `vkAllocateCommandBuffers` leaves behind: the value returned, the
memory, and the array `pCommandBuffers`. -/
structure AllocateOutcome where
  result : VkResult
  mem : Memory
  pCommandBuffers : Nat → Ptr

/-- The trampoline `vkAllocateCommandBuffers(device, pAllocateInfo, pCommandBuffers)`,
lines 992-1012. -/
def vkAllocateCommandBuffers (tables : Ptr → VkLayerDispatchTable) (mem : Memory)
    (device : Ptr) (pAllocateInfo : VkCommandBufferAllocateInfo)
    (pCommandBuffers : Nat → Ptr) : AllocateOutcome :=
  let disp := loader_get_dispatch mem device
  let (res, mem, pCommandBuffers) :=
    (tables disp).AllocateCommandBuffers mem device pAllocateInfo pCommandBuffers
  if res = VK_SUCCESS then
    { result := res,
      mem := stampCommandBuffers disp pCommandBuffers pAllocateInfo.bufferCount 0 mem,
      pCommandBuffers := pCommandBuffers }
  else
    { result := res, mem := mem, pCommandBuffers := pCommandBuffers }

/-- The steps of `vkCreateInstance` from entry to the ICD scan (lines 43-86) on
an execution that reaches the ICD scan; used to state the lemmas below. -/
def prologue (c : Collaborators) : List Event :=
  let t := [Event.thread_once, Event.alloc_instance c.pAllocator c.alloc_instance,
            Event.set_tls_instance, Event.lock_mutex, Event.memset_instance]
  let t := if c.pAllocator then t ++ [Event.copy_alloc_callbacks] else t
  let t := t ++ [Event.memset_layer_list LayerList.instance_layer_list,
                 Event.memset_layer_list LayerList.device_layer_list,
                 Event.layer_scan]
  if c.enabledLayerNameCount > 0 then t ++ [Event.validate_layers c.validate_layers] else t

/-! ## The forwarding trampolines -/

/-- The declared type of a trampoline's first parameter. -/
inductive HandleType where
  | VkInstance
  | VkPhysicalDevice
  | VkDevice
  | VkQueue
  | VkCommandBuffer
  deriving DecidableEq, Repr

/-- The helper a trampoline uses to read the table embedded in a handle. -/
inductive Getter where
  | loader_get_instance_dispatch
  | loader_get_dispatch
  deriving DecidableEq, Repr

/-- The source of a forwarding trampoline `vkX`, whose body is
`disp = getter(getterArg); [return] disp->slot(args);` -/
structure Forwarder where
  /-- The `X` of the trampoline `vkX` -/
  name : Slot
  /-- The declared type of the first parameter -/
  handle : HandleType
  getter : Getter
  /-- The parameter the getter is applied to -/
  getterArg : String
  /-- The slot called through `disp->` -/
  slot : Slot
  /-- The parameter names, in order -/
  params : List String
  /-- The arguments passed to the slot, in order -/
  args : List String
  /-- Whether the body is `return disp->slot(args);` -/
  returnsCall : Bool
  /-- Whether the declared return type is `void` (it is `VkResult` otherwise) -/
  isVoid : Bool
  deriving DecidableEq, Repr

/-- The forwarding trampolines whose first parameter is a `VkPhysicalDevice`. -/
def physicalDeviceForwarders : List Forwarder :=
  [
    { name := Slot.GetPhysicalDeviceFeatures, handle := HandleType.VkPhysicalDevice, getter := Getter.loader_get_instance_dispatch,
      getterArg := "gpu", slot := Slot.GetPhysicalDeviceFeatures,
      params := ["gpu", "pFeatures"],
      args := ["gpu", "pFeatures"],
      returnsCall := false, isVoid := true },
    { name := Slot.GetPhysicalDeviceFormatProperties, handle := HandleType.VkPhysicalDevice, getter := Getter.loader_get_instance_dispatch,
      getterArg := "gpu", slot := Slot.GetPhysicalDeviceFormatProperties,
      params := ["gpu", "format", "pFormatInfo"],
      args := ["gpu", "format", "pFormatInfo"],
      returnsCall := false, isVoid := true },
    { name := Slot.GetPhysicalDeviceImageFormatProperties, handle := HandleType.VkPhysicalDevice, getter := Getter.loader_get_instance_dispatch,
      getterArg := "physicalDevice", slot := Slot.GetPhysicalDeviceImageFormatProperties,
      params := ["physicalDevice", "format", "type", "tiling", "usage", "flags", "pImageFormatProperties"],
      args := ["physicalDevice", "format", "type", "tiling", "usage", "flags", "pImageFormatProperties"],
      returnsCall := false, isVoid := true },
    { name := Slot.GetPhysicalDeviceProperties, handle := HandleType.VkPhysicalDevice, getter := Getter.loader_get_instance_dispatch,
      getterArg := "gpu", slot := Slot.GetPhysicalDeviceProperties,
      params := ["gpu", "pProperties"],
      args := ["gpu", "pProperties"],
      returnsCall := false, isVoid := true },
    { name := Slot.GetPhysicalDeviceQueueFamilyProperties, handle := HandleType.VkPhysicalDevice, getter := Getter.loader_get_instance_dispatch,
      getterArg := "gpu", slot := Slot.GetPhysicalDeviceQueueFamilyProperties,
      params := ["gpu", "pQueueFamilyPropertyCount", "pQueueProperties"],
      args := ["gpu", "pQueueFamilyPropertyCount", "pQueueProperties"],
      returnsCall := false, isVoid := true },
    { name := Slot.GetPhysicalDeviceMemoryProperties, handle := HandleType.VkPhysicalDevice, getter := Getter.loader_get_instance_dispatch,
      getterArg := "gpu", slot := Slot.GetPhysicalDeviceMemoryProperties,
      params := ["gpu", "pMemoryProperties"],
      args := ["gpu", "pMemoryProperties"],
      returnsCall := false, isVoid := true },
    { name := Slot.GetPhysicalDeviceSparseImageFormatProperties, handle := HandleType.VkPhysicalDevice, getter := Getter.loader_get_instance_dispatch,
      getterArg := "physicalDevice", slot := Slot.GetPhysicalDeviceSparseImageFormatProperties,
      params := ["physicalDevice", "format", "type", "samples", "usage", "tiling", "pPropertyCount", "pProperties"],
      args := ["physicalDevice", "format", "type", "samples", "usage", "tiling", "pPropertyCount", "pProperties"],
      returnsCall := false, isVoid := true }
  ]

/-- The forwarding trampolines whose first parameter is a `VkQueue`. -/
def queueForwarders : List Forwarder :=
  [
    { name := Slot.QueueSubmit, handle := HandleType.VkQueue, getter := Getter.loader_get_dispatch,
      getterArg := "queue", slot := Slot.QueueSubmit,
      params := ["queue", "submitCount", "pSubmits", "fence"],
      args := ["queue", "submitCount", "pSubmits", "fence"],
      returnsCall := true, isVoid := false },
    { name := Slot.QueueWaitIdle, handle := HandleType.VkQueue, getter := Getter.loader_get_dispatch,
      getterArg := "queue", slot := Slot.QueueWaitIdle,
      params := ["queue"],
      args := ["queue"],
      returnsCall := true, isVoid := false },
    { name := Slot.QueueBindSparse, handle := HandleType.VkQueue, getter := Getter.loader_get_dispatch,
      getterArg := "queue", slot := Slot.QueueBindSparse,
      params := ["queue", "bindInfoCount", "pBindInfo", "fence"],
      args := ["queue", "bindInfoCount", "pBindInfo", "fence"],
      returnsCall := true, isVoid := false }
  ]

/-- The forwarding trampolines whose first parameter is a `VkDevice` (part 1 of 3, in source order). -/
def deviceForwarders1 : List Forwarder :=
  [
    { name := Slot.DeviceWaitIdle, handle := HandleType.VkDevice, getter := Getter.loader_get_dispatch,
      getterArg := "device", slot := Slot.DeviceWaitIdle,
      params := ["device"],
      args := ["device"],
      returnsCall := true, isVoid := false },
    { name := Slot.AllocateMemory, handle := HandleType.VkDevice, getter := Getter.loader_get_dispatch,
      getterArg := "device", slot := Slot.AllocateMemory,
      params := ["device", "pAllocateInfo", "pAllocator", "pMemory"],
      args := ["device", "pAllocateInfo", "pAllocator", "pMemory"],
      returnsCall := true, isVoid := false },
    { name := Slot.FreeMemory, handle := HandleType.VkDevice, getter := Getter.loader_get_dispatch,
      getterArg := "device", slot := Slot.FreeMemory,
      params := ["device", "mem", "pAllocator"],
      args := ["device", "mem", "pAllocator"],
      returnsCall := false, isVoid := true },
    { name := Slot.MapMemory, handle := HandleType.VkDevice, getter := Getter.loader_get_dispatch,
      getterArg := "device", slot := Slot.MapMemory,
      params := ["device", "mem", "offset", "size", "flags", "ppData"],
      args := ["device", "mem", "offset", "size", "flags", "ppData"],
      returnsCall := true, isVoid := false },
    { name := Slot.UnmapMemory, handle := HandleType.VkDevice, getter := Getter.loader_get_dispatch,
      getterArg := "device", slot := Slot.UnmapMemory,
      params := ["device", "mem"],
      args := ["device", "mem"],
      returnsCall := false, isVoid := true },
    { name := Slot.FlushMappedMemoryRanges, handle := HandleType.VkDevice, getter := Getter.loader_get_dispatch,
      getterArg := "device", slot := Slot.FlushMappedMemoryRanges,
      params := ["device", "memoryRangeCount", "pMemoryRanges"],
      args := ["device", "memoryRangeCount", "pMemoryRanges"],
      returnsCall := true, isVoid := false },
    { name := Slot.InvalidateMappedMemoryRanges, handle := HandleType.VkDevice, getter := Getter.loader_get_dispatch,
      getterArg := "device", slot := Slot.InvalidateMappedMemoryRanges,
      params := ["device", "memoryRangeCount", "pMemoryRanges"],
      args := ["device", "memoryRangeCount", "pMemoryRanges"],
      returnsCall := true, isVoid := false },
    { name := Slot.GetDeviceMemoryCommitment, handle := HandleType.VkDevice, getter := Getter.loader_get_dispatch,
      getterArg := "device", slot := Slot.GetDeviceMemoryCommitment,
      params := ["device", "memory", "pCommittedMemoryInBytes"],
      args := ["device", "memory", "pCommittedMemoryInBytes"],
      returnsCall := false, isVoid := true },
    { name := Slot.BindBufferMemory, handle := HandleType.VkDevice, getter := Getter.loader_get_dispatch,
      getterArg := "device", slot := Slot.BindBufferMemory,
      params := ["device", "buffer", "mem", "offset"],
      args := ["device", "buffer", "mem", "offset"],
      returnsCall := true, isVoid := false },
    { name := Slot.BindImageMemory, handle := HandleType.VkDevice, getter := Getter.loader_get_dispatch,
      getterArg := "device", slot := Slot.BindImageMemory,
      params := ["device", "image", "mem", "offset"],
      args := ["device", "image", "mem", "offset"],
      returnsCall := true, isVoid := false },
    { name := Slot.GetBufferMemoryRequirements, handle := HandleType.VkDevice, getter := Getter.loader_get_dispatch,
      getterArg := "device", slot := Slot.GetBufferMemoryRequirements,
      params := ["device", "buffer", "pMemoryRequirements"],
      args := ["device", "buffer", "pMemoryRequirements"],
      returnsCall := false, isVoid := true },
    { name := Slot.GetImageMemoryRequirements, handle := HandleType.VkDevice, getter := Getter.loader_get_dispatch,
      getterArg := "device", slot := Slot.GetImageMemoryRequirements,
      params := ["device", "image", "pMemoryRequirements"],
      args := ["device", "image", "pMemoryRequirements"],
      returnsCall := false, isVoid := true },
    { name := Slot.GetImageSparseMemoryRequirements, handle := HandleType.VkDevice, getter := Getter.loader_get_dispatch,
      getterArg := "device", slot := Slot.GetImageSparseMemoryRequirements,
      params := ["device", "image", "pSparseMemoryRequirementCount", "pSparseMemoryRequirements"],
      args := ["device", "image", "pSparseMemoryRequirementCount", "pSparseMemoryRequirements"],
      returnsCall := false, isVoid := true },
    { name := Slot.CreateFence, handle := HandleType.VkDevice, getter := Getter.loader_get_dispatch,
      getterArg := "device", slot := Slot.CreateFence,
      params := ["device", "pCreateInfo", "pAllocator", "pFence"],
      args := ["device", "pCreateInfo", "pAllocator", "pFence"],
      returnsCall := true, isVoid := false },
    { name := Slot.DestroyFence, handle := HandleType.VkDevice, getter := Getter.loader_get_dispatch,
      getterArg := "device", slot := Slot.DestroyFence,
      params := ["device", "fence", "pAllocator"],
      args := ["device", "fence", "pAllocator"],
      returnsCall := false, isVoid := true },
    { name := Slot.ResetFences, handle := HandleType.VkDevice, getter := Getter.loader_get_dispatch,
      getterArg := "device", slot := Slot.ResetFences,
      params := ["device", "fenceCount", "pFences"],
      args := ["device", "fenceCount", "pFences"],
      returnsCall := true, isVoid := false },
    { name := Slot.GetFenceStatus, handle := HandleType.VkDevice, getter := Getter.loader_get_dispatch,
      getterArg := "device", slot := Slot.GetFenceStatus,
      params := ["device", "fence"],
      args := ["device", "fence"],
      returnsCall := true, isVoid := false },
    { name := Slot.WaitForFences, handle := HandleType.VkDevice, getter := Getter.loader_get_dispatch,
      getterArg := "device", slot := Slot.WaitForFences,
      params := ["device", "fenceCount", "pFences", "waitAll", "timeout"],
      args := ["device", "fenceCount", "pFences", "waitAll", "timeout"],
      returnsCall := true, isVoid := false },
    { name := Slot.CreateSemaphore, handle := HandleType.VkDevice, getter := Getter.loader_get_dispatch,
      getterArg := "device", slot := Slot.CreateSemaphore,
      params := ["device", "pCreateInfo", "pAllocator", "pSemaphore"],
      args := ["device", "pCreateInfo", "pAllocator", "pSemaphore"],
      returnsCall := true, isVoid := false },
    { name := Slot.DestroySemaphore, handle := HandleType.VkDevice, getter := Getter.loader_get_dispatch,
      getterArg := "device", slot := Slot.DestroySemaphore,
      params := ["device", "semaphore", "pAllocator"],
      args := ["device", "semaphore", "pAllocator"],
      returnsCall := false, isVoid := true },
    { name := Slot.CreateEvent, handle := HandleType.VkDevice, getter := Getter.loader_get_dispatch,
      getterArg := "device", slot := Slot.CreateEvent,
      params := ["device", "pCreateInfo", "pAllocator", "pEvent"],
      args := ["device", "pCreateInfo", "pAllocator", "pEvent"],
      returnsCall := true, isVoid := false },
    { name := Slot.DestroyEvent, handle := HandleType.VkDevice, getter := Getter.loader_get_dispatch,
      getterArg := "device", slot := Slot.DestroyEvent,
      params := ["device", "event", "pAllocator"],
      args := ["device", "event", "pAllocator"],
      returnsCall := false, isVoid := true },
    { name := Slot.GetEventStatus, handle := HandleType.VkDevice, getter := Getter.loader_get_dispatch,
      getterArg := "device", slot := Slot.GetEventStatus,
      params := ["device", "event"],
      args := ["device", "event"],
      returnsCall := true, isVoid := false },
    { name := Slot.SetEvent, handle := HandleType.VkDevice, getter := Getter.loader_get_dispatch,
      getterArg := "device", slot := Slot.SetEvent,
      params := ["device", "event"],
      args := ["device", "event"],
      returnsCall := true, isVoid := false }
  ]

/-- The forwarding trampolines whose first parameter is a `VkDevice` (part 2 of 3, in source order). -/
def deviceForwarders2 : List Forwarder :=
  [
    { name := Slot.ResetEvent, handle := HandleType.VkDevice, getter := Getter.loader_get_dispatch,
      getterArg := "device", slot := Slot.ResetEvent,
      params := ["device", "event"],
      args := ["device", "event"],
      returnsCall := true, isVoid := false },
    { name := Slot.CreateQueryPool, handle := HandleType.VkDevice, getter := Getter.loader_get_dispatch,
      getterArg := "device", slot := Slot.CreateQueryPool,
      params := ["device", "pCreateInfo", "pAllocator", "pQueryPool"],
      args := ["device", "pCreateInfo", "pAllocator", "pQueryPool"],
      returnsCall := true, isVoid := false },
    { name := Slot.DestroyQueryPool, handle := HandleType.VkDevice, getter := Getter.loader_get_dispatch,
      getterArg := "device", slot := Slot.DestroyQueryPool,
      params := ["device", "queryPool", "pAllocator"],
      args := ["device", "queryPool", "pAllocator"],
      returnsCall := false, isVoid := true },
    { name := Slot.GetQueryPoolResults, handle := HandleType.VkDevice, getter := Getter.loader_get_dispatch,
      getterArg := "device", slot := Slot.GetQueryPoolResults,
      params := ["device", "queryPool", "startQuery", "queryCount", "dataSize", "pData", "stride", "flags"],
      args := ["device", "queryPool", "startQuery", "queryCount", "dataSize", "pData", "stride", "flags"],
      returnsCall := true, isVoid := false },
    { name := Slot.CreateBuffer, handle := HandleType.VkDevice, getter := Getter.loader_get_dispatch,
      getterArg := "device", slot := Slot.CreateBuffer,
      params := ["device", "pCreateInfo", "pAllocator", "pBuffer"],
      args := ["device", "pCreateInfo", "pAllocator", "pBuffer"],
      returnsCall := true, isVoid := false },
    { name := Slot.DestroyBuffer, handle := HandleType.VkDevice, getter := Getter.loader_get_dispatch,
      getterArg := "device", slot := Slot.DestroyBuffer,
      params := ["device", "buffer", "pAllocator"],
      args := ["device", "buffer", "pAllocator"],
      returnsCall := false, isVoid := true },
    { name := Slot.CreateBufferView, handle := HandleType.VkDevice, getter := Getter.loader_get_dispatch,
      getterArg := "device", slot := Slot.CreateBufferView,
      params := ["device", "pCreateInfo", "pAllocator", "pView"],
      args := ["device", "pCreateInfo", "pAllocator", "pView"],
      returnsCall := true, isVoid := false },
    { name := Slot.DestroyBufferView, handle := HandleType.VkDevice, getter := Getter.loader_get_dispatch,
      getterArg := "device", slot := Slot.DestroyBufferView,
      params := ["device", "bufferView", "pAllocator"],
      args := ["device", "bufferView", "pAllocator"],
      returnsCall := false, isVoid := true },
    { name := Slot.CreateImage, handle := HandleType.VkDevice, getter := Getter.loader_get_dispatch,
      getterArg := "device", slot := Slot.CreateImage,
      params := ["device", "pCreateInfo", "pAllocator", "pImage"],
      args := ["device", "pCreateInfo", "pAllocator", "pImage"],
      returnsCall := true, isVoid := false },
    { name := Slot.DestroyImage, handle := HandleType.VkDevice, getter := Getter.loader_get_dispatch,
      getterArg := "device", slot := Slot.DestroyImage,
      params := ["device", "image", "pAllocator"],
      args := ["device", "image", "pAllocator"],
      returnsCall := false, isVoid := true },
    { name := Slot.GetImageSubresourceLayout, handle := HandleType.VkDevice, getter := Getter.loader_get_dispatch,
      getterArg := "device", slot := Slot.GetImageSubresourceLayout,
      params := ["device", "image", "pSubresource", "pLayout"],
      args := ["device", "image", "pSubresource", "pLayout"],
      returnsCall := false, isVoid := true },
    { name := Slot.CreateImageView, handle := HandleType.VkDevice, getter := Getter.loader_get_dispatch,
      getterArg := "device", slot := Slot.CreateImageView,
      params := ["device", "pCreateInfo", "pAllocator", "pView"],
      args := ["device", "pCreateInfo", "pAllocator", "pView"],
      returnsCall := true, isVoid := false },
    { name := Slot.DestroyImageView, handle := HandleType.VkDevice, getter := Getter.loader_get_dispatch,
      getterArg := "device", slot := Slot.DestroyImageView,
      params := ["device", "imageView", "pAllocator"],
      args := ["device", "imageView", "pAllocator"],
      returnsCall := false, isVoid := true },
    { name := Slot.CreateShaderModule, handle := HandleType.VkDevice, getter := Getter.loader_get_dispatch,
      getterArg := "device", slot := Slot.CreateShaderModule,
      params := ["device", "pCreateInfo", "pAllocator", "pShader"],
      args := ["device", "pCreateInfo", "pAllocator", "pShader"],
      returnsCall := true, isVoid := false },
    { name := Slot.DestroyShaderModule, handle := HandleType.VkDevice, getter := Getter.loader_get_dispatch,
      getterArg := "device", slot := Slot.DestroyShaderModule,
      params := ["device", "shaderModule", "pAllocator"],
      args := ["device", "shaderModule", "pAllocator"],
      returnsCall := false, isVoid := true },
    { name := Slot.CreateShader, handle := HandleType.VkDevice, getter := Getter.loader_get_dispatch,
      getterArg := "device", slot := Slot.CreateShader,
      params := ["device", "pCreateInfo", "pAllocator", "pShader"],
      args := ["device", "pCreateInfo", "pAllocator", "pShader"],
      returnsCall := true, isVoid := false },
    { name := Slot.DestroyShader, handle := HandleType.VkDevice, getter := Getter.loader_get_dispatch,
      getterArg := "device", slot := Slot.DestroyShader,
      params := ["device", "shader", "pAllocator"],
      args := ["device", "shader", "pAllocator"],
      returnsCall := false, isVoid := true },
    { name := Slot.CreatePipelineCache, handle := HandleType.VkDevice, getter := Getter.loader_get_dispatch,
      getterArg := "device", slot := Slot.CreatePipelineCache,
      params := ["device", "pCreateInfo", "pAllocator", "pPipelineCache"],
      args := ["device", "pCreateInfo", "pAllocator", "pPipelineCache"],
      returnsCall := true, isVoid := false },
    { name := Slot.DestroyPipelineCache, handle := HandleType.VkDevice, getter := Getter.loader_get_dispatch,
      getterArg := "device", slot := Slot.DestroyPipelineCache,
      params := ["device", "pipelineCache", "pAllocator"],
      args := ["device", "pipelineCache", "pAllocator"],
      returnsCall := false, isVoid := true },
    { name := Slot.GetPipelineCacheData, handle := HandleType.VkDevice, getter := Getter.loader_get_dispatch,
      getterArg := "device", slot := Slot.GetPipelineCacheData,
      params := ["device", "pipelineCache", "pDataSize", "pData"],
      args := ["device", "pipelineCache", "pDataSize", "pData"],
      returnsCall := true, isVoid := false },
    { name := Slot.MergePipelineCaches, handle := HandleType.VkDevice, getter := Getter.loader_get_dispatch,
      getterArg := "device", slot := Slot.MergePipelineCaches,
      params := ["device", "dstCache", "srcCacheCount", "pSrcCaches"],
      args := ["device", "dstCache", "srcCacheCount", "pSrcCaches"],
      returnsCall := true, isVoid := false },
    { name := Slot.CreateGraphicsPipelines, handle := HandleType.VkDevice, getter := Getter.loader_get_dispatch,
      getterArg := "device", slot := Slot.CreateGraphicsPipelines,
      params := ["device", "pipelineCache", "createInfoCount", "pCreateInfos", "pAllocator", "pPipelines"],
      args := ["device", "pipelineCache", "createInfoCount", "pCreateInfos", "pAllocator", "pPipelines"],
      returnsCall := true, isVoid := false },
    { name := Slot.CreateComputePipelines, handle := HandleType.VkDevice, getter := Getter.loader_get_dispatch,
      getterArg := "device", slot := Slot.CreateComputePipelines,
      params := ["device", "pipelineCache", "createInfoCount", "pCreateInfos", "pAllocator", "pPipelines"],
      args := ["device", "pipelineCache", "createInfoCount", "pCreateInfos", "pAllocator", "pPipelines"],
      returnsCall := true, isVoid := false },
    { name := Slot.DestroyPipeline, handle := HandleType.VkDevice, getter := Getter.loader_get_dispatch,
      getterArg := "device", slot := Slot.DestroyPipeline,
      params := ["device", "pipeline", "pAllocator"],
      args := ["device", "pipeline", "pAllocator"],
      returnsCall := false, isVoid := true }
  ]

/-- The forwarding trampolines whose first parameter is a `VkDevice` (part 3 of 3, in source order). -/
def deviceForwarders3 : List Forwarder :=
  [
    { name := Slot.CreatePipelineLayout, handle := HandleType.VkDevice, getter := Getter.loader_get_dispatch,
      getterArg := "device", slot := Slot.CreatePipelineLayout,
      params := ["device", "pCreateInfo", "pAllocator", "pPipelineLayout"],
      args := ["device", "pCreateInfo", "pAllocator", "pPipelineLayout"],
      returnsCall := true, isVoid := false },
    { name := Slot.DestroyPipelineLayout, handle := HandleType.VkDevice, getter := Getter.loader_get_dispatch,
      getterArg := "device", slot := Slot.DestroyPipelineLayout,
      params := ["device", "pipelineLayout", "pAllocator"],
      args := ["device", "pipelineLayout", "pAllocator"],
      returnsCall := false, isVoid := true },
    { name := Slot.CreateSampler, handle := HandleType.VkDevice, getter := Getter.loader_get_dispatch,
      getterArg := "device", slot := Slot.CreateSampler,
      params := ["device", "pCreateInfo", "pAllocator", "pSampler"],
      args := ["device", "pCreateInfo", "pAllocator", "pSampler"],
      returnsCall := true, isVoid := false },
    { name := Slot.DestroySampler, handle := HandleType.VkDevice, getter := Getter.loader_get_dispatch,
      getterArg := "device", slot := Slot.DestroySampler,
      params := ["device", "sampler", "pAllocator"],
      args := ["device", "sampler", "pAllocator"],
      returnsCall := false, isVoid := true },
    { name := Slot.CreateDescriptorSetLayout, handle := HandleType.VkDevice, getter := Getter.loader_get_dispatch,
      getterArg := "device", slot := Slot.CreateDescriptorSetLayout,
      params := ["device", "pCreateInfo", "pAllocator", "pSetLayout"],
      args := ["device", "pCreateInfo", "pAllocator", "pSetLayout"],
      returnsCall := true, isVoid := false },
    { name := Slot.DestroyDescriptorSetLayout, handle := HandleType.VkDevice, getter := Getter.loader_get_dispatch,
      getterArg := "device", slot := Slot.DestroyDescriptorSetLayout,
      params := ["device", "descriptorSetLayout", "pAllocator"],
      args := ["device", "descriptorSetLayout", "pAllocator"],
      returnsCall := false, isVoid := true },
    { name := Slot.CreateDescriptorPool, handle := HandleType.VkDevice, getter := Getter.loader_get_dispatch,
      getterArg := "device", slot := Slot.CreateDescriptorPool,
      params := ["device", "pCreateInfo", "pAllocator", "pDescriptorPool"],
      args := ["device", "pCreateInfo", "pAllocator", "pDescriptorPool"],
      returnsCall := true, isVoid := false },
    { name := Slot.DestroyDescriptorPool, handle := HandleType.VkDevice, getter := Getter.loader_get_dispatch,
      getterArg := "device", slot := Slot.DestroyDescriptorPool,
      params := ["device", "descriptorPool", "pAllocator"],
      args := ["device", "descriptorPool", "pAllocator"],
      returnsCall := false, isVoid := true },
    { name := Slot.ResetDescriptorPool, handle := HandleType.VkDevice, getter := Getter.loader_get_dispatch,
      getterArg := "device", slot := Slot.ResetDescriptorPool,
      params := ["device", "descriptorPool", "flags"],
      args := ["device", "descriptorPool", "flags"],
      returnsCall := true, isVoid := false },
    { name := Slot.AllocateDescriptorSets, handle := HandleType.VkDevice, getter := Getter.loader_get_dispatch,
      getterArg := "device", slot := Slot.AllocateDescriptorSets,
      params := ["device", "pAllocateInfo", "pDescriptorSets"],
      args := ["device", "pAllocateInfo", "pDescriptorSets"],
      returnsCall := true, isVoid := false },
    { name := Slot.FreeDescriptorSets, handle := HandleType.VkDevice, getter := Getter.loader_get_dispatch,
      getterArg := "device", slot := Slot.FreeDescriptorSets,
      params := ["device", "descriptorPool", "descriptorSetCount", "pDescriptorSets"],
      args := ["device", "descriptorPool", "descriptorSetCount", "pDescriptorSets"],
      returnsCall := true, isVoid := false },
    { name := Slot.UpdateDescriptorSets, handle := HandleType.VkDevice, getter := Getter.loader_get_dispatch,
      getterArg := "device", slot := Slot.UpdateDescriptorSets,
      params := ["device", "descriptorWriteCount", "pDescriptorWrites", "descriptorCopyCount", "pDescriptorCopies"],
      args := ["device", "descriptorWriteCount", "pDescriptorWrites", "descriptorCopyCount", "pDescriptorCopies"],
      returnsCall := false, isVoid := true },
    { name := Slot.CreateFramebuffer, handle := HandleType.VkDevice, getter := Getter.loader_get_dispatch,
      getterArg := "device", slot := Slot.CreateFramebuffer,
      params := ["device", "pCreateInfo", "pAllocator", "pFramebuffer"],
      args := ["device", "pCreateInfo", "pAllocator", "pFramebuffer"],
      returnsCall := true, isVoid := false },
    { name := Slot.DestroyFramebuffer, handle := HandleType.VkDevice, getter := Getter.loader_get_dispatch,
      getterArg := "device", slot := Slot.DestroyFramebuffer,
      params := ["device", "framebuffer", "pAllocator"],
      args := ["device", "framebuffer", "pAllocator"],
      returnsCall := false, isVoid := true },
    { name := Slot.CreateRenderPass, handle := HandleType.VkDevice, getter := Getter.loader_get_dispatch,
      getterArg := "device", slot := Slot.CreateRenderPass,
      params := ["device", "pCreateInfo", "pAllocator", "pRenderPass"],
      args := ["device", "pCreateInfo", "pAllocator", "pRenderPass"],
      returnsCall := true, isVoid := false },
    { name := Slot.DestroyRenderPass, handle := HandleType.VkDevice, getter := Getter.loader_get_dispatch,
      getterArg := "device", slot := Slot.DestroyRenderPass,
      params := ["device", "renderPass", "pAllocator"],
      args := ["device", "renderPass", "pAllocator"],
      returnsCall := false, isVoid := true },
    { name := Slot.GetRenderAreaGranularity, handle := HandleType.VkDevice, getter := Getter.loader_get_dispatch,
      getterArg := "device", slot := Slot.GetRenderAreaGranularity,
      params := ["device", "renderPass", "pGranularity"],
      args := ["device", "renderPass", "pGranularity"],
      returnsCall := false, isVoid := true },
    { name := Slot.CreateCommandPool, handle := HandleType.VkDevice, getter := Getter.loader_get_dispatch,
      getterArg := "device", slot := Slot.CreateCommandPool,
      params := ["device", "pCreateInfo", "pAllocator", "pCommandPool"],
      args := ["device", "pCreateInfo", "pAllocator", "pCommandPool"],
      returnsCall := true, isVoid := false },
    { name := Slot.DestroyCommandPool, handle := HandleType.VkDevice, getter := Getter.loader_get_dispatch,
      getterArg := "device", slot := Slot.DestroyCommandPool,
      params := ["device", "commandPool", "pAllocator"],
      args := ["device", "commandPool", "pAllocator"],
      returnsCall := false, isVoid := true },
    { name := Slot.ResetCommandPool, handle := HandleType.VkDevice, getter := Getter.loader_get_dispatch,
      getterArg := "device", slot := Slot.ResetCommandPool,
      params := ["device", "commandPool", "flags"],
      args := ["device", "commandPool", "flags"],
      returnsCall := true, isVoid := false },
    { name := Slot.FreeCommandBuffers, handle := HandleType.VkDevice, getter := Getter.loader_get_dispatch,
      getterArg := "device", slot := Slot.FreeCommandBuffers,
      params := ["device", "commandPool", "commandBufferCount", "pCommandBuffers"],
      args := ["device", "commandPool", "commandBufferCount", "pCommandBuffers"],
      returnsCall := false, isVoid := true }
  ]

/-- The forwarding trampolines whose first parameter is a `VkCommandBuffer` (part 1 of 2, in source order). -/
def commandBufferForwarders1 : List Forwarder :=
  [
    { name := Slot.BeginCommandBuffer, handle := HandleType.VkCommandBuffer, getter := Getter.loader_get_dispatch,
      getterArg := "commandBuffer", slot := Slot.BeginCommandBuffer,
      params := ["commandBuffer", "pBeginInfo"],
      args := ["commandBuffer", "pBeginInfo"],
      returnsCall := true, isVoid := false },
    { name := Slot.EndCommandBuffer, handle := HandleType.VkCommandBuffer, getter := Getter.loader_get_dispatch,
      getterArg := "commandBuffer", slot := Slot.EndCommandBuffer,
      params := ["commandBuffer"],
      args := ["commandBuffer"],
      returnsCall := true, isVoid := false },
    { name := Slot.ResetCommandBuffer, handle := HandleType.VkCommandBuffer, getter := Getter.loader_get_dispatch,
      getterArg := "commandBuffer", slot := Slot.ResetCommandBuffer,
      params := ["commandBuffer", "flags"],
      args := ["commandBuffer", "flags"],
      returnsCall := true, isVoid := false },
    { name := Slot.CmdBindPipeline, handle := HandleType.VkCommandBuffer, getter := Getter.loader_get_dispatch,
      getterArg := "commandBuffer", slot := Slot.CmdBindPipeline,
      params := ["commandBuffer", "pipelineBindPoint", "pipeline"],
      args := ["commandBuffer", "pipelineBindPoint", "pipeline"],
      returnsCall := false, isVoid := true },
    { name := Slot.CmdSetViewport, handle := HandleType.VkCommandBuffer, getter := Getter.loader_get_dispatch,
      getterArg := "commandBuffer", slot := Slot.CmdSetViewport,
      params := ["commandBuffer", "viewportCount", "pViewports"],
      args := ["commandBuffer", "viewportCount", "pViewports"],
      returnsCall := false, isVoid := true },
    { name := Slot.CmdSetScissor, handle := HandleType.VkCommandBuffer, getter := Getter.loader_get_dispatch,
      getterArg := "commandBuffer", slot := Slot.CmdSetScissor,
      params := ["commandBuffer", "scissorCount", "pScissors"],
      args := ["commandBuffer", "scissorCount", "pScissors"],
      returnsCall := false, isVoid := true },
    { name := Slot.CmdSetLineWidth, handle := HandleType.VkCommandBuffer, getter := Getter.loader_get_dispatch,
      getterArg := "commandBuffer", slot := Slot.CmdSetLineWidth,
      params := ["commandBuffer", "lineWidth"],
      args := ["commandBuffer", "lineWidth"],
      returnsCall := false, isVoid := true },
    { name := Slot.CmdSetDepthBias, handle := HandleType.VkCommandBuffer, getter := Getter.loader_get_dispatch,
      getterArg := "commandBuffer", slot := Slot.CmdSetDepthBias,
      params := ["commandBuffer", "depthBiasConstantFactor", "depthBiasClamp", "depthBiasSlopeFactor"],
      args := ["commandBuffer", "depthBiasConstantFactor", "depthBiasClamp", "depthBiasSlopeFactor"],
      returnsCall := false, isVoid := true },
    { name := Slot.CmdSetBlendConstants, handle := HandleType.VkCommandBuffer, getter := Getter.loader_get_dispatch,
      getterArg := "commandBuffer", slot := Slot.CmdSetBlendConstants,
      params := ["commandBuffer", "blendConstants"],
      args := ["commandBuffer", "blendConstants"],
      returnsCall := false, isVoid := true },
    { name := Slot.CmdSetDepthBounds, handle := HandleType.VkCommandBuffer, getter := Getter.loader_get_dispatch,
      getterArg := "commandBuffer", slot := Slot.CmdSetDepthBounds,
      params := ["commandBuffer", "minDepthBounds", "maxDepthBounds"],
      args := ["commandBuffer", "minDepthBounds", "maxDepthBounds"],
      returnsCall := false, isVoid := true },
    { name := Slot.CmdSetStencilCompareMask, handle := HandleType.VkCommandBuffer, getter := Getter.loader_get_dispatch,
      getterArg := "commandBuffer", slot := Slot.CmdSetStencilCompareMask,
      params := ["commandBuffer", "faceMask", "stencilCompareMask"],
      args := ["commandBuffer", "faceMask", "stencilCompareMask"],
      returnsCall := false, isVoid := true },
    { name := Slot.CmdSetStencilWriteMask, handle := HandleType.VkCommandBuffer, getter := Getter.loader_get_dispatch,
      getterArg := "commandBuffer", slot := Slot.CmdSetStencilWriteMask,
      params := ["commandBuffer", "faceMask", "stencilWriteMask"],
      args := ["commandBuffer", "faceMask", "stencilWriteMask"],
      returnsCall := false, isVoid := true },
    { name := Slot.CmdSetStencilReference, handle := HandleType.VkCommandBuffer, getter := Getter.loader_get_dispatch,
      getterArg := "commandBuffer", slot := Slot.CmdSetStencilReference,
      params := ["commandBuffer", "faceMask", "stencilReference"],
      args := ["commandBuffer", "faceMask", "stencilReference"],
      returnsCall := false, isVoid := true },
    { name := Slot.CmdBindDescriptorSets, handle := HandleType.VkCommandBuffer, getter := Getter.loader_get_dispatch,
      getterArg := "commandBuffer", slot := Slot.CmdBindDescriptorSets,
      params := ["commandBuffer", "pipelineBindPoint", "layout", "firstSet", "descriptorSetCount", "pDescriptorSets", "dynamicOffsetCount", "pDynamicOffsets"],
      args := ["commandBuffer", "pipelineBindPoint", "layout", "firstSet", "descriptorSetCount", "pDescriptorSets", "dynamicOffsetCount", "pDynamicOffsets"],
      returnsCall := false, isVoid := true },
    { name := Slot.CmdBindIndexBuffer, handle := HandleType.VkCommandBuffer, getter := Getter.loader_get_dispatch,
      getterArg := "commandBuffer", slot := Slot.CmdBindIndexBuffer,
      params := ["commandBuffer", "buffer", "offset", "indexType"],
      args := ["commandBuffer", "buffer", "offset", "indexType"],
      returnsCall := false, isVoid := true },
    { name := Slot.CmdBindVertexBuffers, handle := HandleType.VkCommandBuffer, getter := Getter.loader_get_dispatch,
      getterArg := "commandBuffer", slot := Slot.CmdBindVertexBuffers,
      params := ["commandBuffer", "startBinding", "bindingCount", "pBuffers", "pOffsets"],
      args := ["commandBuffer", "startBinding", "bindingCount", "pBuffers", "pOffsets"],
      returnsCall := false, isVoid := true },
    { name := Slot.CmdDraw, handle := HandleType.VkCommandBuffer, getter := Getter.loader_get_dispatch,
      getterArg := "commandBuffer", slot := Slot.CmdDraw,
      params := ["commandBuffer", "vertexCount", "instanceCount", "firstVertex", "firstInstance"],
      args := ["commandBuffer", "vertexCount", "instanceCount", "firstVertex", "firstInstance"],
      returnsCall := false, isVoid := true },
    { name := Slot.CmdDrawIndexed, handle := HandleType.VkCommandBuffer, getter := Getter.loader_get_dispatch,
      getterArg := "commandBuffer", slot := Slot.CmdDrawIndexed,
      params := ["commandBuffer", "indexCount", "instanceCount", "firstIndex", "vertexOffset", "firstInstance"],
      args := ["commandBuffer", "indexCount", "instanceCount", "firstIndex", "vertexOffset", "firstInstance"],
      returnsCall := false, isVoid := true },
    { name := Slot.CmdDrawIndirect, handle := HandleType.VkCommandBuffer, getter := Getter.loader_get_dispatch,
      getterArg := "commandBuffer", slot := Slot.CmdDrawIndirect,
      params := ["commandBuffer", "buffer", "offset", "drawCount", "stride"],
      args := ["commandBuffer", "buffer", "offset", "drawCount", "stride"],
      returnsCall := false, isVoid := true },
    { name := Slot.CmdDrawIndexedIndirect, handle := HandleType.VkCommandBuffer, getter := Getter.loader_get_dispatch,
      getterArg := "commandBuffer", slot := Slot.CmdDrawIndexedIndirect,
      params := ["commandBuffer", "buffer", "offset", "drawCount", "stride"],
      args := ["commandBuffer", "buffer", "offset", "drawCount", "stride"],
      returnsCall := false, isVoid := true },
    { name := Slot.CmdDispatch, handle := HandleType.VkCommandBuffer, getter := Getter.loader_get_dispatch,
      getterArg := "commandBuffer", slot := Slot.CmdDispatch,
      params := ["commandBuffer", "x", "y", "z"],
      args := ["commandBuffer", "x", "y", "z"],
      returnsCall := false, isVoid := true },
    { name := Slot.CmdDispatchIndirect, handle := HandleType.VkCommandBuffer, getter := Getter.loader_get_dispatch,
      getterArg := "commandBuffer", slot := Slot.CmdDispatchIndirect,
      params := ["commandBuffer", "buffer", "offset"],
      args := ["commandBuffer", "buffer", "offset"],
      returnsCall := false, isVoid := true },
    { name := Slot.CmdCopyBuffer, handle := HandleType.VkCommandBuffer, getter := Getter.loader_get_dispatch,
      getterArg := "commandBuffer", slot := Slot.CmdCopyBuffer,
      params := ["commandBuffer", "srcBuffer", "dstBuffer", "regionCount", "pRegions"],
      args := ["commandBuffer", "srcBuffer", "dstBuffer", "regionCount", "pRegions"],
      returnsCall := false, isVoid := true },
    { name := Slot.CmdCopyImage, handle := HandleType.VkCommandBuffer, getter := Getter.loader_get_dispatch,
      getterArg := "commandBuffer", slot := Slot.CmdCopyImage,
      params := ["commandBuffer", "srcImage", "srcImageLayout", "dstImage", "dstImageLayout", "regionCount", "pRegions"],
      args := ["commandBuffer", "srcImage", "srcImageLayout", "dstImage", "dstImageLayout", "regionCount", "pRegions"],
      returnsCall := false, isVoid := true }
  ]

/-- The forwarding trampolines whose first parameter is a `VkCommandBuffer` (part 2 of 2, in source order). -/
def commandBufferForwarders2 : List Forwarder :=
  [
    { name := Slot.CmdBlitImage, handle := HandleType.VkCommandBuffer, getter := Getter.loader_get_dispatch,
      getterArg := "commandBuffer", slot := Slot.CmdBlitImage,
      params := ["commandBuffer", "srcImage", "srcImageLayout", "dstImage", "dstImageLayout", "regionCount", "pRegions", "filter"],
      args := ["commandBuffer", "srcImage", "srcImageLayout", "dstImage", "dstImageLayout", "regionCount", "pRegions", "filter"],
      returnsCall := false, isVoid := true },
    { name := Slot.CmdCopyBufferToImage, handle := HandleType.VkCommandBuffer, getter := Getter.loader_get_dispatch,
      getterArg := "commandBuffer", slot := Slot.CmdCopyBufferToImage,
      params := ["commandBuffer", "srcBuffer", "dstImage", "dstImageLayout", "regionCount", "pRegions"],
      args := ["commandBuffer", "srcBuffer", "dstImage", "dstImageLayout", "regionCount", "pRegions"],
      returnsCall := false, isVoid := true },
    { name := Slot.CmdCopyImageToBuffer, handle := HandleType.VkCommandBuffer, getter := Getter.loader_get_dispatch,
      getterArg := "commandBuffer", slot := Slot.CmdCopyImageToBuffer,
      params := ["commandBuffer", "srcImage", "srcImageLayout", "dstBuffer", "regionCount", "pRegions"],
      args := ["commandBuffer", "srcImage", "srcImageLayout", "dstBuffer", "regionCount", "pRegions"],
      returnsCall := false, isVoid := true },
    { name := Slot.CmdUpdateBuffer, handle := HandleType.VkCommandBuffer, getter := Getter.loader_get_dispatch,
      getterArg := "commandBuffer", slot := Slot.CmdUpdateBuffer,
      params := ["commandBuffer", "dstBuffer", "dstOffset", "dataSize", "pData"],
      args := ["commandBuffer", "dstBuffer", "dstOffset", "dataSize", "pData"],
      returnsCall := false, isVoid := true },
    { name := Slot.CmdFillBuffer, handle := HandleType.VkCommandBuffer, getter := Getter.loader_get_dispatch,
      getterArg := "commandBuffer", slot := Slot.CmdFillBuffer,
      params := ["commandBuffer", "dstBuffer", "dstOffset", "size", "data"],
      args := ["commandBuffer", "dstBuffer", "dstOffset", "size", "data"],
      returnsCall := false, isVoid := true },
    { name := Slot.CmdClearColorImage, handle := HandleType.VkCommandBuffer, getter := Getter.loader_get_dispatch,
      getterArg := "commandBuffer", slot := Slot.CmdClearColorImage,
      params := ["commandBuffer", "image", "imageLayout", "pColor", "rangeCount", "pRanges"],
      args := ["commandBuffer", "image", "imageLayout", "pColor", "rangeCount", "pRanges"],
      returnsCall := false, isVoid := true },
    { name := Slot.CmdClearDepthStencilImage, handle := HandleType.VkCommandBuffer, getter := Getter.loader_get_dispatch,
      getterArg := "commandBuffer", slot := Slot.CmdClearDepthStencilImage,
      params := ["commandBuffer", "image", "imageLayout", "pDepthStencil", "rangeCount", "pRanges"],
      args := ["commandBuffer", "image", "imageLayout", "pDepthStencil", "rangeCount", "pRanges"],
      returnsCall := false, isVoid := true },
    { name := Slot.CmdClearAttachments, handle := HandleType.VkCommandBuffer, getter := Getter.loader_get_dispatch,
      getterArg := "commandBuffer", slot := Slot.CmdClearAttachments,
      params := ["commandBuffer", "attachmentCount", "pAttachments", "rectCount", "pRects"],
      args := ["commandBuffer", "attachmentCount", "pAttachments", "rectCount", "pRects"],
      returnsCall := false, isVoid := true },
    { name := Slot.CmdResolveImage, handle := HandleType.VkCommandBuffer, getter := Getter.loader_get_dispatch,
      getterArg := "commandBuffer", slot := Slot.CmdResolveImage,
      params := ["commandBuffer", "srcImage", "srcImageLayout", "dstImage", "dstImageLayout", "regionCount", "pRegions"],
      args := ["commandBuffer", "srcImage", "srcImageLayout", "dstImage", "dstImageLayout", "regionCount", "pRegions"],
      returnsCall := false, isVoid := true },
    { name := Slot.CmdSetEvent, handle := HandleType.VkCommandBuffer, getter := Getter.loader_get_dispatch,
      getterArg := "commandBuffer", slot := Slot.CmdSetEvent,
      params := ["commandBuffer", "event", "stageMask"],
      args := ["commandBuffer", "event", "stageMask"],
      returnsCall := false, isVoid := true },
    { name := Slot.CmdResetEvent, handle := HandleType.VkCommandBuffer, getter := Getter.loader_get_dispatch,
      getterArg := "commandBuffer", slot := Slot.CmdResetEvent,
      params := ["commandBuffer", "event", "stageMask"],
      args := ["commandBuffer", "event", "stageMask"],
      returnsCall := false, isVoid := true },
    { name := Slot.CmdWaitEvents, handle := HandleType.VkCommandBuffer, getter := Getter.loader_get_dispatch,
      getterArg := "commandBuffer", slot := Slot.CmdWaitEvents,
      params := ["commandBuffer", "eventCount", "pEvents", "sourceStageMask", "dstStageMask", "memoryBarrierCount", "ppMemoryBarriers"],
      args := ["commandBuffer", "eventCount", "pEvents", "sourceStageMask", "dstStageMask", "memoryBarrierCount", "ppMemoryBarriers"],
      returnsCall := false, isVoid := true },
    { name := Slot.CmdPipelineBarrier, handle := HandleType.VkCommandBuffer, getter := Getter.loader_get_dispatch,
      getterArg := "commandBuffer", slot := Slot.CmdPipelineBarrier,
      params := ["commandBuffer", "srcStageMask", "dstStageMask", "dependencyFlags", "memoryBarrierCount", "ppMemoryBarriers"],
      args := ["commandBuffer", "srcStageMask", "dstStageMask", "dependencyFlags", "memoryBarrierCount", "ppMemoryBarriers"],
      returnsCall := false, isVoid := true },
    { name := Slot.CmdBeginQuery, handle := HandleType.VkCommandBuffer, getter := Getter.loader_get_dispatch,
      getterArg := "commandBuffer", slot := Slot.CmdBeginQuery,
      params := ["commandBuffer", "queryPool", "slot", "flags"],
      args := ["commandBuffer", "queryPool", "slot", "flags"],
      returnsCall := false, isVoid := true },
    { name := Slot.CmdEndQuery, handle := HandleType.VkCommandBuffer, getter := Getter.loader_get_dispatch,
      getterArg := "commandBuffer", slot := Slot.CmdEndQuery,
      params := ["commandBuffer", "queryPool", "slot"],
      args := ["commandBuffer", "queryPool", "slot"],
      returnsCall := false, isVoid := true },
    { name := Slot.CmdResetQueryPool, handle := HandleType.VkCommandBuffer, getter := Getter.loader_get_dispatch,
      getterArg := "commandBuffer", slot := Slot.CmdResetQueryPool,
      params := ["commandBuffer", "queryPool", "startQuery", "queryCount"],
      args := ["commandBuffer", "queryPool", "startQuery", "queryCount"],
      returnsCall := false, isVoid := true },
    { name := Slot.CmdWriteTimestamp, handle := HandleType.VkCommandBuffer, getter := Getter.loader_get_dispatch,
      getterArg := "commandBuffer", slot := Slot.CmdWriteTimestamp,
      params := ["commandBuffer", "pipelineStage", "queryPool", "slot"],
      args := ["commandBuffer", "pipelineStage", "queryPool", "slot"],
      returnsCall := false, isVoid := true },
    { name := Slot.CmdCopyQueryPoolResults, handle := HandleType.VkCommandBuffer, getter := Getter.loader_get_dispatch,
      getterArg := "commandBuffer", slot := Slot.CmdCopyQueryPoolResults,
      params := ["commandBuffer", "queryPool", "startQuery", "queryCount", "dstBuffer", "dstOffset", "stride", "flags"],
      args := ["commandBuffer", "queryPool", "startQuery", "queryCount", "dstBuffer", "dstOffset", "stride", "flags"],
      returnsCall := false, isVoid := true },
    { name := Slot.CmdPushConstants, handle := HandleType.VkCommandBuffer, getter := Getter.loader_get_dispatch,
      getterArg := "commandBuffer", slot := Slot.CmdPushConstants,
      params := ["commandBuffer", "layout", "stageFlags", "offset", "size", "values"],
      args := ["commandBuffer", "layout", "stageFlags", "offset", "size", "values"],
      returnsCall := false, isVoid := true },
    { name := Slot.CmdBeginRenderPass, handle := HandleType.VkCommandBuffer, getter := Getter.loader_get_dispatch,
      getterArg := "commandBuffer", slot := Slot.CmdBeginRenderPass,
      params := ["commandBuffer", "pRenderPassBegin", "contents"],
      args := ["commandBuffer", "pRenderPassBegin", "contents"],
      returnsCall := false, isVoid := true },
    { name := Slot.CmdNextSubpass, handle := HandleType.VkCommandBuffer, getter := Getter.loader_get_dispatch,
      getterArg := "commandBuffer", slot := Slot.CmdNextSubpass,
      params := ["commandBuffer", "contents"],
      args := ["commandBuffer", "contents"],
      returnsCall := false, isVoid := true },
    { name := Slot.CmdEndRenderPass, handle := HandleType.VkCommandBuffer, getter := Getter.loader_get_dispatch,
      getterArg := "commandBuffer", slot := Slot.CmdEndRenderPass,
      params := ["commandBuffer"],
      args := ["commandBuffer"],
      returnsCall := false, isVoid := true },
    { name := Slot.CmdExecuteCommands, handle := HandleType.VkCommandBuffer, getter := Getter.loader_get_dispatch,
      getterArg := "commandBuffer", slot := Slot.CmdExecuteCommands,
      params := ["commandBuffer", "commandBuffersCount", "pCommandBuffers"],
      args := ["commandBuffer", "commandBuffersCount", "pCommandBuffers"],
      returnsCall := false, isVoid := true }
  ]

/-- Every trampoline of `trampoline.c` whose body only forwards: all of them but
`vkCreateInstance`, `vkDestroyInstance`, `vkEnumeratePhysicalDevices`,
`vkCreateDevice`, `vkDestroyDevice`, `vkEnumerateDeviceExtensionProperties`,
`vkEnumerateDeviceLayerProperties`, `vkGetDeviceQueue` and
`vkAllocateCommandBuffers`. -/
def hotPathTrampolines : List Forwarder :=
  physicalDeviceForwarders ++
  queueForwarders ++
  deviceForwarders1 ++
  deviceForwarders2 ++
  deviceForwarders3 ++
  commandBufferForwarders1 ++
  commandBufferForwarders2

/-- The value of the parameter named `x`, given the parameter names and the
values the caller passed, in order. -/
def valueOf : List String → List Nat → String → Nat
  | p :: ps, v :: vs, x => if x = p then v else valueOf ps vs x
  | _, _, _ => 0

/-- Modelled from the spec: `loader_get_instance_dispatch(obj)` of `loader.h`
(not among the sources) reads the pointer embedded in the first slot of `obj`,
as `loader_get_dispatch` does for device-level handles. -/
def loader_get_instance_dispatch (mem : Memory) (obj : Ptr) : Ptr := mem obj

/-- The table pointer a getter reads from a handle. -/
def Getter.read : Getter → Memory → Ptr → Ptr
  | Getter.loader_get_instance_dispatch => VkLoader.loader_get_instance_dispatch
  | Getter.loader_get_dispatch => VkLoader.loader_get_dispatch

/-- The event a getter leaves in the trace. -/
def Getter.event : Getter → Ptr → Event
  | Getter.loader_get_instance_dispatch, obj => Event.get_instance_dispatch obj
  | Getter.loader_get_dispatch, obj => Event.get_dispatch obj

/-- What a forwarding trampoline leaves behind: the value returned (`none` for
a `void` trampoline) and the steps taken. -/
structure ForwardOutcome where
  result : Option VkResult
  trace : List Event
  deriving DecidableEq, Repr

/-- The execution of a forwarding trampoline on the argument values `vals`:
`disp = getter(getterArg); [return] disp->slot(args);`.  `slotResult` gives the
value each slot of each table returns on each argument list. -/
def Forwarder.run (f : Forwarder) (slotResult : Ptr → Slot → List Nat → VkResult)
    (mem : Memory) (vals : List Nat) : ForwardOutcome :=
  let obj := valueOf f.params vals f.getterArg
  let disp := f.getter.read mem obj
  let argv := f.args.map (valueOf f.params vals)
  { result := if f.returnsCall then some (slotResult disp f.slot argv) else none,
    trace := [f.getter.event obj, Event.call_slot disp f.slot argv] }

/-- What the source of a forwarding trampoline `vkX` must satisfy to forward
verbatim: the slot called is `X`, the arguments are the parameters in order,
the table is read from the first parameter, a non-`void` trampoline returns the
call, and the instance-level getter is used exactly for instance and
physical-device handles. -/
def Forwarder.forwardsVerbatim (f : Forwarder) : Bool :=
  decide (f.slot = f.name) && decide (f.args = f.params) &&
  decide (f.params.head? = some f.getterArg) && decide f.params.Nodup &&
  (f.returnsCall != f.isVoid) &&
  (decide (f.getter = Getter.loader_get_instance_dispatch) ==
    decide (f.handle = HandleType.VkInstance ∨ f.handle = HandleType.VkPhysicalDevice))

/-- The trampoline `vkQueueSubmit(queue, submitCount, pSubmits, fence)`, lines 342-349. -/
def vkQueueSubmit (slotResult : Ptr → Slot → List Nat → VkResult) (mem : Memory)
    (queue submitCount pSubmits fence : Nat) : ForwardOutcome :=
  let disp := loader_get_dispatch mem queue
  { result := some (slotResult disp Slot.QueueSubmit [queue, submitCount, pSubmits, fence]),
    trace := [Event.get_dispatch queue,
              Event.call_slot disp Slot.QueueSubmit [queue, submitCount, pSubmits, fence]] }

/-- The trampoline `vkMapMemory(device, mem, offset, size, flags, ppData)`, lines 387-394;
the parameter `mem` of the source is `memory` here. -/
def vkMapMemory (slotResult : Ptr → Slot → List Nat → VkResult) (mem : Memory)
    (device memory offset size flags ppData : Nat) : ForwardOutcome :=
  let disp := loader_get_dispatch mem device
  { result := some (slotResult disp Slot.MapMemory [device, memory, offset, size, flags, ppData]),
    trace := [Event.get_dispatch device,
              Event.call_slot disp Slot.MapMemory [device, memory, offset, size, flags, ppData]] }

/-- The trampoline `vkCmdDraw(commandBuffer, vertexCount, instanceCount, firstVertex,
firstInstance)`, lines 1171-1178. -/
def vkCmdDraw (mem : Memory)
    (commandBuffer vertexCount instanceCount firstVertex firstInstance : Nat) :
    ForwardOutcome :=
  let disp := loader_get_dispatch mem commandBuffer
  { result := none,
    trace := [Event.get_dispatch commandBuffer,
              Event.call_slot disp Slot.CmdDraw
                [commandBuffer, vertexCount, instanceCount, firstVertex, firstInstance]] }

/-- The trampoline `vkGetPhysicalDeviceFeatures(gpu, pFeatures)`, lines 213-221. -/
def vkGetPhysicalDeviceFeatures (mem : Memory) (gpu pFeatures : Nat) : ForwardOutcome :=
  let disp := loader_get_instance_dispatch mem gpu
  { result := none,
    trace := [Event.get_instance_dispatch gpu,
              Event.call_slot disp Slot.GetPhysicalDeviceFeatures [gpu, pFeatures]] }

/-! ## The other trampolines that take the mutex -/

/-- What a trampoline returning a `VkResult` leaves behind. -/
structure CallOutcome where
  result : VkResult
  trace : List Event
  deriving DecidableEq, Repr

/-- The trampoline `vkEnumeratePhysicalDevices(instance, pPhysicalDeviceCount,
pPhysicalDevices)`, lines 192-206; the parameter `instance` is `inst` here. -/
def vkEnumeratePhysicalDevices (slotResult : Ptr → Slot → List Nat → VkResult)
    (mem : Memory) (inst pPhysicalDeviceCount pPhysicalDevices : Nat) : CallOutcome :=
  let disp := loader_get_instance_dispatch mem inst
  let res := slotResult disp Slot.EnumeratePhysicalDevices
    [inst, pPhysicalDeviceCount, pPhysicalDevices]
  { result := res,
    trace := [Event.get_instance_dispatch inst, Event.lock_mutex,
              Event.call_slot disp Slot.EnumeratePhysicalDevices
                [inst, pPhysicalDeviceCount, pPhysicalDevices],
              Event.unlock_mutex] }

/-- The trampoline `vkCreateDevice(gpu, pCreateInfo, pAllocator, pDevice)`, lines
273-287.  `CreateDevice` gives the result of `loader_CreateDevice`. -/
def vkCreateDevice (CreateDevice : Nat → Nat → Nat → Nat → VkResult)
    (gpu pCreateInfo pAllocator pDevice : Nat) : CallOutcome :=
  let res := CreateDevice gpu pCreateInfo pAllocator pDevice
  { result := res,
    trace := [Event.lock_mutex, Event.loader_CreateDevice gpu res, Event.unlock_mutex] }

/-- The trampoline `vkEnumerateDeviceExtensionProperties(physicalDevice, pLayerName,
pPropertyCount, pProperties)`, lines 303-316.  `Enumerate` gives the result of
`loader_EnumerateDeviceExtensionProperties`. -/
def vkEnumerateDeviceExtensionProperties (Enumerate : Nat → Nat → Nat → Nat → VkResult)
    (physicalDevice pLayerName pPropertyCount pProperties : Nat) : CallOutcome :=
  let res := Enumerate physicalDevice pLayerName pPropertyCount pProperties
  { result := res,
    trace := [Event.lock_mutex,
              Event.loader_EnumerateDeviceExtensionProperties physicalDevice res,
              Event.unlock_mutex] }

/-- The trampoline `vkEnumerateDeviceLayerProperties(physicalDevice, pPropertyCount,
pProperties)`, lines 318-330.  `Enumerate` gives the result of
`loader_EnumerateDeviceLayerProperties`. -/
def vkEnumerateDeviceLayerProperties (Enumerate : Nat → Nat → Nat → VkResult)
    (physicalDevice pPropertyCount pProperties : Nat) : CallOutcome :=
  let res := Enumerate physicalDevice pPropertyCount pProperties
  { result := res,
    trace := [Event.lock_mutex,
              Event.loader_EnumerateDeviceLayerProperties physicalDevice res,
              Event.unlock_mutex] }

/-- Modelled from the spec: `loader_get_instance` (declared in `loader.h`, not
among the sources) is the registry's `find(handle) → Instance | NotFound`: the
registry is keyed by handle identity, and the handle of an instance is the
address of its record, so the lookup returns the handle when the registry holds
it and `NULL` otherwise. -/
def loader_get_instance (loader : LoaderState) (inst : Ptr) : Ptr :=
  if inst ∈ loader.instances then inst else NULL

/-- Modelled from the spec: the registry's operation `remove(instance)`, which
leaves the registry without any entry for the instance. -/
def registry_remove (loader : LoaderState) (inst : Ptr) : LoaderState :=
  { instances := loader.instances.filter (fun p => decide (p ≠ inst)) }

/-- Modelled from the spec: the terminal `DestroyInstance` of `loader.c`, reached
through `disp->DestroyInstance(instance, pAllocator)`, is not among the sources.
The spec says the registry is a set of live instances mutated only on instance
create and destroy, and that after `DestroyInstance` the handle no longer
resolves via the registry: the chain's `DestroyInstance` applies the registry's
`remove(instance)`, whichever table it is reached through. -/
def chain_DestroyInstance (_disp : Ptr) (loader : LoaderState) (inst _pAllocator : Nat) :
    LoaderState :=
  registry_remove loader inst

/-- What `vkDestroyInstance` leaves behind. -/
structure DestroyInstanceOutcome where
  loader : LoaderState
  trace : List Event
  deriving DecidableEq, Repr

/-- The trampoline `vkDestroyInstance(instance, pAllocator)`, lines 173-190; the
parameter `instance` is `inst` here.  `DestroyInstance disp` is the function in
the slot `DestroyInstance` of the table `disp`, as a function on
`loader.instances`: no statement of the trampoline itself writes that list.
When the table pointer embedded in the handle is `NULL` the call
`disp->DestroyInstance(...)` dereferences a null pointer, and when
`loader_get_instance` returns `NULL` the expression `ptr_instance->disp` does:
in both cases the call has no outcome.  The field `ptr_instance->disp` is the
first slot of the record. -/
def vkDestroyInstance (DestroyInstance : Ptr → LoaderState → Nat → Nat → LoaderState)
    (loader : LoaderState) (mem : Memory) (inst pAllocator : Nat) :
    Option DestroyInstanceOutcome :=
  let disp := loader_get_instance_dispatch mem inst
  let t := [Event.get_instance_dispatch inst, Event.lock_mutex]
  let ptr_instance := loader_get_instance loader inst
  let t := t ++ [Event.get_instance inst ptr_instance]
  if disp = NULL then none
  else
    let loader := DestroyInstance disp loader inst pAllocator
    let t := t ++ [Event.call_slot disp Slot.DestroyInstance [inst, pAllocator]]
    let t := t ++ [Event.deactivate_instance_layers ptr_instance]
    if ptr_instance = NULL then none
    else
      some { loader := loader,
             trace := t ++ [Event.heap_free_disp (loader_get_instance_dispatch mem ptr_instance),
                            Event.heap_free_instance ptr_instance,
                            Event.unlock_mutex] }

/-- Modelled from the spec: `loader_remove_logical_device(inst, device)` of
`loader.c` (not among the sources) deregisters the device from its instance's
tracking list.  `devices inst` is the tracking list of the instance `inst`. -/
def loader_remove_logical_device (devices : Ptr → List Ptr) (inst device : Ptr) :
    Ptr → List Ptr :=
  fun i => if i = inst then (devices i).filter (fun d => decide (d ≠ device)) else devices i

/-- What `vkDestroyDevice` leaves behind: the tracking lists and the steps taken. -/
structure DestroyDeviceOutcome where
  devices : Ptr → List Ptr
  trace : List Event

/-- The trampoline `vkDestroyDevice(device, pAllocator)`, lines 289-301.  `icdOf`
gives the ICD that `loader_get_icd_and_device` finds the device under (`NULL`
if none), `this_instance` the field `icd->this_instance`, and
`remove_logical_device` what the helper `loader_remove_logical_device(inst,
device)` makes of the tracking lists.  When the lookup returns `NULL` the
expression `icd->this_instance` dereferences a null pointer, and when the table
pointer embedded in the device is `NULL` the call `disp->DestroyDevice(...)`
does: in both cases the call has no outcome. -/
def vkDestroyDevice (icdOf : Ptr → Ptr) (this_instance : Ptr → Ptr)
    (remove_logical_device : (Ptr → List Ptr) → Ptr → Ptr → Ptr → List Ptr) (mem : Memory)
    (devices : Ptr → List Ptr) (device pAllocator : Nat) : Option DestroyDeviceOutcome :=
  let icd := icdOf device
  let t := [Event.get_icd_and_device device icd]
  if icd = NULL then none
  else
    let inst := this_instance icd
    let disp := loader_get_dispatch mem device
    let t := t ++ [Event.get_dispatch device, Event.lock_mutex]
    if disp = NULL then none
    else
      let t := t ++ [Event.call_slot disp Slot.DestroyDevice [device, pAllocator]]
      let devices := remove_logical_device devices inst device
      let t := t ++ [Event.remove_logical_device inst device, Event.unlock_mutex]
      some { devices := devices, trace := t }

/-- The steps of `vkGetDeviceQueue` (lines 332-340), in order; `q` is the handle
the chain left in `*pQueue`. -/
def vkGetDeviceQueue_trace (tables : Ptr → VkLayerDispatchTable) (mem : Memory)
    (device : Ptr) (queueNodeIndex queueIndex : Nat) (pQueue : Ptr) : List Event :=
  let disp := loader_get_dispatch mem device
  let q := (vkGetDeviceQueue tables mem device queueNodeIndex queueIndex pQueue).2
  [Event.get_dispatch device,
   Event.call_slot disp Slot.GetDeviceQueue [device, queueNodeIndex, queueIndex, pQueue],
   Event.set_dispatch q disp]

/-- The steps of the stamping loop of `vkAllocateCommandBuffers`, in order. -/
def stampCommandBuffers_trace (disp : Ptr) (pCommandBuffers : Nat → Ptr) :
    (remaining : Nat) → (i : Nat) → List Event
  | 0, _ => []
  | remaining + 1, i =>
    (if pCommandBuffers i ≠ NULL then [Event.set_dispatch (pCommandBuffers i) disp] else []) ++
      stampCommandBuffers_trace disp pCommandBuffers remaining (i + 1)

/-- The steps of `vkAllocateCommandBuffers` (lines 992-1012), in order; the call
of the slot is recorded with the device and the buffer count. -/
def vkAllocateCommandBuffers_trace (tables : Ptr → VkLayerDispatchTable) (mem : Memory)
    (device : Ptr) (pAllocateInfo : VkCommandBufferAllocateInfo)
    (pCommandBuffers : Nat → Ptr) : List Event :=
  let disp := loader_get_dispatch mem device
  let out := vkAllocateCommandBuffers tables mem device pAllocateInfo pCommandBuffers
  [Event.get_dispatch device,
   Event.call_slot disp Slot.AllocateCommandBuffers [device, pAllocateInfo.bufferCount]] ++
  (if out.result = VK_SUCCESS then
    stampCommandBuffers_trace disp out.pCommandBuffers pAllocateInfo.bufferCount 0
   else [])

/-! ## Observations on the mutex and the registry -/

/-- How often a trace acquires the mutex. -/
def lockCount (t : List Event) : Nat := t.count Event.lock_mutex

/-- How often a trace releases the mutex. -/
def unlockCount (t : List Event) : Nat := t.count Event.unlock_mutex

/-- Whether a trace, started with the mutex held or not (`held`), never
acquires the mutex while holding it, never releases it without holding it, and
ends without holding it. -/
def mutexDiscipline : Bool → List Event → Bool
  | held, [] => !held
  | held, Event.lock_mutex :: t => !held && mutexDiscipline true t
  | held, Event.unlock_mutex :: t => held && mutexDiscipline false t
  | held, _ :: t => mutexDiscipline held t

/-- The mutex is acquired at most once, released as often as it is acquired,
never released without being held, and not held at the end of the trace. -/
def mutexBalanced (t : List Event) : Prop :=
  lockCount t ≤ 1 ∧ unlockCount t = lockCount t ∧ mutexDiscipline false t = true

/-- The events that read or write the process-wide registry: insertion into and
unlinking from `loader.instances`, and the two lookups that walk it. -/
def Event.accessesRegistry : Event → Bool
  | Event.link_instance _ => true
  | Event.unlink_instance _ => true
  | Event.get_instance _ _ => true
  | Event.get_icd_and_device _ _ => true
  | _ => false

/-- Whether every registry access of a trace, started with the mutex held or
not (`held`), happens while the mutex is held. -/
def accessesUnderLock : Bool → List Event → Bool
  | _, [] => true
  | _, Event.lock_mutex :: t => accessesUnderLock true t
  | _, Event.unlock_mutex :: t => accessesUnderLock false t
  | held, e :: t => (held || !e.accessesRegistry) && accessesUnderLock held t

/-- The events of a trace after the first occurrence of `x`. -/
def eventsAfter (x : Event) : List Event → List Event
  | [] => []
  | e :: t => if e = x then t else eventsAfter x t

/-! ## Writes of embedded pointers -/

/-- The writes of embedded pointers (first slots) that a trace makes, in order:
which handle or record was written with which value.  A stamping step writes
the handle it names.  In `vkCreateInstance` the table pointer `disp` is the first
field of the instance record: `memset(ptr_instance, 0, ...)` writes it with
`NULL` and `ptr_instance->disp = loader_heap_alloc(...)` with the pointer
returned; `record` is the record allocated so far in the trace. -/
def dispatchWritesFrom : Ptr → List Event → List (Ptr × Ptr)
  | _, [] => []
  | _, Event.alloc_instance _ p :: t => dispatchWritesFrom p t
  | record, Event.memset_instance :: t => (record, NULL) :: dispatchWritesFrom record t
  | record, Event.heap_alloc_disp d :: t => (record, d) :: dispatchWritesFrom record t
  | record, Event.set_dispatch obj disp :: t => (obj, disp) :: dispatchWritesFrom record t
  | record, _ :: t => dispatchWritesFrom record t

/-- The writes of embedded pointers that the trace of one call makes, in order. -/
def dispatchWrites (t : List Event) : List (Ptr × Ptr) := dispatchWritesFrom NULL t

/-- The memory after a list of writes of embedded pointers, made in order. -/
def applyWrites (ws : List (Ptr × Ptr)) (mem : Memory) : Memory :=
  ws.foldl (fun m w => loader_set_dispatch m w.1 w.2) mem

/-! ## Table reads and slot calls -/

/-- The handles whose embedded table pointer a trace reads, in order. -/
def tableReads : List Event → List Ptr
  | [] => []
  | Event.get_instance_dispatch obj :: t => obj :: tableReads t
  | Event.get_dispatch obj :: t => obj :: tableReads t
  | _ :: t => tableReads t

/-- The calls `disp->slot(args)` through a dispatch table that a trace makes, in
order. -/
def slotCalls : List Event → List (Ptr × Slot × List Nat)
  | [] => []
  | Event.call_slot disp slot args :: t => (disp, slot, args) :: slotCalls t
  | _ :: t => slotCalls t

/-! ## The instance chain -/

/-- Modelled from the spec: `loader_enable_instance_layers` of `loader.c` is not
among the sources.  The spec enables the layers in the order requested and
appends the implicit layers regardless of the explicit request. -/
def loader_enable_instance_layers (requested implicit : List Nat) : List Nat :=
  requested ++ implicit

/-- The steps of the thread `tid` in an interleaving of the steps of two
threads, each step tagged with the thread that takes it. -/
def project (tid : Bool) (s : List (Bool × Event)) : List Event :=
  s.filterMap (fun x => if x.1 = tid then some x.2 else none)

/-- Whether an interleaving respects the mutex: a thread acquires it only when
neither thread holds it and releases it only when it holds it itself.
`heldT` and `heldF` say whether the thread `true` and the thread `false` hold
the mutex at the start. -/
def mutexRespected : Bool → Bool → List (Bool × Event) → Bool
  | _, _, [] => true
  | heldT, heldF, (tid, e) :: s =>
    if e = Event.lock_mutex then
      !heldT && !heldF &&
        (if tid then mutexRespected true heldF s else mutexRespected heldT true s)
    else if e = Event.unlock_mutex then
      (if tid then heldT && mutexRespected false heldF s
       else heldF && mutexRespected heldT false s)
    else mutexRespected heldT heldF s

/-- Whether, in an interleaving, every access to the registry is made by a
thread that holds the mutex while the other thread is outside its own
lock-to-unlock section (which holds its insertion and its roll-back). -/
def noTornAccess : Bool → Bool → List (Bool × Event) → Bool
  | _, _, [] => true
  | heldT, heldF, (tid, e) :: s =>
    if e = Event.lock_mutex then
      (if tid then noTornAccess true heldF s else noTornAccess heldT true s)
    else if e = Event.unlock_mutex then
      (if tid then noTornAccess false heldF s else noTornAccess heldT false s)
    else
      (!e.accessesRegistry ||
        (if tid then heldT && !heldF else heldF && !heldT)) &&
      noTornAccess heldT heldF s

/-! ## The last steps of `vkCreateInstance` -/

/-- The five steps that end a call of `vkCreateInstance` which reaches the
chain: `loader_activate_instance_layers`, the write of `*pInstance`, the chain
head's `CreateInstance`, `loader_activate_instance_layer_extensions` and the
release of the mutex. -/
def Event.isClosingStep : Event → Bool
  | Event.activate_instance_layers => true
  | Event.write_pInstance _ => true
  | Event.chain_CreateInstance _ _ => true
  | Event.activate_instance_layer_extensions => true
  | Event.unlock_mutex => true
  | _ => false

/-! ## Concrete calls -/

/-- One layer is requested and `loader_validate_layers` reports it missing. -/
def layerMissing : Collaborators :=
  { pAllocator := false, alloc_instance := 100, enabledLayerNameCount := 1,
    validate_layers := VK_ERROR_LAYER_NOT_PRESENT,
    validate_instance_extensions := VK_SUCCESS, alloc_disp := 200,
    enable_instance_layers := VK_SUCCESS, chain_CreateInstance := VK_SUCCESS }

/-- No layer is requested and `loader_validate_instance_extensions` reports a
missing extension. -/
def extensionMissing : Collaborators :=
  { pAllocator := false, alloc_instance := 100, enabledLayerNameCount := 0,
    validate_layers := VK_SUCCESS,
    validate_instance_extensions := VK_ERROR_EXTENSION_NOT_PRESENT, alloc_disp := 200,
    enable_instance_layers := VK_SUCCESS, chain_CreateInstance := VK_SUCCESS }

/-- The allocation of the dispatch table returns `NULL`; two layers are
requested and the caller passes allocation callbacks. -/
def dispAllocFails : Collaborators :=
  { pAllocator := true, alloc_instance := 100, enabledLayerNameCount := 2,
    validate_layers := VK_SUCCESS,
    validate_instance_extensions := VK_SUCCESS, alloc_disp := 0,
    enable_instance_layers := VK_SUCCESS, chain_CreateInstance := VK_SUCCESS }

/-- The dispatch table `200` is allocated, the instance `100` is linked, and
`loader_enable_instance_layers` fails. -/
def enableFails : Collaborators :=
  { pAllocator := false, alloc_instance := 100, enabledLayerNameCount := 0,
    validate_layers := VK_SUCCESS,
    validate_instance_extensions := VK_SUCCESS, alloc_disp := 200,
    enable_instance_layers := VK_ERROR_INITIALIZATION_FAILED,
    chain_CreateInstance := VK_SUCCESS }

/-- Every step succeeds and the chain head's `CreateInstance` fails. -/
def chainFails : Collaborators :=
  { pAllocator := false, alloc_instance := 100, enabledLayerNameCount := 0,
    validate_layers := VK_SUCCESS,
    validate_instance_extensions := VK_SUCCESS, alloc_disp := 200,
    enable_instance_layers := VK_SUCCESS,
    chain_CreateInstance := VK_ERROR_INITIALIZATION_FAILED }

/-- Every step succeeds, the chain head's `CreateInstance` included; one layer,
`3`, is requested and enabled, there is no implicit layer, and the caller passes
allocation callbacks. -/
def allSucceed : Collaborators :=
  { pAllocator := true, alloc_instance := 100, enabledLayerNameCount := 1,
    validate_layers := VK_SUCCESS,
    validate_instance_extensions := VK_SUCCESS, alloc_disp := 200,
    enable_instance_layers := VK_SUCCESS, chain_CreateInstance := VK_SUCCESS,
    activated_layer_list := loader_enable_instance_layers [3] [] }

/-- Every step succeeds with no layer requested, and the chain head's
`CreateInstance` succeeds and stores the handle `55` in `*pInstance`. -/
def chainRewrites : Collaborators :=
  { pAllocator := false, alloc_instance := 100, enabledLayerNameCount := 0,
    validate_layers := VK_SUCCESS,
    validate_instance_extensions := VK_SUCCESS, alloc_disp := 200,
    enable_instance_layers := VK_SUCCESS, chain_CreateInstance := VK_SUCCESS,
    chain_pInstance := some 55 }

/-- A device table whose `GetDeviceQueue` leaves everything as it is and whose
`AllocateCommandBuffers` succeeds and fills the array with the handles
`10, 11, 12, ...`. -/
def sampleTable : VkLayerDispatchTable :=
  { GetDeviceQueue := fun mem _ _ _ pQueue => (mem, pQueue),
    AllocateCommandBuffers := fun mem _ _ _ => (VK_SUCCESS, mem, fun k => k + 10) }

/-- A memory in which the device handle at address `1` carries the table
pointer `5` and every other first slot is `0`. -/
def sampleMemory : Memory := fun a => if a = 1 then 5 else 0

/-- A memory in which the instance record `100` carries the table pointer `6`,
the device handle `40` the table pointer `5`, and every other first slot is `0`. -/
def liveMemory : Memory := fun a => if a = 100 then 6 else if a = 40 then 5 else 0

/-- The source of `vkQueueSubmit` as it stands in the table of forwarding
trampolines. -/
def queueSubmitForwarder : Forwarder :=
  { name := Slot.QueueSubmit, handle := HandleType.VkQueue,
    getter := Getter.loader_get_dispatch, getterArg := "queue", slot := Slot.QueueSubmit,
    params := ["queue", "submitCount", "pSubmits", "fence"],
    args := ["queue", "submitCount", "pSubmits", "fence"],
    returnsCall := true, isVoid := false }

/-- Slots that all succeed, but for `QueueSubmit`, which fails. -/
def sampleSlotResult : Ptr → Slot → List Nat → VkResult :=
  fun _ slot _ => if slot = Slot.QueueSubmit then VK_ERROR_OUT_OF_HOST_MEMORY else VK_SUCCESS

/-- A registry holding the instances `100` and `7`. -/
def sampleRegistry : LoaderState := { instances := [100, 7] }

/-- Device tracking lists: the instance `100` tracks the devices `40` and `41`. -/
def sampleDevices : Ptr → List Ptr := fun i => if i = 100 then [40, 41] else []

/-- A lookup that finds every device under the ICD `30`. -/
def sampleIcdOf : Ptr → Ptr := fun _ => 30

/-- The field `this_instance` of every ICD is the instance `100`. -/
def sampleThisInstance : Ptr → Ptr := fun _ => 100

/-- The allocation of the instance record returns `NULL`. -/
def instanceAllocFails : Collaborators :=
  { pAllocator := false, alloc_instance := 0, enabledLayerNameCount := 1,
    validate_layers := VK_SUCCESS,
    validate_instance_extensions := VK_SUCCESS, alloc_disp := 200,
    enable_instance_layers := VK_SUCCESS, chain_CreateInstance := VK_SUCCESS }

/-- A device table whose `AllocateCommandBuffers` fails and leaves the array
filled with the handles `10, 11, 12, ...`. -/
def failingTable : VkLayerDispatchTable :=
  { GetDeviceQueue := fun mem _ _ _ pQueue => (mem, pQueue),
    AllocateCommandBuffers :=
      fun mem _ _ _ => (VK_ERROR_OUT_OF_HOST_MEMORY, mem, fun k => k + 10) }

/-- A device table whose `AllocateCommandBuffers` succeeds and fills the array
with the handles `10, 0, 12, 13, ...`: the entry at index `1` is null. -/
def sparseTable : VkLayerDispatchTable :=
  { GetDeviceQueue := fun mem _ _ _ pQueue => (mem, pQueue),
    AllocateCommandBuffers :=
      fun mem _ _ _ => (VK_SUCCESS, mem, fun k => if k = 1 then 0 else k + 10) }

/-- An interleaving of two calls of `vkCreateInstance`: the thread `true` runs
`enableFails` and the thread `false` runs `allSucceed`.  The thread `true`
takes its three steps before the mutex, then the thread `false` runs its whole
call, then the thread `true` takes the rest of its steps. -/
def sampleInterleaving : List (Bool × Event) :=
  ((vkCreateInstance enableFails ⟨[]⟩ 0).trace.take 3).map (fun e => (true, e)) ++
  (vkCreateInstance allSucceed ⟨[]⟩ 0).trace.map (fun e => (false, e)) ++
  ((vkCreateInstance enableFails ⟨[]⟩ 0).trace.drop 3).map (fun e => (true, e))

/-! ## Theorems -/

/-! ### Traces: append lemmas -/

theorem creations_append (s t : List Event) :
    creations (s ++ t) = creations s ++ creations t := by
  induction s with
  | nil => rfl
  | cons e s ih => simp [creations, ih]

theorem releases_append (s t : List Event) :
    releases (s ++ t) = releases s ++ releases t := by
  induction s with
  | nil => rfl
  | cons e s ih => simp [releases, ih]

theorem beforeUnlock_append (s t : List Event) (h : Event.unlock_mutex ∉ s) :
    beforeUnlock (s ++ t) = s ++ beforeUnlock t := by
  induction s with
  | nil => rfl
  | cons e s ih =>
    simp only [List.mem_cons, not_or] at h
    have he : e ≠ Event.unlock_mutex := fun hh => h.1 hh.symm
    simp [beforeUnlock, he, ih h.2]

theorem afterUnlock_append (s t : List Event) (h : Event.unlock_mutex ∉ s) :
    afterUnlock (s ++ t) = afterUnlock t := by
  induction s with
  | nil => rfl
  | cons e s ih =>
    simp only [List.mem_cons, not_or] at h
    have he : e ≠ Event.unlock_mutex := fun hh => h.1 hh.symm
    simp [afterUnlock, he, ih h.2]

theorem eventsBefore_append (x : Event) (s t : List Event) (h : x ∉ s) :
    eventsBefore x (s ++ t) = s ++ eventsBefore x t := by
  induction s with
  | nil => rfl
  | cons e s ih =>
    simp only [List.mem_cons, not_or] at h
    have he : e ≠ x := fun hh => h.1 hh.symm
    simp [eventsBefore, he, ih h.2]

/-! ### The paths of `vkCreateInstance` -/

theorem vkCreateInstance_eq_fromIcdScan (c : Collaborators) (loader : LoaderState)
    (pInstance : Ptr) (halloc : c.alloc_instance ≠ NULL)
    (hlayers : c.enabledLayerNameCount = 0 ∨ c.validate_layers = VK_SUCCESS) :
    vkCreateInstance c loader pInstance =
      vkCreateInstance_fromIcdScan c loader pInstance c.alloc_instance (prologue c) := by
  cases hp : c.pAllocator <;> rcases hlayers with h0 | hv <;>
    by_cases hc : c.enabledLayerNameCount > 0 <;>
    simp_all [vkCreateInstance, prologue]

theorem creations_prologue (c : Collaborators) (halloc : c.alloc_instance ≠ NULL) :
    creations (prologue c) =
      [Resource.instance_record, Resource.instance_layer_list, Resource.device_layer_list] := by
  cases hp : c.pAllocator <;> by_cases hc : c.enabledLayerNameCount > 0 <;>
    simp_all [prologue, creations, Event.creates]

theorem releases_prologue (c : Collaborators) : releases (prologue c) = [] := by
  cases hp : c.pAllocator <;> by_cases hc : c.enabledLayerNameCount > 0 <;>
    simp_all [prologue, releases, Event.releases]

theorem unlock_not_mem_prologue (c : Collaborators) : Event.unlock_mutex ∉ prologue c := by
  cases hp : c.pAllocator <;> by_cases hc : c.enabledLayerNameCount > 0 <;>
    simp_all [prologue]

theorem chain_not_mem_prologue (c : Collaborators) (h : Ptr) (r : VkResult) :
    Event.chain_CreateInstance h r ∉ prologue c := by
  cases hp : c.pAllocator <;> by_cases hc : c.enabledLayerNameCount > 0 <;>
    simp_all [prologue]

theorem write_not_mem_prologue (c : Collaborators) (p : Ptr) :
    Event.write_pInstance p ∉ prologue c := by
  cases hp : c.pAllocator <;> by_cases hc : c.enabledLayerNameCount > 0 <;>
    simp_all [prologue]

theorem fromIcdScan_extension_failure (c : Collaborators) (loader : LoaderState)
    (pInstance ptr : Ptr) (t : List Event)
    (he : c.validate_instance_extensions ≠ VK_SUCCESS) :
    vkCreateInstance_fromIcdScan c loader pInstance ptr t =
      { result := c.validate_instance_extensions, pInstance := pInstance, loader := loader,
        trace := t ++ ([Event.memset_icd_libs, Event.icd_scan,
          Event.get_icd_loader_instance_extensions,
          Event.validate_instance_extensions c.validate_instance_extensions] ++ releaseLists ++
          [Event.unlock_mutex, Event.heap_free_instance ptr]) } := by
  simp [vkCreateInstance_fromIcdScan, he]

theorem fromIcdScan_alloc_failure (c : Collaborators) (loader : LoaderState)
    (pInstance ptr : Ptr) (t : List Event)
    (he : c.validate_instance_extensions = VK_SUCCESS) (hd : c.alloc_disp = NULL) :
    vkCreateInstance_fromIcdScan c loader pInstance ptr t =
      { result := VK_ERROR_OUT_OF_HOST_MEMORY, pInstance := pInstance, loader := loader,
        trace := t ++ ([Event.memset_icd_libs, Event.icd_scan,
          Event.get_icd_loader_instance_extensions,
          Event.validate_instance_extensions VK_SUCCESS,
          Event.heap_alloc_disp NULL] ++ releaseLists ++
          [Event.unlock_mutex, Event.heap_free_instance ptr]) } := by
  simp [vkCreateInstance_fromIcdScan, he, hd]

theorem fromIcdScan_enable_failure (c : Collaborators) (loader : LoaderState)
    (pInstance ptr : Ptr) (t : List Event)
    (he : c.validate_instance_extensions = VK_SUCCESS) (hd : c.alloc_disp ≠ NULL)
    (hn : c.enable_instance_layers ≠ VK_SUCCESS) :
    vkCreateInstance_fromIcdScan c loader pInstance ptr t =
      { result := c.enable_instance_layers, pInstance := pInstance, loader := loader,
        trace := t ++ ([Event.memset_icd_libs, Event.icd_scan,
          Event.get_icd_loader_instance_extensions,
          Event.validate_instance_extensions VK_SUCCESS,
          Event.heap_alloc_disp c.alloc_disp, Event.memcpy_instance_disp,
          Event.link_instance ptr,
          Event.enable_instance_layers c.enable_instance_layers] ++ releaseLists ++
          [Event.unlink_instance ptr, Event.unlock_mutex,
           Event.heap_free_disp c.alloc_disp, Event.heap_free_instance ptr]) } := by
  simp [vkCreateInstance_fromIcdScan, he, hd, hn]

theorem fromIcdScan_no_failure (c : Collaborators) (loader : LoaderState)
    (pInstance ptr : Ptr) (t : List Event)
    (he : c.validate_instance_extensions = VK_SUCCESS) (hd : c.alloc_disp ≠ NULL)
    (hn : c.enable_instance_layers = VK_SUCCESS) :
    vkCreateInstance_fromIcdScan c loader pInstance ptr t =
      { result := c.chain_CreateInstance, pInstance := c.chain_pInstance.getD ptr,
        loader := { instances := ptr :: loader.instances },
        trace := t ++ [Event.memset_icd_libs, Event.icd_scan,
          Event.get_icd_loader_instance_extensions,
          Event.validate_instance_extensions VK_SUCCESS,
          Event.heap_alloc_disp c.alloc_disp, Event.memcpy_instance_disp,
          Event.link_instance ptr,
          Event.enable_instance_layers VK_SUCCESS,
          Event.activate_instance_layers, Event.wsi_swapchain_create_instance,
          Event.debug_report_create_instance, Event.write_pInstance ptr,
          Event.chain_CreateInstance ptr c.chain_CreateInstance,
          Event.activate_instance_layer_extensions, Event.unlock_mutex] } := by
  simp [vkCreateInstance_fromIcdScan, he, hd, hn]

theorem enable_fails_of_failure (c : Collaborators)
    (hfail : c.validate_instance_extensions ≠ VK_SUCCESS ∨ c.alloc_disp = NULL ∨
      c.enable_instance_layers ≠ VK_SUCCESS)
    (he : c.validate_instance_extensions = VK_SUCCESS) (hd : c.alloc_disp ≠ NULL) :
    c.enable_instance_layers ≠ VK_SUCCESS := by
  rcases hfail with h | h | h
  · exact absurd he h
  · exact absurd h hd
  · exact h

/-! ### The stamping loop -/

theorem stampCommandBuffers_keeps (disp : Ptr) (bufs : Nat → Ptr) (a : Ptr) :
    ∀ (k i : Nat) (mem : Memory), mem a = disp →
      stampCommandBuffers disp bufs k i mem a = disp := by
  intro k
  induction k with
  | zero => intro i mem h; simpa [stampCommandBuffers] using h
  | succ k ih =>
    intro i mem h
    simp only [stampCommandBuffers]
    apply ih
    by_cases hb : bufs i ≠ NULL
    · by_cases ha : a = bufs i
      · simp [hb, loader_init_dispatch, loader_set_dispatch, ha]
      · simp [hb, loader_init_dispatch, loader_set_dispatch, ha, h]
    · simp [hb, h]

theorem stampCommandBuffers_stamps (disp : Ptr) (bufs : Nat → Ptr) (j : Nat)
    (hnn : bufs j ≠ NULL) :
    ∀ (k i : Nat) (mem : Memory), i ≤ j → j < i + k →
      stampCommandBuffers disp bufs k i mem (bufs j) = disp := by
  intro k
  induction k with
  | zero => intro i mem h1 h2; omega
  | succ k ih =>
    intro i mem h1 h2
    simp only [stampCommandBuffers]
    by_cases hij : i = j
    · subst hij
      apply stampCommandBuffers_keeps
      simp [hnn, loader_init_dispatch, loader_set_dispatch]
    · apply ih
      · omega
      · omega

/-! ### The claims -/

/-- C1: when `enabledLayerNameCount > 0` and `loader_validate_layers` returns a
non-success code `r`, `vkCreateInstance` returns exactly `r` and never writes
`*pInstance`: the call to `loader_validate_layers` is in the trace, no write of
the output cell is, and the cell holds on return what it held on entry. -/
theorem vkCreateInstance_layer_validation_failure
    (c : Collaborators) (loader : LoaderState) (pInstance : Ptr) (r : VkResult)
    (halloc : c.alloc_instance ≠ NULL)
    (hcount : c.enabledLayerNameCount > 0)
    (hr : c.validate_layers = r) (hfail : r ≠ VK_SUCCESS) :
    Event.validate_layers r ∈ (vkCreateInstance c loader pInstance).trace ∧
    (vkCreateInstance c loader pInstance).result = r ∧
    (vkCreateInstance c loader pInstance).pInstance = pInstance ∧
    ∀ p, Event.write_pInstance p ∉ (vkCreateInstance c loader pInstance).trace := by
  subst hr
  cases hp : c.pAllocator <;>
    simp [vkCreateInstance, halloc, hcount, hfail, hp]

/-- A witness of C1: one layer requested, `loader_validate_layers` returns
`VK_ERROR_LAYER_NOT_PRESENT`, the output cell held `0` on entry. -/
theorem vkCreateInstance_layer_validation_failure_witness :
    layerMissing.alloc_instance ≠ NULL ∧
    layerMissing.enabledLayerNameCount > 0 ∧
    layerMissing.validate_layers = VK_ERROR_LAYER_NOT_PRESENT ∧
    VK_ERROR_LAYER_NOT_PRESENT ≠ VK_SUCCESS ∧
    Event.validate_layers VK_ERROR_LAYER_NOT_PRESENT ∈
      (vkCreateInstance layerMissing ⟨[7]⟩ 0).trace ∧
    (vkCreateInstance layerMissing ⟨[7]⟩ 0).result = VK_ERROR_LAYER_NOT_PRESENT ∧
    (vkCreateInstance layerMissing ⟨[7]⟩ 0).pInstance = 0 ∧
    ∀ p, Event.write_pInstance p ∉ (vkCreateInstance layerMissing ⟨[7]⟩ 0).trace :=
  ⟨by decide, by decide, rfl, by decide,
    vkCreateInstance_layer_validation_failure layerMissing ⟨[7]⟩ 0
      VK_ERROR_LAYER_NOT_PRESENT (by decide) (by decide) rfl (by decide)⟩

/-- C2: at the failing input (one layer requested, `loader_validate_layers`
returns `VK_ERROR_LAYER_NOT_PRESENT`) the call returns the failure having
created the instance record and both layer lists and released nothing: the only
step after the failed validation is `unlock_mutex`. -/
theorem vkCreateInstance_layer_validation_failure_releases_nothing :
    (vkCreateInstance layerMissing ⟨[]⟩ 0).result = VK_ERROR_LAYER_NOT_PRESENT ∧
    creations (vkCreateInstance layerMissing ⟨[]⟩ 0).trace =
      [Resource.instance_record, Resource.instance_layer_list, Resource.device_layer_list] ∧
    releases (vkCreateInstance layerMissing ⟨[]⟩ 0).trace = [] ∧
    (vkCreateInstance layerMissing ⟨[]⟩ 0).trace =
      [Event.thread_once, Event.alloc_instance false 100, Event.set_tls_instance,
       Event.lock_mutex, Event.memset_instance,
       Event.memset_layer_list LayerList.instance_layer_list,
       Event.memset_layer_list LayerList.device_layer_list,
       Event.layer_scan, Event.validate_layers VK_ERROR_LAYER_NOT_PRESENT,
       Event.unlock_mutex] := by
  decide

/-- C3: at the failing input (every step succeeds, the chain head's
`CreateInstance` returns `VK_ERROR_INITIALIZATION_FAILED`) the call returns that
failure although `*pInstance`, which held `0` on entry, has been written with the
new instance record `100`, which also stays linked in `loader.instances`. -/
theorem vkCreateInstance_chain_failure_writes_pInstance :
    (vkCreateInstance chainFails ⟨[]⟩ 0).result = VK_ERROR_INITIALIZATION_FAILED ∧
    (vkCreateInstance chainFails ⟨[]⟩ 0).result ≠ VK_SUCCESS ∧
    Event.write_pInstance 100 ∈ (vkCreateInstance chainFails ⟨[]⟩ 0).trace ∧
    (vkCreateInstance chainFails ⟨[]⟩ 0).pInstance = 100 ∧
    (vkCreateInstance chainFails ⟨[]⟩ 0).loader.instances = [100] ∧
    releases (vkCreateInstance chainFails ⟨[]⟩ 0).trace = [] := by
  decide

/-- C4: when `loader_validate_instance_extensions` returns a non-success code
`r`, `vkCreateInstance` returns exactly `r`, and the trace of the call holds no
allocation of the dispatch table, no call of `loader_enable_instance_layers`
and no call of `loader_activate_instance_layers`. -/
theorem vkCreateInstance_extension_validation_failure
    (c : Collaborators) (loader : LoaderState) (pInstance : Ptr) (r : VkResult)
    (halloc : c.alloc_instance ≠ NULL)
    (hlayers : c.enabledLayerNameCount = 0 ∨ c.validate_layers = VK_SUCCESS)
    (hr : c.validate_instance_extensions = r) (hfail : r ≠ VK_SUCCESS) :
    Event.validate_instance_extensions r ∈ (vkCreateInstance c loader pInstance).trace ∧
    (vkCreateInstance c loader pInstance).result = r ∧
    (∀ d, Event.heap_alloc_disp d ∉ (vkCreateInstance c loader pInstance).trace) ∧
    (∀ x, Event.enable_instance_layers x ∉ (vkCreateInstance c loader pInstance).trace) ∧
    Event.activate_instance_layers ∉ (vkCreateInstance c loader pInstance).trace := by
  subst hr
  rw [vkCreateInstance_eq_fromIcdScan c loader pInstance halloc hlayers,
    fromIcdScan_extension_failure c loader pInstance _ _ hfail]
  cases hp : c.pAllocator <;> by_cases hc : c.enabledLayerNameCount > 0 <;>
    simp [prologue, releaseLists, hp, hc]

/-- A witness of C4: no layer requested, `loader_validate_instance_extensions`
returns `VK_ERROR_EXTENSION_NOT_PRESENT`. -/
theorem vkCreateInstance_extension_validation_failure_witness :
    extensionMissing.alloc_instance ≠ NULL ∧
    (extensionMissing.enabledLayerNameCount = 0 ∨
      extensionMissing.validate_layers = VK_SUCCESS) ∧
    extensionMissing.validate_instance_extensions = VK_ERROR_EXTENSION_NOT_PRESENT ∧
    VK_ERROR_EXTENSION_NOT_PRESENT ≠ VK_SUCCESS ∧
    Event.validate_instance_extensions VK_ERROR_EXTENSION_NOT_PRESENT ∈
      (vkCreateInstance extensionMissing ⟨[7]⟩ 0).trace ∧
    (vkCreateInstance extensionMissing ⟨[7]⟩ 0).result = VK_ERROR_EXTENSION_NOT_PRESENT ∧
    (∀ d, Event.heap_alloc_disp d ∉ (vkCreateInstance extensionMissing ⟨[7]⟩ 0).trace) ∧
    (∀ x, Event.enable_instance_layers x ∉
      (vkCreateInstance extensionMissing ⟨[7]⟩ 0).trace) ∧
    Event.activate_instance_layers ∉ (vkCreateInstance extensionMissing ⟨[7]⟩ 0).trace :=
  ⟨by decide, Or.inl rfl, rfl, by decide,
    vkCreateInstance_extension_validation_failure extensionMissing ⟨[7]⟩ 0
      VK_ERROR_EXTENSION_NOT_PRESENT (by decide) (Or.inl rfl) rfl (by decide)⟩

/-- C5: on each of the three failure returns that follow the ICD scan, the
device layer list, the instance layer list, the scanned-ICD list, the extension
list and the instance record are each released exactly once, the dispatch table
is released once if it had been allocated and not at all otherwise, and every
resource is released as many times as it was created. -/
theorem vkCreateInstance_failure_releases_once
    (c : Collaborators) (loader : LoaderState) (pInstance : Ptr)
    (halloc : c.alloc_instance ≠ NULL)
    (hlayers : c.enabledLayerNameCount = 0 ∨ c.validate_layers = VK_SUCCESS)
    (hfail : c.validate_instance_extensions ≠ VK_SUCCESS ∨ c.alloc_disp = NULL ∨
      c.enable_instance_layers ≠ VK_SUCCESS) :
    (vkCreateInstance c loader pInstance).result ≠ VK_SUCCESS ∧
    (∀ r ∈ [Resource.device_layer_list, Resource.instance_layer_list, Resource.icd_libs,
        Resource.ext_list, Resource.instance_record],
      (releases (vkCreateInstance c loader pInstance).trace).count r = 1) ∧
    ((releases (vkCreateInstance c loader pInstance).trace).count Resource.disp_table =
      if Resource.disp_table ∈ creations (vkCreateInstance c loader pInstance).trace
      then 1 else 0) ∧
    (∀ r, (releases (vkCreateInstance c loader pInstance).trace).count r =
      (creations (vkCreateInstance c loader pInstance).trace).count r) := by
  rw [vkCreateInstance_eq_fromIcdScan c loader pInstance halloc hlayers]
  by_cases he : c.validate_instance_extensions = VK_SUCCESS
  · by_cases hd : c.alloc_disp = NULL
    · rw [fromIcdScan_alloc_failure c loader pInstance _ _ he hd]
      simp only [releases_append, creations_append, releases_prologue,
        creations_prologue c halloc]
      refine ⟨by decide, ?_, ?_, ?_⟩
      · intro r hr
        simp only [List.mem_cons, List.mem_singleton, List.not_mem_nil, or_false] at hr
        rcases hr with rfl | rfl | rfl | rfl | rfl <;>
          simp [releases, Event.releases, releaseLists]
      · simp [releases, Event.releases, releaseLists, creations, Event.creates]
      · intro r
        cases r <;> simp [releases, Event.releases, releaseLists, creations, Event.creates]
    · have hn := enable_fails_of_failure c hfail he hd
      rw [fromIcdScan_enable_failure c loader pInstance _ _ he hd hn]
      simp only [releases_append, creations_append, releases_prologue,
        creations_prologue c halloc]
      refine ⟨hn, ?_, ?_, ?_⟩
      · intro r hr
        simp only [List.mem_cons, List.mem_singleton, List.not_mem_nil, or_false] at hr
        rcases hr with rfl | rfl | rfl | rfl | rfl <;>
          simp [releases, Event.releases, releaseLists]
      · simp [releases, Event.releases, releaseLists, creations, Event.creates, hd]
      · intro r
        cases r <;> simp [releases, Event.releases, releaseLists, creations, Event.creates, hd]
  · rw [fromIcdScan_extension_failure c loader pInstance _ _ he]
    simp only [releases_append, creations_append, releases_prologue,
      creations_prologue c halloc]
    refine ⟨he, ?_, ?_, ?_⟩
    · intro r hr
      simp only [List.mem_cons, List.mem_singleton, List.not_mem_nil, or_false] at hr
      rcases hr with rfl | rfl | rfl | rfl | rfl <;>
        simp [releases, Event.releases, releaseLists]
    · simp [releases, Event.releases, releaseLists, creations, Event.creates]
    · intro r
      cases r <;> simp [releases, Event.releases, releaseLists, creations, Event.creates]

/-- A witness of C5: `loader_enable_instance_layers` fails after the dispatch
table `200` was allocated and the instance `100` linked. -/
theorem vkCreateInstance_failure_releases_once_witness :
    enableFails.alloc_instance ≠ NULL ∧
    (enableFails.enabledLayerNameCount = 0 ∨ enableFails.validate_layers = VK_SUCCESS) ∧
    (enableFails.validate_instance_extensions ≠ VK_SUCCESS ∨ enableFails.alloc_disp = NULL ∨
      enableFails.enable_instance_layers ≠ VK_SUCCESS) ∧
    (vkCreateInstance enableFails ⟨[7]⟩ 0).result ≠ VK_SUCCESS ∧
    (∀ r ∈ [Resource.device_layer_list, Resource.instance_layer_list, Resource.icd_libs,
        Resource.ext_list, Resource.instance_record],
      (releases (vkCreateInstance enableFails ⟨[7]⟩ 0).trace).count r = 1) ∧
    ((releases (vkCreateInstance enableFails ⟨[7]⟩ 0).trace).count Resource.disp_table =
      if Resource.disp_table ∈ creations (vkCreateInstance enableFails ⟨[7]⟩ 0).trace
      then 1 else 0) ∧
    (∀ r, (releases (vkCreateInstance enableFails ⟨[7]⟩ 0).trace).count r =
      (creations (vkCreateInstance enableFails ⟨[7]⟩ 0).trace).count r) :=
  ⟨by decide, Or.inl rfl, Or.inr (Or.inr (by decide)),
    vkCreateInstance_failure_releases_once enableFails ⟨[7]⟩ 0 (by decide) (Or.inl rfl)
      (Or.inr (Or.inr (by decide)))⟩

/-- C6, refuted as stated: when `loader_enable_instance_layers` fails, the
resources are released in the order device layer list, instance layer list,
ICD list, extension list, registry link, dispatch table, instance record, which
is not the reverse of the order in which they were created. -/
theorem vkCreateInstance_release_order_not_reverse :
    (vkCreateInstance enableFails ⟨[]⟩ 0).result ≠ VK_SUCCESS ∧
    creations (vkCreateInstance enableFails ⟨[]⟩ 0).trace =
      [Resource.instance_record, Resource.instance_layer_list, Resource.device_layer_list,
       Resource.icd_libs, Resource.ext_list, Resource.disp_table, Resource.registry_link] ∧
    releases (vkCreateInstance enableFails ⟨[]⟩ 0).trace =
      [Resource.device_layer_list, Resource.instance_layer_list, Resource.icd_libs,
       Resource.ext_list, Resource.registry_link, Resource.disp_table,
       Resource.instance_record] ∧
    releases (vkCreateInstance enableFails ⟨[]⟩ 0).trace ≠
      (creations (vkCreateInstance enableFails ⟨[]⟩ 0).trace).reverse := by
  decide

/-- C6, amended: on each of the three failure returns that follow the ICD scan
the release operations run in one fixed order: device layer list, instance
layer list, ICD list, extension list, then the registry link and the dispatch
table (each only if it had been created during the call), and the instance
record last. -/
theorem vkCreateInstance_failure_release_order
    (c : Collaborators) (loader : LoaderState) (pInstance : Ptr)
    (halloc : c.alloc_instance ≠ NULL)
    (hlayers : c.enabledLayerNameCount = 0 ∨ c.validate_layers = VK_SUCCESS)
    (hfail : c.validate_instance_extensions ≠ VK_SUCCESS ∨ c.alloc_disp = NULL ∨
      c.enable_instance_layers ≠ VK_SUCCESS) :
    releases (vkCreateInstance c loader pInstance).trace =
      [Resource.device_layer_list, Resource.instance_layer_list, Resource.icd_libs,
       Resource.ext_list] ++
      ([Resource.registry_link, Resource.disp_table].filter
        (fun r => decide (r ∈ creations (vkCreateInstance c loader pInstance).trace))) ++
      [Resource.instance_record] := by
  rw [vkCreateInstance_eq_fromIcdScan c loader pInstance halloc hlayers]
  by_cases he : c.validate_instance_extensions = VK_SUCCESS
  · by_cases hd : c.alloc_disp = NULL
    · rw [fromIcdScan_alloc_failure c loader pInstance _ _ he hd]
      simp only [releases_append, creations_append, releases_prologue,
        creations_prologue c halloc]
      simp [releases, Event.releases, releaseLists, creations, Event.creates]
    · have hn := enable_fails_of_failure c hfail he hd
      rw [fromIcdScan_enable_failure c loader pInstance _ _ he hd hn]
      simp only [releases_append, creations_append, releases_prologue,
        creations_prologue c halloc]
      simp [releases, Event.releases, releaseLists, creations, Event.creates, hd]
  · rw [fromIcdScan_extension_failure c loader pInstance _ _ he]
    simp only [releases_append, creations_append, releases_prologue,
      creations_prologue c halloc]
    simp [releases, Event.releases, releaseLists, creations, Event.creates]

/-- A witness of amended C6: the dispatch-table allocation returns `NULL`, so
neither the registry link nor the dispatch table is among the releases. -/
theorem vkCreateInstance_failure_release_order_witness :
    dispAllocFails.alloc_instance ≠ NULL ∧
    (dispAllocFails.enabledLayerNameCount = 0 ∨
      dispAllocFails.validate_layers = VK_SUCCESS) ∧
    (dispAllocFails.validate_instance_extensions ≠ VK_SUCCESS ∨
      dispAllocFails.alloc_disp = NULL ∨
      dispAllocFails.enable_instance_layers ≠ VK_SUCCESS) ∧
    releases (vkCreateInstance dispAllocFails ⟨[7]⟩ 0).trace =
      [Resource.device_layer_list, Resource.instance_layer_list, Resource.icd_libs,
       Resource.ext_list] ++
      ([Resource.registry_link, Resource.disp_table].filter
        (fun r => decide (r ∈ creations (vkCreateInstance dispAllocFails ⟨[7]⟩ 0).trace))) ++
      [Resource.instance_record] :=
  ⟨by decide, Or.inr rfl, Or.inr (Or.inl rfl),
    vkCreateInstance_failure_release_order dispAllocFails ⟨[7]⟩ 0
      (by decide) (Or.inr rfl) (Or.inr (Or.inl rfl))⟩

/-- C7, refuted as stated: when extension validation fails (the mutex having
been acquired), the instance record is freed after the mutex is released. -/
theorem vkCreateInstance_frees_after_unlock :
    Event.lock_mutex ∈ (vkCreateInstance extensionMissing ⟨[]⟩ 0).trace ∧
    (vkCreateInstance extensionMissing ⟨[]⟩ 0).result ≠ VK_SUCCESS ∧
    afterUnlock (vkCreateInstance extensionMissing ⟨[]⟩ 0).trace =
      [Event.heap_free_instance 100] ∧
    releases (afterUnlock (vkCreateInstance extensionMissing ⟨[]⟩ 0).trace) ≠ [] := by
  decide

/-- C7, amended: on each of the three failure returns that follow the ICD scan,
the four lists are released and the registry link (if made) is undone before
the mutex is released, and the dispatch table (if allocated) and the instance
record are freed after it is released. -/
theorem vkCreateInstance_failure_release_around_unlock
    (c : Collaborators) (loader : LoaderState) (pInstance : Ptr)
    (halloc : c.alloc_instance ≠ NULL)
    (hlayers : c.enabledLayerNameCount = 0 ∨ c.validate_layers = VK_SUCCESS)
    (hfail : c.validate_instance_extensions ≠ VK_SUCCESS ∨ c.alloc_disp = NULL ∨
      c.enable_instance_layers ≠ VK_SUCCESS) :
    releases (beforeUnlock (vkCreateInstance c loader pInstance).trace) =
      [Resource.device_layer_list, Resource.instance_layer_list, Resource.icd_libs,
       Resource.ext_list] ++
      ([Resource.registry_link].filter
        (fun r => decide (r ∈ creations (vkCreateInstance c loader pInstance).trace))) ∧
    releases (afterUnlock (vkCreateInstance c loader pInstance).trace) =
      ([Resource.disp_table].filter
        (fun r => decide (r ∈ creations (vkCreateInstance c loader pInstance).trace))) ++
      [Resource.instance_record] := by
  rw [vkCreateInstance_eq_fromIcdScan c loader pInstance halloc hlayers]
  have hp := unlock_not_mem_prologue c
  by_cases he : c.validate_instance_extensions = VK_SUCCESS
  · by_cases hd : c.alloc_disp = NULL
    · rw [fromIcdScan_alloc_failure c loader pInstance _ _ he hd]
      simp only [beforeUnlock_append _ _ hp, afterUnlock_append _ _ hp, releases_append,
        creations_append, releases_prologue, creations_prologue c halloc]
      simp [releases, Event.releases, releaseLists, creations, Event.creates, beforeUnlock,
        afterUnlock]
    · have hn := enable_fails_of_failure c hfail he hd
      rw [fromIcdScan_enable_failure c loader pInstance _ _ he hd hn]
      simp only [beforeUnlock_append _ _ hp, afterUnlock_append _ _ hp, releases_append,
        creations_append, releases_prologue, creations_prologue c halloc]
      simp [releases, Event.releases, releaseLists, creations, Event.creates, beforeUnlock,
        afterUnlock, hd]
  · rw [fromIcdScan_extension_failure c loader pInstance _ _ he]
    simp only [beforeUnlock_append _ _ hp, afterUnlock_append _ _ hp, releases_append,
      creations_append, releases_prologue, creations_prologue c halloc]
    simp [releases, Event.releases, releaseLists, creations, Event.creates, beforeUnlock,
      afterUnlock]

/-- A witness of amended C7: `loader_enable_instance_layers` fails; the lists
and the registry link are released before the unlock, the dispatch table and
the instance record after it. -/
theorem vkCreateInstance_failure_release_around_unlock_witness :
    enableFails.alloc_instance ≠ NULL ∧
    (enableFails.enabledLayerNameCount = 0 ∨ enableFails.validate_layers = VK_SUCCESS) ∧
    (enableFails.validate_instance_extensions ≠ VK_SUCCESS ∨ enableFails.alloc_disp = NULL ∨
      enableFails.enable_instance_layers ≠ VK_SUCCESS) ∧
    (releases (beforeUnlock (vkCreateInstance enableFails ⟨[7]⟩ 0).trace) =
      [Resource.device_layer_list, Resource.instance_layer_list, Resource.icd_libs,
       Resource.ext_list] ++
      ([Resource.registry_link].filter
        (fun r => decide (r ∈ creations (vkCreateInstance enableFails ⟨[7]⟩ 0).trace))) ∧
    releases (afterUnlock (vkCreateInstance enableFails ⟨[7]⟩ 0).trace) =
      ([Resource.disp_table].filter
        (fun r => decide (r ∈ creations (vkCreateInstance enableFails ⟨[7]⟩ 0).trace))) ++
      [Resource.instance_record]) :=
  ⟨by decide, Or.inl rfl, Or.inr (Or.inr (by decide)),
    vkCreateInstance_failure_release_around_unlock enableFails ⟨[7]⟩ 0 (by decide)
      (Or.inl rfl) (Or.inr (Or.inr (by decide)))⟩

/-- C8, as stated, fails: every validation, allocation and layer-enabling step
succeeds and the chain head's `CreateInstance` returns `VK_SUCCESS`, but it
stores the handle `55` in `*pInstance`, which it is passed (line 159); on return
`*pInstance` holds `55`, not the newly allocated record `100`. -/
theorem vkCreateInstance_chain_overwrites_pInstance :
    chainRewrites.alloc_instance = 100 ∧
    chainRewrites.enabledLayerNameCount = 0 ∧
    chainRewrites.validate_instance_extensions = VK_SUCCESS ∧
    chainRewrites.alloc_disp ≠ NULL ∧
    chainRewrites.enable_instance_layers = VK_SUCCESS ∧
    chainRewrites.chain_CreateInstance = VK_SUCCESS ∧
    (vkCreateInstance chainRewrites ⟨[7, 8]⟩ 0).result = VK_SUCCESS ∧
    Event.write_pInstance 100 ∈ (vkCreateInstance chainRewrites ⟨[7, 8]⟩ 0).trace ∧
    (vkCreateInstance chainRewrites ⟨[7, 8]⟩ 0).pInstance = 55 ∧
    (vkCreateInstance chainRewrites ⟨[7, 8]⟩ 0).pInstance ≠ chainRewrites.alloc_instance := by
  decide

/-- C8, amended: when every validation, allocation and layer-enabling step
succeeds and the chain head's `CreateInstance` returns `r`, `vkCreateInstance`
returns `r`; the newly allocated instance record is written to `*pInstance`
before the chain's `CreateInstance` is called, and the chain sees that record in
`*pInstance` at its call; on return `*pInstance` holds what the chain left in it,
which is the new record when the chain stores nothing there; and the loader
state on return is the new instance followed by the list `loader.instances` as
it was on entry. -/
theorem vkCreateInstance_success_path
    (c : Collaborators) (loader : LoaderState) (pInstance : Ptr) (r : VkResult)
    (halloc : c.alloc_instance ≠ NULL)
    (hlayers : c.enabledLayerNameCount = 0 ∨ c.validate_layers = VK_SUCCESS)
    (he : c.validate_instance_extensions = VK_SUCCESS)
    (hd : c.alloc_disp ≠ NULL)
    (hn : c.enable_instance_layers = VK_SUCCESS)
    (hr : c.chain_CreateInstance = r) :
    (vkCreateInstance c loader pInstance).result = r ∧
    Event.chain_CreateInstance c.alloc_instance r ∈
      (vkCreateInstance c loader pInstance).trace ∧
    Event.write_pInstance c.alloc_instance ∈
      eventsBefore (Event.chain_CreateInstance c.alloc_instance r)
        (vkCreateInstance c loader pInstance).trace ∧
    (∀ p, Event.write_pInstance p ∈ (vkCreateInstance c loader pInstance).trace →
      p = c.alloc_instance) ∧
    (∀ h, c.chain_pInstance = some h →
      (vkCreateInstance c loader pInstance).pInstance = h) ∧
    (c.chain_pInstance = none →
      (vkCreateInstance c loader pInstance).pInstance = c.alloc_instance) ∧
    (vkCreateInstance c loader pInstance).loader =
      { instances := c.alloc_instance :: loader.instances } := by
  subst hr
  rw [vkCreateInstance_eq_fromIcdScan c loader pInstance halloc hlayers,
    fromIcdScan_no_failure c loader pInstance _ _ he hd hn]
  refine ⟨rfl, ?_, ?_, ?_, ?_, ?_, rfl⟩
  · simp
  · simp only [eventsBefore_append _ _ _ (chain_not_mem_prologue c _ _)]
    simp [eventsBefore]
  · intro p hp
    rcases List.mem_append.1 hp with hp | hp
    · exact absurd hp (write_not_mem_prologue c p)
    · simpa using hp
  · intro h hh
    simp [hh]
  · intro hh
    simp [hh]

/-- A witness of C8: the chain returns `VK_SUCCESS`, stores nothing in
`*pInstance`, and the registry held `[7, 8]` on entry; it holds `[100, 7, 8]` on
return and `*pInstance` holds the new record `100`. -/
theorem vkCreateInstance_success_path_witness :
    allSucceed.alloc_instance ≠ NULL ∧
    (allSucceed.enabledLayerNameCount = 0 ∨ allSucceed.validate_layers = VK_SUCCESS) ∧
    allSucceed.validate_instance_extensions = VK_SUCCESS ∧
    allSucceed.alloc_disp ≠ NULL ∧
    allSucceed.enable_instance_layers = VK_SUCCESS ∧
    allSucceed.chain_CreateInstance = VK_SUCCESS ∧
    allSucceed.chain_pInstance = none ∧
    (vkCreateInstance allSucceed ⟨[7, 8]⟩ 0).result = VK_SUCCESS ∧
    (vkCreateInstance allSucceed ⟨[7, 8]⟩ 0).pInstance = 100 ∧
    Event.write_pInstance 100 ∈
      eventsBefore (Event.chain_CreateInstance 100 VK_SUCCESS)
        (vkCreateInstance allSucceed ⟨[7, 8]⟩ 0).trace ∧
    (vkCreateInstance allSucceed ⟨[7, 8]⟩ 0).loader = { instances := [100, 7, 8] } :=
  have h := vkCreateInstance_success_path allSucceed ⟨[7, 8]⟩ 0 VK_SUCCESS
      (by decide) (Or.inr rfl) rfl (by decide) rfl rfl
  ⟨by decide, Or.inr rfl, rfl, by decide, rfl, rfl, rfl, h.1, h.2.2.2.2.2.1 rfl,
    h.2.2.1, h.2.2.2.2.2.2⟩

/-- C9: after `vkGetDeviceQueue` returns, the pointer embedded in the queue
handle stored in `*pQueue` is the table pointer that was embedded in the device
handle on entry, whatever the chain's `GetDeviceQueue` did to the memory and
whichever handle it stored in `*pQueue`. -/
theorem vkGetDeviceQueue_stamps_queue
    (tables : Ptr → VkLayerDispatchTable) (mem : Memory) (device : Ptr)
    (queueNodeIndex queueIndex : Nat) (pQueue : Ptr) :
    loader_get_dispatch
        (vkGetDeviceQueue tables mem device queueNodeIndex queueIndex pQueue).1
        (vkGetDeviceQueue tables mem device queueNodeIndex queueIndex pQueue).2 =
      loader_get_dispatch mem device ∧
    (vkGetDeviceQueue tables mem device queueNodeIndex queueIndex pQueue).2 =
      ((tables (loader_get_dispatch mem device)).GetDeviceQueue mem device queueNodeIndex
        queueIndex pQueue).2 := by
  simp [vkGetDeviceQueue, loader_get_dispatch, loader_set_dispatch]

/-- C10: when the chain's `AllocateCommandBuffers` succeeds on a device whose
embedded table pointer is `T`, `vkAllocateCommandBuffers` returns the chain's
result, leaves the array as the chain filled it, and every non-null handle
`pCommandBuffers[i]` with `i < bufferCount` has `T` as its embedded pointer
after the call. -/
theorem vkAllocateCommandBuffers_stamps_buffers
    (tables : Ptr → VkLayerDispatchTable) (mem : Memory) (device : Ptr)
    (pAllocateInfo : VkCommandBufferAllocateInfo) (pCommandBuffers : Nat → Ptr)
    (T : Ptr) (i : Nat)
    (hT : loader_get_dispatch mem device = T)
    (hres : ((tables T).AllocateCommandBuffers mem device pAllocateInfo pCommandBuffers).1 =
      VK_SUCCESS)
    (hi : i < pAllocateInfo.bufferCount)
    (hnn : (vkAllocateCommandBuffers tables mem device pAllocateInfo
      pCommandBuffers).pCommandBuffers i ≠ NULL) :
    (vkAllocateCommandBuffers tables mem device pAllocateInfo pCommandBuffers).result =
      ((tables T).AllocateCommandBuffers mem device pAllocateInfo pCommandBuffers).1 ∧
    (vkAllocateCommandBuffers tables mem device pAllocateInfo pCommandBuffers).pCommandBuffers =
      ((tables T).AllocateCommandBuffers mem device pAllocateInfo pCommandBuffers).2.2 ∧
    loader_get_dispatch
      (vkAllocateCommandBuffers tables mem device pAllocateInfo pCommandBuffers).mem
      ((vkAllocateCommandBuffers tables mem device pAllocateInfo
        pCommandBuffers).pCommandBuffers i) = T := by
  subst hT
  simp only [vkAllocateCommandBuffers, hres, if_true] at hnn ⊢
  refine ⟨trivial, trivial, ?_⟩
  simp only [loader_get_dispatch]
  exact stampCommandBuffers_stamps _ _ i hnn _ 0 _ (Nat.zero_le i) (by omega)

/-- A witness of C10: three buffers are allocated on the device at address `1`,
which carries table `5`; the chain returns the handles `10, 11, 12`, and the
handle `pCommandBuffers[1] = 11` carries `5` after the call. -/
theorem vkAllocateCommandBuffers_stamps_buffers_witness :
    loader_get_dispatch sampleMemory 1 = 5 ∧
    (sampleTable.AllocateCommandBuffers sampleMemory 1 ⟨3⟩ (fun _ => 0)).1 = VK_SUCCESS ∧
    1 < (⟨3⟩ : VkCommandBufferAllocateInfo).bufferCount ∧
    (vkAllocateCommandBuffers (fun _ => sampleTable) sampleMemory 1 ⟨3⟩
      (fun _ => 0)).pCommandBuffers 1 = 11 ∧
    (vkAllocateCommandBuffers (fun _ => sampleTable) sampleMemory 1 ⟨3⟩
      (fun _ => 0)).result = VK_SUCCESS ∧
    loader_get_dispatch
      (vkAllocateCommandBuffers (fun _ => sampleTable) sampleMemory 1 ⟨3⟩ (fun _ => 0)).mem
      ((vkAllocateCommandBuffers (fun _ => sampleTable) sampleMemory 1 ⟨3⟩
        (fun _ => 0)).pCommandBuffers 1) = 5 :=
  have h := vkAllocateCommandBuffers_stamps_buffers (fun _ => sampleTable) sampleMemory 1
    ⟨3⟩ (fun _ => 0) 5 1 rfl rfl (by decide) (by decide)
  ⟨rfl, rfl, by decide, rfl, h.1, h.2.2⟩

/-! ### The forwarding trampolines -/

theorem valueOf_of_not_mem (p : String) (v : Nat) (ps : List String) (vs : List Nat)
    (x : String) (hx : x ≠ p) : valueOf (p :: ps) (v :: vs) x = valueOf ps vs x := by
  simp [valueOf, hx]

theorem valueOf_map (params : List String) :
    ∀ (vals : List Nat), params.Nodup → vals.length = params.length →
      params.map (valueOf params vals) = vals := by
  induction params with
  | nil =>
    intro vals _ hlen
    cases vals with
    | nil => rfl
    | cons v vs => simp at hlen
  | cons p ps ih =>
    intro vals hnd hlen
    cases vals with
    | nil => simp at hlen
    | cons v vs =>
      have hnd2 := List.nodup_cons.mp hnd
      have hlen2 : vs.length = ps.length := by simpa using hlen
      have htail : ps.map (valueOf (p :: ps) (v :: vs)) = ps.map (valueOf ps vs) := by
        apply List.map_congr_left
        intro x hx
        apply valueOf_of_not_mem
        intro hxp
        exact hnd2.1 (hxp ▸ hx)
      simp only [List.map_cons, htail, ih vs hnd2.2 hlen2]
      simp [valueOf]

theorem valueOf_head (params : List String) (vals : List Nat) (g : String)
    (hg : params.head? = some g) (hlen : vals.length = params.length) :
    valueOf params vals g = vals.headD 0 := by
  cases params with
  | nil => simp at hg
  | cons p ps =>
    cases vals with
    | nil => simp at hlen
    | cons v vs =>
      simp only [List.head?_cons, Option.some.injEq] at hg
      simp [valueOf, hg]

theorem Getter.read_eq (g : Getter) (mem : Memory) (obj : Ptr) : g.read mem obj = mem obj := by
  cases g <;> rfl

set_option maxRecDepth 100000 in
theorem physicalDeviceForwarders_verbatim :
    physicalDeviceForwarders.all Forwarder.forwardsVerbatim = true := by decide

set_option maxRecDepth 100000 in
theorem queueForwarders_verbatim :
    queueForwarders.all Forwarder.forwardsVerbatim = true := by decide

set_option maxRecDepth 100000 in
theorem deviceForwarders1_verbatim :
    deviceForwarders1.all Forwarder.forwardsVerbatim = true := by decide

set_option maxRecDepth 100000 in
theorem deviceForwarders2_verbatim :
    deviceForwarders2.all Forwarder.forwardsVerbatim = true := by decide

set_option maxRecDepth 100000 in
theorem deviceForwarders3_verbatim :
    deviceForwarders3.all Forwarder.forwardsVerbatim = true := by decide

set_option maxRecDepth 100000 in
theorem commandBufferForwarders1_verbatim :
    commandBufferForwarders1.all Forwarder.forwardsVerbatim = true := by decide

set_option maxRecDepth 100000 in
theorem commandBufferForwarders2_verbatim :
    commandBufferForwarders2.all Forwarder.forwardsVerbatim = true := by decide

theorem hotPathTrampolines_verbatim (f : Forwarder) (hf : f ∈ hotPathTrampolines) :
    f.forwardsVerbatim = true := by
  simp only [hotPathTrampolines, List.mem_append] at hf
  rcases hf with (((((h | h) | h) | h) | h) | h) | h
  · exact List.all_eq_true.mp physicalDeviceForwarders_verbatim f h
  · exact List.all_eq_true.mp queueForwarders_verbatim f h
  · exact List.all_eq_true.mp deviceForwarders1_verbatim f h
  · exact List.all_eq_true.mp deviceForwarders2_verbatim f h
  · exact List.all_eq_true.mp deviceForwarders3_verbatim f h
  · exact List.all_eq_true.mp commandBufferForwarders1_verbatim f h
  · exact List.all_eq_true.mp commandBufferForwarders2_verbatim f h

theorem Forwarder.run_of_verbatim (f : Forwarder) (hv : f.forwardsVerbatim = true)
    (slotResult : Ptr → Slot → List Nat → VkResult) (mem : Memory) (vals : List Nat)
    (hlen : vals.length = f.params.length) :
    (f.run slotResult mem vals).trace =
      [f.getter.event (vals.headD 0), Event.call_slot (mem (vals.headD 0)) f.name vals] ∧
    (f.run slotResult mem vals).result =
      (if f.isVoid then none else some (slotResult (mem (vals.headD 0)) f.name vals)) ∧
    (f.getter = Getter.loader_get_instance_dispatch ↔
      (f.handle = HandleType.VkInstance ∨ f.handle = HandleType.VkPhysicalDevice)) := by
  simp only [Forwarder.forwardsVerbatim, Bool.and_eq_true, decide_eq_true_eq, bne_iff_ne,
    ne_eq, beq_iff_eq] at hv
  obtain ⟨⟨⟨⟨⟨hslot, hargs⟩, hhead⟩, hnd⟩, hret⟩, hget⟩ := hv
  have hobj := valueOf_head f.params vals f.getterArg hhead hlen
  have hmap := valueOf_map f.params vals hnd hlen
  refine ⟨?_, ?_, ?_⟩
  · simp [Forwarder.run, hobj, hargs, hmap, hslot, Getter.read_eq]
  · cases hr : f.returnsCall <;> cases hvoid : f.isVoid <;>
      simp_all [Forwarder.run, Getter.read_eq]
  · by_cases h1 : f.getter = Getter.loader_get_instance_dispatch <;>
      by_cases h2 : f.handle = HandleType.VkInstance <;>
      by_cases h3 : f.handle = HandleType.VkPhysicalDevice <;>
      simp_all

set_option maxRecDepth 100000 in
theorem hotPathTrampolines_length : hotPathTrampolines.length = 126 := by decide

theorem tableReads_stampCommandBuffers_trace (disp : Ptr) (bufs : Nat → Ptr) :
    ∀ (k i : Nat), tableReads (stampCommandBuffers_trace disp bufs k i) = [] := by
  intro k
  induction k with
  | zero => intro i; rfl
  | succ k ih =>
    intro i
    by_cases hb : bufs i ≠ NULL
    · simp [stampCommandBuffers_trace, hb, tableReads, ih]
    · simp [stampCommandBuffers_trace, hb, ih]

theorem slotCalls_stampCommandBuffers_trace (disp : Ptr) (bufs : Nat → Ptr) :
    ∀ (k i : Nat), slotCalls (stampCommandBuffers_trace disp bufs k i) = [] := by
  intro k
  induction k with
  | zero => intro i; rfl
  | succ k ih =>
    intro i
    by_cases hb : bufs i ≠ NULL
    · simp [stampCommandBuffers_trace, hb, slotCalls, ih]
    · simp [stampCommandBuffers_trace, hb, ih]

/-- C11, as stated, fails: `vkEnumerateDeviceExtensionProperties` and
`vkEnumerateDeviceLayerProperties` operate on an already-created physical-device
handle, yet they read no dispatch table and call no slot of one (lines 311-314
and 325-328): their traces hold no table read and no slot call, where the claim
has exactly one call of the slot of the same name. -/
theorem enumerate_device_trampolines_call_no_slot :
    (vkEnumerateDeviceExtensionProperties (fun _ _ _ _ => VK_SUCCESS) 1 2 3 4).trace =
      [Event.lock_mutex, Event.loader_EnumerateDeviceExtensionProperties 1 VK_SUCCESS,
       Event.unlock_mutex] ∧
    tableReads (vkEnumerateDeviceExtensionProperties (fun _ _ _ _ => VK_SUCCESS)
      1 2 3 4).trace = [] ∧
    slotCalls (vkEnumerateDeviceExtensionProperties (fun _ _ _ _ => VK_SUCCESS)
      1 2 3 4).trace = [] ∧
    (slotCalls (vkEnumerateDeviceExtensionProperties (fun _ _ _ _ => VK_SUCCESS)
      1 2 3 4).trace).length ≠ 1 ∧
    tableReads (vkEnumerateDeviceLayerProperties (fun _ _ _ => VK_SUCCESS) 1 2 3).trace = [] ∧
    slotCalls (vkEnumerateDeviceLayerProperties (fun _ _ _ => VK_SUCCESS) 1 2 3).trace = [] ∧
    (slotCalls (vkEnumerateDeviceLayerProperties (fun _ _ _ => VK_SUCCESS)
      1 2 3).trace).length ≠ 1 := by
  decide

/-- C11, amended: every forwarding trampoline `vkX` of `trampoline.c` (126 of its
135 functions), run on its arguments `vals`, reads the table embedded in its
first argument (with the instance-level getter exactly for instance and
physical-device handles), calls the slot `X` of that table once with `vals`
unchanged and in order, takes no other step, and returns the slot's result
unchanged when it returns a value.  The four trampolines the claim names,
embedded directly, do the same and are the table's entries of their names.
`vkEnumeratePhysicalDevices` does the same under the mutex, and
`vkGetDeviceQueue` and `vkAllocateCommandBuffers` read the device's table, call
the slot of their name once and hand back what it returned.
`vkEnumerateDeviceExtensionProperties` and `vkEnumerateDeviceLayerProperties`
read no table and call no slot: under the mutex they call
`loader_EnumerateDeviceExtensionProperties` and
`loader_EnumerateDeviceLayerProperties` with their own arguments and return the
result unchanged. -/
theorem hot_path_trampolines_forward_verbatim
    (f : Forwarder) (hf : f ∈ hotPathTrampolines)
    (slotResult : Ptr → Slot → List Nat → VkResult) (mem : Memory) (vals : List Nat)
    (hlen : vals.length = f.params.length) :
    ((f.run slotResult mem vals).trace =
        [f.getter.event (vals.headD 0),
         Event.call_slot (mem (vals.headD 0)) f.name vals] ∧
      (f.run slotResult mem vals).result =
        (if f.isVoid then none else some (slotResult (mem (vals.headD 0)) f.name vals)) ∧
      (f.getter = Getter.loader_get_instance_dispatch ↔
        (f.handle = HandleType.VkInstance ∨ f.handle = HandleType.VkPhysicalDevice))) ∧
    hotPathTrampolines.length = 126 ∧
    (∀ queue submitCount pSubmits fence : Nat,
      vkQueueSubmit slotResult mem queue submitCount pSubmits fence =
        { result := some (slotResult (mem queue) Slot.QueueSubmit
            [queue, submitCount, pSubmits, fence]),
          trace := [Event.get_dispatch queue,
            Event.call_slot (mem queue) Slot.QueueSubmit
              [queue, submitCount, pSubmits, fence]] }) ∧
    (∀ device memory offset size flags ppData : Nat,
      vkMapMemory slotResult mem device memory offset size flags ppData =
        { result := some (slotResult (mem device) Slot.MapMemory
            [device, memory, offset, size, flags, ppData]),
          trace := [Event.get_dispatch device,
            Event.call_slot (mem device) Slot.MapMemory
              [device, memory, offset, size, flags, ppData]] }) ∧
    (∀ commandBuffer vertexCount instanceCount firstVertex firstInstance : Nat,
      vkCmdDraw mem commandBuffer vertexCount instanceCount firstVertex firstInstance =
        { result := none,
          trace := [Event.get_dispatch commandBuffer,
            Event.call_slot (mem commandBuffer) Slot.CmdDraw
              [commandBuffer, vertexCount, instanceCount, firstVertex, firstInstance]] }) ∧
    (∀ gpu pFeatures : Nat,
      vkGetPhysicalDeviceFeatures mem gpu pFeatures =
        { result := none,
          trace := [Event.get_instance_dispatch gpu,
            Event.call_slot (mem gpu) Slot.GetPhysicalDeviceFeatures [gpu, pFeatures]] }) ∧
    (∃ g ∈ hotPathTrampolines, g.name = Slot.QueueSubmit ∧
      ∀ queue submitCount pSubmits fence : Nat,
        g.run slotResult mem [queue, submitCount, pSubmits, fence] =
          vkQueueSubmit slotResult mem queue submitCount pSubmits fence) ∧
    (∃ g ∈ hotPathTrampolines, g.name = Slot.MapMemory ∧
      ∀ device memory offset size flags ppData : Nat,
        g.run slotResult mem [device, memory, offset, size, flags, ppData] =
          vkMapMemory slotResult mem device memory offset size flags ppData) ∧
    (∃ g ∈ hotPathTrampolines, g.name = Slot.CmdDraw ∧
      ∀ commandBuffer vertexCount instanceCount firstVertex firstInstance : Nat,
        g.run slotResult mem
            [commandBuffer, vertexCount, instanceCount, firstVertex, firstInstance] =
          vkCmdDraw mem commandBuffer vertexCount instanceCount firstVertex firstInstance) ∧
    (∃ g ∈ hotPathTrampolines, g.name = Slot.GetPhysicalDeviceFeatures ∧
      ∀ gpu pFeatures : Nat,
        g.run slotResult mem [gpu, pFeatures] =
          vkGetPhysicalDeviceFeatures mem gpu pFeatures) ∧
    (∀ inst pPhysicalDeviceCount pPhysicalDevices : Nat,
      vkEnumeratePhysicalDevices slotResult mem inst pPhysicalDeviceCount pPhysicalDevices =
        { result := slotResult (mem inst) Slot.EnumeratePhysicalDevices
            [inst, pPhysicalDeviceCount, pPhysicalDevices],
          trace := [Event.get_instance_dispatch inst, Event.lock_mutex,
            Event.call_slot (mem inst) Slot.EnumeratePhysicalDevices
              [inst, pPhysicalDeviceCount, pPhysicalDevices],
            Event.unlock_mutex] }) ∧
    (∀ (tables : Ptr → VkLayerDispatchTable) (device queueNodeIndex queueIndex pQueue : Nat),
      tableReads (vkGetDeviceQueue_trace tables mem device queueNodeIndex queueIndex
        pQueue) = [device] ∧
      slotCalls (vkGetDeviceQueue_trace tables mem device queueNodeIndex queueIndex
        pQueue) = [(mem device, Slot.GetDeviceQueue,
          [device, queueNodeIndex, queueIndex, pQueue])] ∧
      (vkGetDeviceQueue tables mem device queueNodeIndex queueIndex pQueue).2 =
        ((tables (mem device)).GetDeviceQueue mem device queueNodeIndex queueIndex
          pQueue).2) ∧
    (∀ (tables : Ptr → VkLayerDispatchTable) (device : Nat)
      (pAllocateInfo : VkCommandBufferAllocateInfo) (pCommandBuffers : Nat → Ptr),
      tableReads (vkAllocateCommandBuffers_trace tables mem device pAllocateInfo
        pCommandBuffers) = [device] ∧
      slotCalls (vkAllocateCommandBuffers_trace tables mem device pAllocateInfo
        pCommandBuffers) = [(mem device, Slot.AllocateCommandBuffers,
          [device, pAllocateInfo.bufferCount])] ∧
      (vkAllocateCommandBuffers tables mem device pAllocateInfo pCommandBuffers).result =
        ((tables (mem device)).AllocateCommandBuffers mem device pAllocateInfo
          pCommandBuffers).1 ∧
      (vkAllocateCommandBuffers tables mem device pAllocateInfo
        pCommandBuffers).pCommandBuffers =
        ((tables (mem device)).AllocateCommandBuffers mem device pAllocateInfo
          pCommandBuffers).2.2) ∧
    (∀ (Enumerate : Nat → Nat → Nat → Nat → VkResult)
      (physicalDevice pLayerName pPropertyCount pProperties : Nat),
      vkEnumerateDeviceExtensionProperties Enumerate physicalDevice pLayerName
          pPropertyCount pProperties =
        { result := Enumerate physicalDevice pLayerName pPropertyCount pProperties,
          trace := [Event.lock_mutex,
            Event.loader_EnumerateDeviceExtensionProperties physicalDevice
              (Enumerate physicalDevice pLayerName pPropertyCount pProperties),
            Event.unlock_mutex] } ∧
      tableReads (vkEnumerateDeviceExtensionProperties Enumerate physicalDevice pLayerName
        pPropertyCount pProperties).trace = [] ∧
      slotCalls (vkEnumerateDeviceExtensionProperties Enumerate physicalDevice pLayerName
        pPropertyCount pProperties).trace = []) ∧
    (∀ (Enumerate : Nat → Nat → Nat → VkResult)
      (physicalDevice pPropertyCount pProperties : Nat),
      vkEnumerateDeviceLayerProperties Enumerate physicalDevice pPropertyCount pProperties =
        { result := Enumerate physicalDevice pPropertyCount pProperties,
          trace := [Event.lock_mutex,
            Event.loader_EnumerateDeviceLayerProperties physicalDevice
              (Enumerate physicalDevice pPropertyCount pProperties),
            Event.unlock_mutex] } ∧
      tableReads (vkEnumerateDeviceLayerProperties Enumerate physicalDevice pPropertyCount
        pProperties).trace = [] ∧
      slotCalls (vkEnumerateDeviceLayerProperties Enumerate physicalDevice pPropertyCount
        pProperties).trace = []) := by
  refine ⟨Forwarder.run_of_verbatim f (hotPathTrampolines_verbatim f hf) slotResult mem vals
    hlen, hotPathTrampolines_length, fun _ _ _ _ => rfl, fun _ _ _ _ _ _ => rfl, fun _ _ _ _ _ => rfl,
    fun _ _ => rfl, ?_, ?_, ?_, ?_, fun _ _ _ => rfl, ?_, ?_,
    fun _ _ _ _ _ => ⟨rfl, rfl, rfl⟩, fun _ _ _ _ => ⟨rfl, rfl, rfl⟩⟩
  · refine ⟨
      { name := Slot.QueueSubmit,
        handle := HandleType.VkQueue,
        getter := Getter.loader_get_dispatch,
        getterArg := "queue",
        slot := Slot.QueueSubmit,
        params := ["queue", "submitCount", "pSubmits", "fence"],
        args := ["queue", "submitCount", "pSubmits", "fence"],
        returnsCall := true,
        isVoid := false },
      ?_, rfl, ?_⟩
    · simp [hotPathTrampolines, queueForwarders]
    · intro queue submitCount pSubmits fence
      simp [Forwarder.run, vkQueueSubmit, valueOf, Getter.read, Getter.event]
  · refine ⟨
      { name := Slot.MapMemory,
        handle := HandleType.VkDevice,
        getter := Getter.loader_get_dispatch,
        getterArg := "device",
        slot := Slot.MapMemory,
        params := ["device", "mem", "offset", "size", "flags", "ppData"],
        args := ["device", "mem", "offset", "size", "flags", "ppData"],
        returnsCall := true,
        isVoid := false },
      ?_, rfl, ?_⟩
    · simp [hotPathTrampolines, deviceForwarders1]
    · intro device memory offset size flags ppData
      simp [Forwarder.run, vkMapMemory, valueOf, Getter.read, Getter.event]
  · refine ⟨
      { name := Slot.CmdDraw,
        handle := HandleType.VkCommandBuffer,
        getter := Getter.loader_get_dispatch,
        getterArg := "commandBuffer",
        slot := Slot.CmdDraw,
        params := ["commandBuffer", "vertexCount", "instanceCount", "firstVertex", "firstInstance"],
        args := ["commandBuffer", "vertexCount", "instanceCount", "firstVertex", "firstInstance"],
        returnsCall := false,
        isVoid := true },
      ?_, rfl, ?_⟩
    · simp [hotPathTrampolines, commandBufferForwarders1]
    · intro commandBuffer vertexCount instanceCount firstVertex firstInstance
      simp [Forwarder.run, vkCmdDraw, valueOf, Getter.read, Getter.event]
  · refine ⟨
      { name := Slot.GetPhysicalDeviceFeatures,
        handle := HandleType.VkPhysicalDevice,
        getter := Getter.loader_get_instance_dispatch,
        getterArg := "gpu",
        slot := Slot.GetPhysicalDeviceFeatures,
        params := ["gpu", "pFeatures"],
        args := ["gpu", "pFeatures"],
        returnsCall := false,
        isVoid := true },
      ?_, rfl, ?_⟩
    · simp [hotPathTrampolines, physicalDeviceForwarders]
    · intro gpu pFeatures
      simp [Forwarder.run, vkGetPhysicalDeviceFeatures, valueOf, Getter.read, Getter.event]
  · intro tables device queueNodeIndex queueIndex pQueue
    refine ⟨rfl, rfl, ?_⟩
    simp [vkGetDeviceQueue, loader_get_dispatch]
  · intro tables device pAllocateInfo pCommandBuffers
    refine ⟨?_, ?_, ?_, ?_⟩
    · simp only [vkAllocateCommandBuffers_trace]
      split <;> simp [tableReads, tableReads_stampCommandBuffers_trace]
    · simp only [vkAllocateCommandBuffers_trace]
      split <;> simp [slotCalls, slotCalls_stampCommandBuffers_trace, loader_get_dispatch]
    · simp only [vkAllocateCommandBuffers, loader_get_dispatch]
      split <;> rfl
    · simp only [vkAllocateCommandBuffers, loader_get_dispatch]
      split <;> rfl

/-- A witness of C11: `vkQueueSubmit` on the queue `1`, whose embedded table is
`5`, calls the slot `QueueSubmit` of table `5` with its four arguments and
returns the failure the slot returned. -/
theorem hot_path_trampolines_forward_verbatim_witness :
    queueSubmitForwarder ∈ hotPathTrampolines ∧
    [1, 2, 3, 4].length = queueSubmitForwarder.params.length ∧
    (queueSubmitForwarder.run sampleSlotResult sampleMemory [1, 2, 3, 4]).trace =
      [Event.get_dispatch 1, Event.call_slot 5 Slot.QueueSubmit [1, 2, 3, 4]] ∧
    (queueSubmitForwarder.run sampleSlotResult sampleMemory [1, 2, 3, 4]).result =
      some VK_ERROR_OUT_OF_HOST_MEMORY :=
  have hmem : queueSubmitForwarder ∈ hotPathTrampolines := by
    simp [hotPathTrampolines, queueForwarders, queueSubmitForwarder]
  have h := hot_path_trampolines_forward_verbatim queueSubmitForwarder hmem sampleSlotResult
    sampleMemory [1, 2, 3, 4] rfl
  ⟨hmem, rfl, h.1.1, h.1.2.1⟩

/-! ### The mutex -/

theorem lockCount_append (s t : List Event) :
    lockCount (s ++ t) = lockCount s + lockCount t := by
  simp [lockCount]

theorem unlockCount_append (s t : List Event) :
    unlockCount (s ++ t) = unlockCount s + unlockCount t := by
  simp [unlockCount]

theorem lockCount_prologue (c : Collaborators) : lockCount (prologue c) = 1 := by
  cases hp : c.pAllocator <;> by_cases hc : c.enabledLayerNameCount > 0 <;>
    simp [prologue, lockCount, hp, hc]

theorem unlockCount_prologue (c : Collaborators) : unlockCount (prologue c) = 0 := by
  cases hp : c.pAllocator <;> by_cases hc : c.enabledLayerNameCount > 0 <;>
    simp [prologue, unlockCount, hp, hc]

theorem mutexDiscipline_prologue (c : Collaborators) (rest : List Event) :
    mutexDiscipline false (prologue c ++ rest) = mutexDiscipline true rest := by
  cases hp : c.pAllocator <;> by_cases hc : c.enabledLayerNameCount > 0 <;>
    simp [prologue, mutexDiscipline, hp, hc]

theorem vkCreateInstance_alloc_null (c : Collaborators) (loader : LoaderState)
    (pInstance : Ptr) (ha : c.alloc_instance = NULL) :
    vkCreateInstance c loader pInstance =
      { result := VK_ERROR_OUT_OF_HOST_MEMORY, pInstance := pInstance, loader := loader,
        trace := [Event.thread_once, Event.alloc_instance c.pAllocator NULL] } := by
  simp [vkCreateInstance, ha]

theorem vkCreateInstance_layer_failure (c : Collaborators) (loader : LoaderState)
    (pInstance : Ptr) (ha : c.alloc_instance ≠ NULL)
    (hl : ¬ (c.enabledLayerNameCount = 0 ∨ c.validate_layers = VK_SUCCESS)) :
    vkCreateInstance c loader pInstance =
      { result := c.validate_layers, pInstance := pInstance, loader := loader,
        trace := prologue c ++ [Event.unlock_mutex] } := by
  have h1 : c.enabledLayerNameCount > 0 := by
    rcases Nat.eq_zero_or_pos c.enabledLayerNameCount with h | h
    · exact absurd (Or.inl h) hl
    · exact h
  have h2 : c.validate_layers ≠ VK_SUCCESS := fun h => hl (Or.inr h)
  cases hp : c.pAllocator <;> simp [vkCreateInstance, prologue, ha, h1, h2, hp]

theorem vkCreateInstance_mutex (c : Collaborators) (loader : LoaderState) (pInstance : Ptr) :
    lockCount (vkCreateInstance c loader pInstance).trace ≤ 1 ∧
    unlockCount (vkCreateInstance c loader pInstance).trace =
      lockCount (vkCreateInstance c loader pInstance).trace ∧
    mutexDiscipline false (vkCreateInstance c loader pInstance).trace = true := by
  by_cases ha : c.alloc_instance = NULL
  · rw [vkCreateInstance_alloc_null c loader pInstance ha]
    simp [lockCount, unlockCount, mutexDiscipline]
  · by_cases hl : c.enabledLayerNameCount = 0 ∨ c.validate_layers = VK_SUCCESS
    · rw [vkCreateInstance_eq_fromIcdScan c loader pInstance ha hl]
      by_cases he : c.validate_instance_extensions = VK_SUCCESS
      · by_cases hd : c.alloc_disp = NULL
        · rw [fromIcdScan_alloc_failure c loader pInstance _ _ he hd]
          simp only [lockCount_append, unlockCount_append, lockCount_prologue,
            unlockCount_prologue, mutexDiscipline_prologue]
          simp [lockCount, unlockCount, mutexDiscipline, releaseLists]
        · by_cases hn : c.enable_instance_layers = VK_SUCCESS
          · rw [fromIcdScan_no_failure c loader pInstance _ _ he hd hn]
            simp only [lockCount_append, unlockCount_append, lockCount_prologue,
              unlockCount_prologue, mutexDiscipline_prologue]
            simp [lockCount, unlockCount, mutexDiscipline]
          · rw [fromIcdScan_enable_failure c loader pInstance _ _ he hd hn]
            simp only [lockCount_append, unlockCount_append, lockCount_prologue,
              unlockCount_prologue, mutexDiscipline_prologue]
            simp [lockCount, unlockCount, mutexDiscipline, releaseLists]
      · rw [fromIcdScan_extension_failure c loader pInstance _ _ he]
        simp only [lockCount_append, unlockCount_append, lockCount_prologue,
          unlockCount_prologue, mutexDiscipline_prologue]
        simp [lockCount, unlockCount, mutexDiscipline, releaseLists]
    · rw [vkCreateInstance_layer_failure c loader pInstance ha hl]
      simp only [lockCount_append, unlockCount_append, lockCount_prologue,
        unlockCount_prologue, mutexDiscipline_prologue]
      simp [lockCount, unlockCount, mutexDiscipline]

theorem lock_not_mem_stampCommandBuffers_trace (disp : Ptr) (bufs : Nat → Ptr) :
    ∀ (k i : Nat), Event.lock_mutex ∉ stampCommandBuffers_trace disp bufs k i := by
  intro k
  induction k with
  | zero => intro i; simp [stampCommandBuffers_trace]
  | succ k ih =>
    intro i
    by_cases hb : bufs i ≠ NULL
    · simp [stampCommandBuffers_trace, hb, ih (i + 1)]
    · simp [stampCommandBuffers_trace, hb, ih (i + 1)]

/-- C12, refuted as stated: `vkEnumeratePhysicalDevices`,
`vkEnumerateDeviceExtensionProperties` and `vkEnumerateDeviceLayerProperties`,
which operate on an already-created handle and neither create nor destroy an
instance or a device, each acquire the mutex. -/
theorem enumerate_trampolines_acquire_mutex :
    Event.lock_mutex ∈ (vkEnumeratePhysicalDevices sampleSlotResult sampleMemory 1 2 3).trace ∧
    Event.lock_mutex ∈
      (vkEnumerateDeviceExtensionProperties (fun _ _ _ _ => VK_SUCCESS) 1 2 3 4).trace ∧
    Event.lock_mutex ∈
      (vkEnumerateDeviceLayerProperties (fun _ _ _ => VK_SUCCESS) 1 2 3).trace := by
  decide

/-- C12, amended: every forwarding trampoline (all queue and command-buffer
calls among them), `vkGetDeviceQueue` and `vkAllocateCommandBuffers` never
acquire the mutex, whereas `vkEnumeratePhysicalDevices`,
`vkEnumerateDeviceExtensionProperties` and `vkEnumerateDeviceLayerProperties`
acquire it exactly once, around their one call. -/
theorem only_enumerate_trampolines_acquire_mutex
    (f : Forwarder) (_hf : f ∈ hotPathTrampolines)
    (slotResult : Ptr → Slot → List Nat → VkResult) (mem : Memory) (vals : List Nat) :
    Event.lock_mutex ∉ (f.run slotResult mem vals).trace ∧
    (∀ (tables : Ptr → VkLayerDispatchTable) (device queueNodeIndex queueIndex pQueue : Nat),
      Event.lock_mutex ∉
        vkGetDeviceQueue_trace tables mem device queueNodeIndex queueIndex pQueue) ∧
    (∀ (tables : Ptr → VkLayerDispatchTable) (device : Nat)
      (pAllocateInfo : VkCommandBufferAllocateInfo) (pCommandBuffers : Nat → Ptr),
      Event.lock_mutex ∉
        vkAllocateCommandBuffers_trace tables mem device pAllocateInfo pCommandBuffers) ∧
    (∀ inst pPhysicalDeviceCount pPhysicalDevices : Nat,
      (vkEnumeratePhysicalDevices slotResult mem inst pPhysicalDeviceCount
        pPhysicalDevices).trace =
        [Event.get_instance_dispatch inst, Event.lock_mutex,
         Event.call_slot (mem inst) Slot.EnumeratePhysicalDevices
           [inst, pPhysicalDeviceCount, pPhysicalDevices],
         Event.unlock_mutex]) ∧
    (∀ (Enumerate : Nat → Nat → Nat → Nat → VkResult)
      (physicalDevice pLayerName pPropertyCount pProperties : Nat),
      (vkEnumerateDeviceExtensionProperties Enumerate physicalDevice pLayerName
        pPropertyCount pProperties).trace =
        [Event.lock_mutex,
         Event.loader_EnumerateDeviceExtensionProperties physicalDevice
           (Enumerate physicalDevice pLayerName pPropertyCount pProperties),
         Event.unlock_mutex]) ∧
    (∀ (Enumerate : Nat → Nat → Nat → VkResult)
      (physicalDevice pPropertyCount pProperties : Nat),
      (vkEnumerateDeviceLayerProperties Enumerate physicalDevice pPropertyCount
        pProperties).trace =
        [Event.lock_mutex,
         Event.loader_EnumerateDeviceLayerProperties physicalDevice
           (Enumerate physicalDevice pPropertyCount pProperties),
         Event.unlock_mutex]) := by
  refine ⟨?_, ?_, ?_, fun _ _ _ => rfl, fun _ _ _ _ _ => rfl, fun _ _ _ _ => rfl⟩
  · cases hg : f.getter <;> simp [Forwarder.run, Getter.event, hg]
  · intro tables device queueNodeIndex queueIndex pQueue
    simp [vkGetDeviceQueue_trace]
  · intro tables device pAllocateInfo pCommandBuffers
    simp only [vkAllocateCommandBuffers_trace]
    split
    · simp [lock_not_mem_stampCommandBuffers_trace]
    · simp

/-- A witness of amended C12: `vkQueueSubmit` takes two steps, neither of them
on the mutex. -/
theorem only_enumerate_trampolines_acquire_mutex_witness :
    queueSubmitForwarder ∈ hotPathTrampolines ∧
    Event.lock_mutex ∉
      (queueSubmitForwarder.run sampleSlotResult sampleMemory [1, 2, 3, 4]).trace :=
  have hmem : queueSubmitForwarder ∈ hotPathTrampolines := by
    simp [hotPathTrampolines, queueForwarders, queueSubmitForwarder]
  ⟨hmem, (only_enumerate_trampolines_acquire_mutex queueSubmitForwarder hmem
    sampleSlotResult sampleMemory [1, 2, 3, 4]).1⟩

theorem vkDestroyInstance_some
    (DestroyInstance : Ptr → LoaderState → Nat → Nat → LoaderState)
    (loader : LoaderState) (mem : Memory) (inst pAllocator : Nat)
    (out : DestroyInstanceOutcome)
    (h : vkDestroyInstance DestroyInstance loader mem inst pAllocator = some out) :
    out.trace =
      [Event.get_instance_dispatch inst, Event.lock_mutex,
       Event.get_instance inst (loader_get_instance loader inst),
       Event.call_slot (mem inst) Slot.DestroyInstance [inst, pAllocator],
       Event.deactivate_instance_layers (loader_get_instance loader inst),
       Event.heap_free_disp (mem (loader_get_instance loader inst)),
       Event.heap_free_instance (loader_get_instance loader inst),
       Event.unlock_mutex] := by
  simp only [vkDestroyInstance] at h
  split at h
  · simp at h
  · split at h
    · simp at h
    · simp only [Option.some.injEq] at h
      subst h
      simp [loader_get_instance_dispatch]

theorem vkDestroyDevice_some (icdOf this_instance : Ptr → Ptr)
    (remove_logical_device : (Ptr → List Ptr) → Ptr → Ptr → Ptr → List Ptr)
    (mem : Memory) (devices : Ptr → List Ptr) (device pAllocator : Nat)
    (out : DestroyDeviceOutcome)
    (h : vkDestroyDevice icdOf this_instance remove_logical_device mem devices device
      pAllocator = some out) :
    out.trace =
      [Event.get_icd_and_device device (icdOf device), Event.get_dispatch device,
       Event.lock_mutex,
       Event.call_slot (mem device) Slot.DestroyDevice [device, pAllocator],
       Event.remove_logical_device (this_instance (icdOf device)) device,
       Event.unlock_mutex] := by
  simp only [vkDestroyDevice] at h
  split at h
  · simp at h
  · split at h
    · simp at h
    · simp only [Option.some.injEq] at h
      subst h
      simp [loader_get_dispatch]

/-- C13: each of the seven trampolines that take the mutex acquires it at most
once and releases it as often as it acquired it, never releases it without
holding it and does not hold it on return, whatever its collaborators return.
For `vkDestroyInstance` and `vkDestroyDevice` this is said of every call that
returns. -/
theorem mutex_trampolines_balance_mutex :
    (∀ (c : Collaborators) (loader : LoaderState) (pInstance : Ptr),
      mutexBalanced (vkCreateInstance c loader pInstance).trace) ∧
    (∀ (DestroyInstance : Ptr → LoaderState → Nat → Nat → LoaderState)
      (loader : LoaderState) (mem : Memory) (inst pAllocator : Nat)
      (out : DestroyInstanceOutcome),
      vkDestroyInstance DestroyInstance loader mem inst pAllocator = some out →
        mutexBalanced out.trace) ∧
    (∀ (slotResult : Ptr → Slot → List Nat → VkResult) (mem : Memory)
      (inst pPhysicalDeviceCount pPhysicalDevices : Nat),
      mutexBalanced (vkEnumeratePhysicalDevices slotResult mem inst pPhysicalDeviceCount
        pPhysicalDevices).trace) ∧
    (∀ (CreateDevice : Nat → Nat → Nat → Nat → VkResult)
      (gpu pCreateInfo pAllocator pDevice : Nat),
      mutexBalanced (vkCreateDevice CreateDevice gpu pCreateInfo pAllocator pDevice).trace) ∧
    (∀ (icdOf this_instance : Ptr → Ptr)
      (remove_logical_device : (Ptr → List Ptr) → Ptr → Ptr → Ptr → List Ptr)
      (mem : Memory) (devices : Ptr → List Ptr)
      (device pAllocator : Nat) (out : DestroyDeviceOutcome),
      vkDestroyDevice icdOf this_instance remove_logical_device mem devices device
          pAllocator = some out →
        mutexBalanced out.trace) ∧
    (∀ (Enumerate : Nat → Nat → Nat → Nat → VkResult)
      (physicalDevice pLayerName pPropertyCount pProperties : Nat),
      mutexBalanced (vkEnumerateDeviceExtensionProperties Enumerate physicalDevice
        pLayerName pPropertyCount pProperties).trace) ∧
    (∀ (Enumerate : Nat → Nat → Nat → VkResult)
      (physicalDevice pPropertyCount pProperties : Nat),
      mutexBalanced (vkEnumerateDeviceLayerProperties Enumerate physicalDevice
        pPropertyCount pProperties).trace) := by
  refine ⟨fun c loader pInstance => vkCreateInstance_mutex c loader pInstance, ?_, ?_, ?_,
    ?_, ?_, ?_⟩
  · intro DestroyInstance loader mem inst pAllocator out h
    rw [vkDestroyInstance_some DestroyInstance loader mem inst pAllocator out h]
    simp [mutexBalanced, lockCount, unlockCount, mutexDiscipline]
  · intro slotResult mem inst a b
    simp [mutexBalanced, vkEnumeratePhysicalDevices, lockCount, unlockCount, mutexDiscipline]
  · intro CreateDevice gpu a b d
    simp [mutexBalanced, vkCreateDevice, lockCount, unlockCount, mutexDiscipline]
  · intro icdOf this_instance remove_logical_device mem devices device pAllocator out h
    rw [vkDestroyDevice_some icdOf this_instance remove_logical_device mem devices device
      pAllocator out h]
    simp [mutexBalanced, lockCount, unlockCount, mutexDiscipline]
  · intro Enumerate a b d e
    simp [mutexBalanced, vkEnumerateDeviceExtensionProperties, lockCount, unlockCount,
      mutexDiscipline]
  · intro Enumerate a b d
    simp [mutexBalanced, vkEnumerateDeviceLayerProperties, lockCount, unlockCount,
      mutexDiscipline]

/-- A witness of C13: destroying the registered instance `100`, whose embedded
table pointer is `6`, and the device `40`, whose embedded table pointer is `5`,
returns, with the mutex acquired and released once. -/
theorem mutex_trampolines_balance_mutex_witness :
    liveMemory 100 ≠ NULL ∧ liveMemory 40 ≠ NULL ∧
    (∃ out, vkDestroyInstance chain_DestroyInstance sampleRegistry liveMemory 100 0 =
        some out ∧
      mutexBalanced out.trace ∧ lockCount out.trace = 1) ∧
    (∃ out, vkDestroyDevice sampleIcdOf sampleThisInstance loader_remove_logical_device
        liveMemory sampleDevices 40 0 =
        some out ∧ mutexBalanced out.trace ∧ lockCount out.trace = 1) :=
  ⟨by decide, by decide,
    ⟨_, rfl, mutex_trampolines_balance_mutex.2.1 chain_DestroyInstance sampleRegistry
      liveMemory 100 0 _ rfl, by decide⟩,
    ⟨_, rfl, mutex_trampolines_balance_mutex.2.2.2.2.1 sampleIcdOf sampleThisInstance
      loader_remove_logical_device liveMemory sampleDevices 40 0 _ rfl, by decide⟩⟩

/-! ### The registry -/

theorem accessesUnderLock_prologue (c : Collaborators) (rest : List Event) :
    accessesUnderLock false (prologue c ++ rest) = accessesUnderLock true rest := by
  cases hp : c.pAllocator <;> by_cases hc : c.enabledLayerNameCount > 0 <;>
    simp [prologue, accessesUnderLock, Event.accessesRegistry, hp, hc]

theorem vkCreateInstance_accessesUnderLock (c : Collaborators) (loader : LoaderState)
    (pInstance : Ptr) :
    accessesUnderLock false (vkCreateInstance c loader pInstance).trace = true := by
  by_cases ha : c.alloc_instance = NULL
  · rw [vkCreateInstance_alloc_null c loader pInstance ha]
    simp [accessesUnderLock, Event.accessesRegistry]
  · by_cases hl : c.enabledLayerNameCount = 0 ∨ c.validate_layers = VK_SUCCESS
    · rw [vkCreateInstance_eq_fromIcdScan c loader pInstance ha hl]
      by_cases he : c.validate_instance_extensions = VK_SUCCESS
      · by_cases hd : c.alloc_disp = NULL
        · rw [fromIcdScan_alloc_failure c loader pInstance _ _ he hd]
          simp [accessesUnderLock_prologue, accessesUnderLock, Event.accessesRegistry,
            releaseLists]
        · by_cases hn : c.enable_instance_layers = VK_SUCCESS
          · rw [fromIcdScan_no_failure c loader pInstance _ _ he hd hn]
            simp [accessesUnderLock_prologue, accessesUnderLock, Event.accessesRegistry]
          · rw [fromIcdScan_enable_failure c loader pInstance _ _ he hd hn]
            simp [accessesUnderLock_prologue, accessesUnderLock, Event.accessesRegistry,
              releaseLists]
      · rw [fromIcdScan_extension_failure c loader pInstance _ _ he]
        simp [accessesUnderLock_prologue, accessesUnderLock, Event.accessesRegistry,
          releaseLists]
    · rw [vkCreateInstance_layer_failure c loader pInstance ha hl]
      simp [accessesUnderLock_prologue, accessesUnderLock, Event.accessesRegistry]

/-- C14: at the failing input (`vkDestroyDevice` on the device `40`, whose
embedded table pointer is `5`, found under the ICD `30` of the instance `100`)
the lookup `loader_get_icd_and_device` is the first step of the call and the
mutex is acquired only two steps later, so a registry access happens without
the mutex; `vkCreateInstance` on every input, and `vkDestroyInstance` and
`vkCreateDevice` on sample inputs, access the registry only under the mutex. -/
theorem vkDestroyDevice_looks_up_before_lock :
    (vkDestroyDevice sampleIcdOf sampleThisInstance loader_remove_logical_device liveMemory
        sampleDevices 40 0).map (fun out => out.trace) =
      some [Event.get_icd_and_device 40 30, Event.get_dispatch 40, Event.lock_mutex,
            Event.call_slot 5 Slot.DestroyDevice [40, 0],
            Event.remove_logical_device 100 40, Event.unlock_mutex] ∧
    (vkDestroyDevice sampleIcdOf sampleThisInstance loader_remove_logical_device liveMemory
        sampleDevices 40 0).map (fun out => eventsBefore Event.lock_mutex out.trace) =
      some [Event.get_icd_and_device 40 30, Event.get_dispatch 40] ∧
    (Event.get_icd_and_device 40 30).accessesRegistry = true ∧
    (vkDestroyDevice sampleIcdOf sampleThisInstance loader_remove_logical_device liveMemory
        sampleDevices 40 0).map (fun out => accessesUnderLock false out.trace) = some false ∧
    (vkDestroyInstance chain_DestroyInstance sampleRegistry liveMemory 100 0).map
        (fun out => accessesUnderLock false out.trace) = some true ∧
    accessesUnderLock false (vkCreateDevice (fun _ _ _ _ => VK_SUCCESS) 1 2 3 4).trace = true ∧
    (∀ (c : Collaborators) (loader : LoaderState) (pInstance : Ptr),
      accessesUnderLock false (vkCreateInstance c loader pInstance).trace = true) := by
  refine ⟨by decide, by decide, by decide, by decide, by decide, by decide,
    vkCreateInstance_accessesUnderLock⟩

theorem eventsBefore_append_of_mem (x : Event) (s t : List Event) (h : x ∈ s) :
    eventsBefore x (s ++ t) = eventsBefore x s := by
  induction s with
  | nil => simp at h
  | cons e s ih =>
    by_cases he : e = x
    · simp [eventsBefore, he]
    · have hs : x ∈ s := by
        rcases List.mem_cons.mp h with h1 | h1
        · exact absurd h1.symm he
        · exact h1
      simp [eventsBefore, he, ih hs]

theorem vkCreateInstance_trace_prologue (c : Collaborators) (loader : LoaderState)
    (pInstance : Ptr) (ha : c.alloc_instance ≠ NULL) :
    ∃ tail, (vkCreateInstance c loader pInstance).trace = prologue c ++ tail := by
  by_cases hl : c.enabledLayerNameCount = 0 ∨ c.validate_layers = VK_SUCCESS
  · rw [vkCreateInstance_eq_fromIcdScan c loader pInstance ha hl]
    by_cases he : c.validate_instance_extensions = VK_SUCCESS
    · by_cases hd : c.alloc_disp = NULL
      · rw [fromIcdScan_alloc_failure c loader pInstance _ _ he hd]
        exact ⟨_, rfl⟩
      · by_cases hn : c.enable_instance_layers = VK_SUCCESS
        · rw [fromIcdScan_no_failure c loader pInstance _ _ he hd hn]
          exact ⟨_, rfl⟩
        · rw [fromIcdScan_enable_failure c loader pInstance _ _ he hd hn]
          exact ⟨_, rfl⟩
    · rw [fromIcdScan_extension_failure c loader pInstance _ _ he]
      exact ⟨_, rfl⟩
  · rw [vkCreateInstance_layer_failure c loader pInstance ha hl]
    exact ⟨_, rfl⟩

theorem eventsAfter_validate_layers_prologue (c : Collaborators) (tail : List Event)
    (hcount : c.enabledLayerNameCount > 0) :
    eventsAfter (Event.validate_layers c.validate_layers) (prologue c ++ tail) = tail := by
  cases hp : c.pAllocator <;> simp [prologue, hp, hcount, eventsAfter]

theorem vkCreateInstance_trace_icd_scan (c : Collaborators) (loader : LoaderState)
    (pInstance : Ptr) (ha : c.alloc_instance ≠ NULL)
    (hl : c.enabledLayerNameCount = 0 ∨ c.validate_layers = VK_SUCCESS) :
    ∃ tail, (vkCreateInstance c loader pInstance).trace =
      prologue c ++ (Event.memset_icd_libs :: Event.icd_scan ::
        Event.get_icd_loader_instance_extensions :: tail) := by
  rw [vkCreateInstance_eq_fromIcdScan c loader pInstance ha hl]
  by_cases he : c.validate_instance_extensions = VK_SUCCESS
  · by_cases hd : c.alloc_disp = NULL
    · rw [fromIcdScan_alloc_failure c loader pInstance _ _ he hd]
      exact ⟨_, rfl⟩
    · by_cases hn : c.enable_instance_layers = VK_SUCCESS
      · rw [fromIcdScan_no_failure c loader pInstance _ _ he hd hn]
        exact ⟨_, rfl⟩
      · rw [fromIcdScan_enable_failure c loader pInstance _ _ he hd hn]
        exact ⟨_, rfl⟩
  · rw [fromIcdScan_extension_failure c loader pInstance _ _ he]
    exact ⟨_, rfl⟩

/-- C15, refuted as stated: when a requested layer is missing, the instance
record and both layer lists have been created before `loader_validate_layers`
is called. -/
theorem vkCreateInstance_allocates_before_layer_validation :
    Event.validate_layers VK_ERROR_LAYER_NOT_PRESENT ∈
      (vkCreateInstance layerMissing ⟨[]⟩ 0).trace ∧
    creations (eventsBefore (Event.validate_layers VK_ERROR_LAYER_NOT_PRESENT)
        (vkCreateInstance layerMissing ⟨[]⟩ 0).trace) =
      [Resource.instance_record, Resource.instance_layer_list, Resource.device_layer_list] ∧
    creations (eventsBefore (Event.validate_layers VK_ERROR_LAYER_NOT_PRESENT)
        (vkCreateInstance layerMissing ⟨[]⟩ 0).trace) ≠ [] := by
  decide

/-- C15, amended: in every call of `vkCreateInstance` that validates layers,
what has been created before `loader_validate_layers` is called is the instance
record and the two layer lists filled by `loader_layer_scan`, and nothing else.
The ICD list, the extension list and the dispatch table are only created after
layer validation has passed: when the validation fails the call creates nothing
more, and whenever one of the three is created the validation has returned
`VK_SUCCESS` and the creation follows it; when the validation passes, the ICD
list and the extension list are created after it. -/
theorem vkCreateInstance_creations_before_layer_validation
    (c : Collaborators) (loader : LoaderState) (pInstance : Ptr)
    (halloc : c.alloc_instance ≠ NULL)
    (hcount : c.enabledLayerNameCount > 0) :
    Event.validate_layers c.validate_layers ∈ (vkCreateInstance c loader pInstance).trace ∧
    creations (eventsBefore (Event.validate_layers c.validate_layers)
        (vkCreateInstance c loader pInstance).trace) =
      [Resource.instance_record, Resource.instance_layer_list, Resource.device_layer_list] ∧
    (c.validate_layers ≠ VK_SUCCESS →
      creations (vkCreateInstance c loader pInstance).trace =
        [Resource.instance_record, Resource.instance_layer_list,
         Resource.device_layer_list]) ∧
    (∀ r, r = Resource.icd_libs ∨ r = Resource.ext_list ∨ r = Resource.disp_table →
      r ∈ creations (vkCreateInstance c loader pInstance).trace →
        c.validate_layers = VK_SUCCESS ∧
        r ∈ creations (eventsAfter (Event.validate_layers c.validate_layers)
          (vkCreateInstance c loader pInstance).trace)) ∧
    (c.validate_layers = VK_SUCCESS →
      Resource.icd_libs ∈ creations (eventsAfter (Event.validate_layers c.validate_layers)
        (vkCreateInstance c loader pInstance).trace) ∧
      Resource.ext_list ∈ creations (eventsAfter (Event.validate_layers c.validate_layers)
        (vkCreateInstance c loader pInstance).trace)) := by
  have hfail : c.validate_layers ≠ VK_SUCCESS →
      creations (vkCreateInstance c loader pInstance).trace =
        [Resource.instance_record, Resource.instance_layer_list,
         Resource.device_layer_list] := by
    intro hv
    have hl : ¬ (c.enabledLayerNameCount = 0 ∨ c.validate_layers = VK_SUCCESS) := by
      rintro (h | h)
      · omega
      · exact hv h
    rw [vkCreateInstance_layer_failure c loader pInstance halloc hl]
    simp [creations_append, creations_prologue c halloc, creations, Event.creates]
  have hmem : Event.validate_layers c.validate_layers ∈ prologue c := by
    cases hp : c.pAllocator <;> simp [prologue, hp, hcount]
  refine ⟨?_, ?_, hfail, ?_, ?_⟩
  · obtain ⟨tail, ht⟩ := vkCreateInstance_trace_prologue c loader pInstance halloc
    rw [ht]
    exact List.mem_append_left _ hmem
  · obtain ⟨tail, ht⟩ := vkCreateInstance_trace_prologue c loader pInstance halloc
    rw [ht, eventsBefore_append_of_mem _ _ _ hmem]
    cases hp : c.pAllocator <;>
      simp [prologue, hp, hcount, eventsBefore, creations, Event.creates, halloc]
  · intro r hr hin
    by_cases hv : c.validate_layers = VK_SUCCESS
    · refine ⟨hv, ?_⟩
      obtain ⟨tail, ht⟩ := vkCreateInstance_trace_prologue c loader pInstance halloc
      rw [ht, eventsAfter_validate_layers_prologue c tail hcount]
      rw [ht, creations_append, creations_prologue c halloc] at hin
      rcases List.mem_append.1 hin with h | h
      · rcases hr with rfl | rfl | rfl <;> simp at h
      · exact h
    · rw [hfail hv] at hin
      rcases hr with rfl | rfl | rfl <;> simp at hin
  · intro hv
    obtain ⟨tail, ht⟩ := vkCreateInstance_trace_icd_scan c loader pInstance halloc (Or.inr hv)
    rw [ht, eventsAfter_validate_layers_prologue c _ hcount]
    simp [creations_append, creations, Event.creates]

/-- A witness of amended C15: all steps succeed, one layer is requested; the ICD
list is created, and it is created after the validation. -/
theorem vkCreateInstance_creations_before_layer_validation_witness :
    allSucceed.alloc_instance ≠ NULL ∧
    allSucceed.enabledLayerNameCount > 0 ∧
    Event.validate_layers VK_SUCCESS ∈ (vkCreateInstance allSucceed ⟨[7]⟩ 0).trace ∧
    creations (eventsBefore (Event.validate_layers VK_SUCCESS)
        (vkCreateInstance allSucceed ⟨[7]⟩ 0).trace) =
      [Resource.instance_record, Resource.instance_layer_list, Resource.device_layer_list] ∧
    Resource.icd_libs ∈ creations (vkCreateInstance allSucceed ⟨[7]⟩ 0).trace ∧
    Resource.icd_libs ∈ creations (eventsAfter (Event.validate_layers VK_SUCCESS)
      (vkCreateInstance allSucceed ⟨[7]⟩ 0).trace) :=
  have h := vkCreateInstance_creations_before_layer_validation allSucceed ⟨[7]⟩ 0
    (by decide) (by decide)
  ⟨by decide, by decide, h.1, h.2.1, by decide, (h.2.2.2.2 rfl).1⟩

theorem vkDestroyInstance_registered
    (DestroyInstance : Ptr → LoaderState → Nat → Nat → LoaderState)
    (loader : LoaderState) (mem : Memory)
    (inst pAllocator : Nat) (hreg : inst ∈ loader.instances) (hnn : inst ≠ NULL)
    (hdisp : loader_get_instance_dispatch mem inst ≠ NULL) :
    vkDestroyInstance DestroyInstance loader mem inst pAllocator =
      some { loader := DestroyInstance (mem inst) loader inst pAllocator,
             trace := [Event.get_instance_dispatch inst, Event.lock_mutex,
                       Event.get_instance inst inst,
                       Event.call_slot (mem inst) Slot.DestroyInstance [inst, pAllocator],
                       Event.deactivate_instance_layers inst,
                       Event.heap_free_disp (mem inst),
                       Event.heap_free_instance inst,
                       Event.unlock_mutex] } := by
  have hd : mem inst ≠ NULL := hdisp
  simp [vkDestroyInstance, loader_get_instance, loader_get_instance_dispatch, hreg, hnn, hd]

theorem chain_DestroyInstance_removes (disp : Ptr) (loader : LoaderState)
    (inst pAllocator : Nat) :
    inst ∉ (chain_DestroyInstance disp loader inst pAllocator).instances := by
  simp [chain_DestroyInstance, registry_remove]

/-- C16: `vkDestroyInstance` on a registered instance handle whose table is
in place returns, and the registry it leaves is the one the chain's
`DestroyInstance` left: the trampoline itself neither unlinks the instance nor
links anything.  So when the chain's `DestroyInstance` removes the instance
from the registry, as the spec has it do, the registry on return holds no entry
for the instance and the handle no longer resolves via `loader_get_instance`. -/
theorem vkDestroyInstance_unregisters
    (DestroyInstance : Ptr → LoaderState → Nat → Nat → LoaderState)
    (loader : LoaderState) (mem : Memory) (inst pAllocator : Nat)
    (hreg : inst ∈ loader.instances) (hnn : inst ≠ NULL)
    (hdisp : loader_get_instance_dispatch mem inst ≠ NULL)
    (hchain : inst ∉ (DestroyInstance (loader_get_instance_dispatch mem inst) loader inst
      pAllocator).instances) :
    ∃ out, vkDestroyInstance DestroyInstance loader mem inst pAllocator = some out ∧
      out.loader =
        DestroyInstance (loader_get_instance_dispatch mem inst) loader inst pAllocator ∧
      slotCalls out.trace =
        [(loader_get_instance_dispatch mem inst, Slot.DestroyInstance, [inst, pAllocator])] ∧
      (∀ p, Event.link_instance p ∉ out.trace ∧ Event.unlink_instance p ∉ out.trace) ∧
      inst ∉ out.loader.instances ∧
      loader_get_instance out.loader inst = NULL := by
  refine ⟨_, vkDestroyInstance_registered DestroyInstance loader mem inst pAllocator hreg hnn
    hdisp, rfl, ?_, ?_, hchain, ?_⟩
  · simp [slotCalls, loader_get_instance_dispatch]
  · intro p
    simp
  · have h : inst ∉ (DestroyInstance (mem inst) loader inst pAllocator).instances := hchain
    simp [loader_get_instance, h]

/-- A witness of C16: the instance `100` is created while the registry holds
`[7]`, which leaves the registry `[100, 7]`; destroying it through a chain whose
`DestroyInstance` is the modelled terminal one leaves the registry `[7]`. -/
theorem vkDestroyInstance_unregisters_witness :
    (vkCreateInstance allSucceed ⟨[7]⟩ 0).pInstance = 100 ∧
    (vkCreateInstance allSucceed ⟨[7]⟩ 0).loader = ⟨[100, 7]⟩ ∧
    100 ∈ (vkCreateInstance allSucceed ⟨[7]⟩ 0).loader.instances ∧ (100 : Nat) ≠ NULL ∧
    loader_get_instance_dispatch liveMemory 100 ≠ NULL ∧
    ∃ out, vkDestroyInstance chain_DestroyInstance (vkCreateInstance allSucceed ⟨[7]⟩ 0).loader
        liveMemory 100 0 = some out ∧
      out.loader = ⟨[7]⟩ ∧
      100 ∉ out.loader.instances ∧
      loader_get_instance out.loader 100 = NULL :=
  have h := vkDestroyInstance_unregisters chain_DestroyInstance
    (vkCreateInstance allSucceed ⟨[7]⟩ 0).loader liveMemory 100 0 (by decide) (by decide)
    (by decide) (by decide)
  ⟨by decide, by decide, by decide, by decide, by decide,
    h.elim fun out ho =>
      ⟨out, ho.1, ho.2.1.trans (by decide), ho.2.2.2.2.1, ho.2.2.2.2.2⟩⟩

/-- C17: `vkDestroyInstance` on a registered instance whose table is in place
takes exactly these steps: it acquires the mutex, looks the instance up, calls
the chain head's `DestroyInstance` once, deactivates the instance's layers
once, frees the dispatch table once, frees the instance record once, and
releases the mutex.  All four teardown steps lie between the acquisition and
the release of the mutex, the two frees release two different resources, and
the only step after the instance record is freed is the release of the mutex. -/
theorem vkDestroyInstance_teardown_order
    (DestroyInstance : Ptr → LoaderState → Nat → Nat → LoaderState)
    (loader : LoaderState) (mem : Memory) (inst pAllocator : Nat)
    (hreg : inst ∈ loader.instances) (hnn : inst ≠ NULL)
    (hdisp : loader_get_instance_dispatch mem inst ≠ NULL) :
    ∃ out, vkDestroyInstance DestroyInstance loader mem inst pAllocator = some out ∧
      out.trace =
        [Event.get_instance_dispatch inst, Event.lock_mutex,
         Event.get_instance inst inst,
         Event.call_slot (mem inst) Slot.DestroyInstance [inst, pAllocator],
         Event.deactivate_instance_layers inst,
         Event.heap_free_disp (mem inst),
         Event.heap_free_instance inst,
         Event.unlock_mutex] ∧
      beforeUnlock (eventsAfter Event.lock_mutex out.trace) =
        [Event.get_instance inst inst,
         Event.call_slot (mem inst) Slot.DestroyInstance [inst, pAllocator],
         Event.deactivate_instance_layers inst,
         Event.heap_free_disp (mem inst),
         Event.heap_free_instance inst] ∧
      releases out.trace = [Resource.disp_table, Resource.instance_record] ∧
      eventsAfter (Event.heap_free_instance inst) out.trace = [Event.unlock_mutex] := by
  refine ⟨_, vkDestroyInstance_registered DestroyInstance loader mem inst pAllocator hreg hnn
    hdisp, rfl, ?_, ?_, ?_⟩
  · simp [eventsAfter, beforeUnlock]
  · simp [releases, Event.releases]
  · simp [eventsAfter]

/-- A witness of C17: destroying the registered instance `100`, whose embedded
table pointer is `6`. -/
theorem vkDestroyInstance_teardown_order_witness :
    100 ∈ sampleRegistry.instances ∧ (100 : Nat) ≠ NULL ∧
    loader_get_instance_dispatch liveMemory 100 ≠ NULL ∧
    ∃ out, vkDestroyInstance chain_DestroyInstance sampleRegistry liveMemory 100 0 =
        some out ∧
      out.trace =
        [Event.get_instance_dispatch 100, Event.lock_mutex,
         Event.get_instance 100 100,
         Event.call_slot (liveMemory 100) Slot.DestroyInstance [100, 0],
         Event.deactivate_instance_layers 100,
         Event.heap_free_disp (liveMemory 100),
         Event.heap_free_instance 100,
         Event.unlock_mutex] ∧
      beforeUnlock (eventsAfter Event.lock_mutex out.trace) =
        [Event.get_instance 100 100,
         Event.call_slot (liveMemory 100) Slot.DestroyInstance [100, 0],
         Event.deactivate_instance_layers 100,
         Event.heap_free_disp (liveMemory 100),
         Event.heap_free_instance 100] ∧
      releases out.trace = [Resource.disp_table, Resource.instance_record] ∧
      eventsAfter (Event.heap_free_instance 100) out.trace = [Event.unlock_mutex] :=
  ⟨by decide, by decide, by decide,
    vkDestroyInstance_teardown_order chain_DestroyInstance sampleRegistry liveMemory 100 0
      (by decide) (by decide) (by decide)⟩

theorem vkDestroyDevice_found (icdOf this_instance : Ptr → Ptr)
    (remove_logical_device : (Ptr → List Ptr) → Ptr → Ptr → Ptr → List Ptr)
    (mem : Memory) (devices : Ptr → List Ptr) (device pAllocator : Nat)
    (hicd : icdOf device ≠ NULL) (hdisp : loader_get_dispatch mem device ≠ NULL) :
    vkDestroyDevice icdOf this_instance remove_logical_device mem devices device pAllocator =
      some { devices := remove_logical_device devices (this_instance (icdOf device)) device,
             trace := [Event.get_icd_and_device device (icdOf device),
                       Event.get_dispatch device, Event.lock_mutex,
                       Event.call_slot (mem device) Slot.DestroyDevice [device, pAllocator],
                       Event.remove_logical_device (this_instance (icdOf device)) device,
                       Event.unlock_mutex] } := by
  have hd : mem device ≠ NULL := hdisp
  simp [vkDestroyDevice, loader_get_dispatch, hicd, hd]

/-- C18: `vkDestroyDevice` on a device found under an ICD, whose table is in
place, takes exactly these steps: the lookup, the read of the device's table,
the acquisition of the mutex, one call of the chain's `DestroyDevice`, then one
call of `loader_remove_logical_device` with that device and the instance of the
ICD the device was found under, then the release of the mutex.  The tracking
lists on return are what that one call of the helper made of them; so when the
helper deregisters the device it is given from the instance it is given, the
device is in the tracking list of its owning instance no more. -/
theorem vkDestroyDevice_deregisters
    (icdOf this_instance : Ptr → Ptr)
    (remove_logical_device : (Ptr → List Ptr) → Ptr → Ptr → Ptr → List Ptr)
    (mem : Memory) (devices : Ptr → List Ptr)
    (device pAllocator : Nat) (hicd : icdOf device ≠ NULL)
    (hdisp : loader_get_dispatch mem device ≠ NULL) :
    ∃ out, vkDestroyDevice icdOf this_instance remove_logical_device mem devices device
        pAllocator = some out ∧
      out.trace =
        [Event.get_icd_and_device device (icdOf device), Event.get_dispatch device,
         Event.lock_mutex,
         Event.call_slot (mem device) Slot.DestroyDevice [device, pAllocator],
         Event.remove_logical_device (this_instance (icdOf device)) device,
         Event.unlock_mutex] ∧
      slotCalls out.trace = [(mem device, Slot.DestroyDevice, [device, pAllocator])] ∧
      Event.remove_logical_device (this_instance (icdOf device)) device ∈
        beforeUnlock (eventsAfter
          (Event.call_slot (mem device) Slot.DestroyDevice [device, pAllocator]) out.trace) ∧
      out.devices = remove_logical_device devices (this_instance (icdOf device)) device ∧
      ((∀ (ds : Ptr → List Ptr) (i d : Ptr), d ∉ remove_logical_device ds i d i) →
        device ∉ out.devices (this_instance (icdOf device))) := by
  refine ⟨_, vkDestroyDevice_found icdOf this_instance remove_logical_device mem devices
    device pAllocator hicd hdisp, rfl, ?_, ?_, rfl, ?_⟩
  · simp [slotCalls]
  · simp [eventsAfter, beforeUnlock]
  · intro h
    exact h devices (this_instance (icdOf device)) device

theorem loader_remove_logical_device_removes (ds : Ptr → List Ptr) (i d : Ptr) :
    d ∉ loader_remove_logical_device ds i d i := by
  simp [loader_remove_logical_device]

/-- A witness of C18: destroying the device `40`, whose embedded table pointer
is `5`, found under the ICD `30` of the instance `100`, which tracked the
devices `40` and `41`; the helper is the modelled one. -/
theorem vkDestroyDevice_deregisters_witness :
    sampleIcdOf 40 ≠ NULL ∧ loader_get_dispatch liveMemory 40 ≠ NULL ∧
    ∃ out, vkDestroyDevice sampleIcdOf sampleThisInstance loader_remove_logical_device
        liveMemory sampleDevices 40 0 = some out ∧
      out.trace =
        [Event.get_icd_and_device 40 30, Event.get_dispatch 40,
         Event.lock_mutex,
         Event.call_slot 5 Slot.DestroyDevice [40, 0],
         Event.remove_logical_device 100 40,
         Event.unlock_mutex] ∧
      out.devices 100 = [41] ∧
      40 ∉ out.devices 100 :=
  have h := vkDestroyDevice_deregisters sampleIcdOf sampleThisInstance
    loader_remove_logical_device liveMemory sampleDevices 40 0 (by decide) (by decide)
  ⟨by decide, by decide,
    h.elim fun out ho =>
      ⟨out, ho.1, ho.2.1, (congrFun ho.2.2.2.2.1 100).trans (by decide),
        ho.2.2.2.2.2 loader_remove_logical_device_removes⟩⟩

theorem vkCreateInstance_loader_cases (c : Collaborators) (loader : LoaderState)
    (pInstance : Ptr) :
    (vkCreateInstance c loader pInstance).loader = loader ∨
    (vkCreateInstance c loader pInstance).loader =
      { instances := c.alloc_instance :: loader.instances } := by
  by_cases ha : c.alloc_instance = NULL
  · rw [vkCreateInstance_alloc_null c loader pInstance ha]
    exact Or.inl rfl
  · by_cases hl : c.enabledLayerNameCount = 0 ∨ c.validate_layers = VK_SUCCESS
    · rw [vkCreateInstance_eq_fromIcdScan c loader pInstance ha hl]
      by_cases he : c.validate_instance_extensions = VK_SUCCESS
      · by_cases hd : c.alloc_disp = NULL
        · rw [fromIcdScan_alloc_failure c loader pInstance _ _ he hd]
          exact Or.inl rfl
        · by_cases hn : c.enable_instance_layers = VK_SUCCESS
          · rw [fromIcdScan_no_failure c loader pInstance _ _ he hd hn]
            exact Or.inr rfl
          · rw [fromIcdScan_enable_failure c loader pInstance _ _ he hd hn]
            exact Or.inl rfl
      · rw [fromIcdScan_extension_failure c loader pInstance _ _ he]
        exact Or.inl rfl
    · rw [vkCreateInstance_layer_failure c loader pInstance ha hl]
      exact Or.inl rfl

/-- C19: if `loader.instances` holds no instance twice on entry and the
allocator returns a record that is not in it, then `loader.instances` holds no
instance twice when `vkCreateInstance` returns, on every path. -/
theorem vkCreateInstance_preserves_uniqueness
    (c : Collaborators) (loader : LoaderState) (pInstance : Ptr)
    (hnd : loader.instances.Nodup)
    (hfresh : c.alloc_instance ∉ loader.instances) :
    (vkCreateInstance c loader pInstance).loader.instances.Nodup := by
  rcases vkCreateInstance_loader_cases c loader pInstance with h | h
  · rw [h]; exact hnd
  · rw [h]; exact List.nodup_cons.mpr ⟨hfresh, hnd⟩

/-- A witness of C19: the registry `[100, 7]` and a fresh record `300`, on the
path where the chain's `CreateInstance` fails and the record stays linked. -/
theorem vkCreateInstance_preserves_uniqueness_witness :
    sampleRegistry.instances.Nodup ∧
    ({ chainFails with alloc_instance := 300 } : Collaborators).alloc_instance ∉
      sampleRegistry.instances ∧
    (vkCreateInstance { chainFails with alloc_instance := 300 } sampleRegistry
      0).loader.instances = [300, 100, 7] ∧
    (vkCreateInstance { chainFails with alloc_instance := 300 } sampleRegistry
      0).loader.instances.Nodup :=
  ⟨by decide, by decide, by decide,
    vkCreateInstance_preserves_uniqueness { chainFails with alloc_instance := 300 }
      sampleRegistry 0 (by decide) (by decide)⟩

/-- C20: when the allocation of the instance record or of the dispatch table
returns `NULL`, `vkCreateInstance` returns `VK_ERROR_OUT_OF_HOST_MEMORY`, never
writes `*pInstance` and leaves the registry as it was.  In the first case the
call consists of the one-time initialisation and the failed allocation, without
any step on the mutex; in the second the four lists are released before the
mutex is released and the instance record is freed before the return. -/
theorem vkCreateInstance_allocation_failure
    (c : Collaborators) (loader : LoaderState) (pInstance : Ptr)
    (h : c.alloc_instance = NULL ∨
      (c.alloc_instance ≠ NULL ∧
        (c.enabledLayerNameCount = 0 ∨ c.validate_layers = VK_SUCCESS) ∧
        c.validate_instance_extensions = VK_SUCCESS ∧ c.alloc_disp = NULL)) :
    (vkCreateInstance c loader pInstance).result = VK_ERROR_OUT_OF_HOST_MEMORY ∧
    (vkCreateInstance c loader pInstance).pInstance = pInstance ∧
    (∀ p, Event.write_pInstance p ∉ (vkCreateInstance c loader pInstance).trace) ∧
    (vkCreateInstance c loader pInstance).loader = loader ∧
    (c.alloc_instance = NULL →
      (vkCreateInstance c loader pInstance).trace =
        [Event.thread_once, Event.alloc_instance c.pAllocator NULL] ∧
      lockCount (vkCreateInstance c loader pInstance).trace = 0) ∧
    (c.alloc_instance ≠ NULL →
      Event.heap_alloc_disp NULL ∈ (vkCreateInstance c loader pInstance).trace ∧
      releases (beforeUnlock (vkCreateInstance c loader pInstance).trace) =
        [Resource.device_layer_list, Resource.instance_layer_list, Resource.icd_libs,
         Resource.ext_list] ∧
      releases (vkCreateInstance c loader pInstance).trace =
        [Resource.device_layer_list, Resource.instance_layer_list, Resource.icd_libs,
         Resource.ext_list, Resource.instance_record]) := by
  rcases h with ha | ⟨ha, hl, he, hd⟩
  · rw [vkCreateInstance_alloc_null c loader pInstance ha]
    refine ⟨rfl, rfl, ?_, rfl, fun _ => ⟨rfl, by simp [lockCount]⟩, fun hne => absurd ha hne⟩
    intro p
    simp
  · rw [vkCreateInstance_eq_fromIcdScan c loader pInstance ha hl,
      fromIcdScan_alloc_failure c loader pInstance _ _ he hd]
    have hp := unlock_not_mem_prologue c
    refine ⟨rfl, rfl, ?_, rfl, fun h0 => absurd h0 ha, fun _ => ⟨?_, ?_, ?_⟩⟩
    · intro p
      cases hpa : c.pAllocator <;> by_cases hc : c.enabledLayerNameCount > 0 <;>
        simp [prologue, releaseLists, hpa, hc]
    · simp
    · simp only [beforeUnlock_append _ _ hp, releases_append, releases_prologue]
      simp [releases, Event.releases, releaseLists, beforeUnlock]
    · simp only [releases_append, releases_prologue]
      simp [releases, Event.releases, releaseLists]

/-- A witness of C20: once the instance record cannot be allocated, once the
dispatch table cannot. -/
theorem vkCreateInstance_allocation_failure_witness :
    instanceAllocFails.alloc_instance = NULL ∧
    (vkCreateInstance instanceAllocFails sampleRegistry 0).result =
      VK_ERROR_OUT_OF_HOST_MEMORY ∧
    (vkCreateInstance instanceAllocFails sampleRegistry 0).loader = sampleRegistry ∧
    (dispAllocFails.alloc_instance ≠ NULL ∧
      (dispAllocFails.enabledLayerNameCount = 0 ∨
        dispAllocFails.validate_layers = VK_SUCCESS) ∧
      dispAllocFails.validate_instance_extensions = VK_SUCCESS ∧
      dispAllocFails.alloc_disp = NULL) ∧
    (vkCreateInstance dispAllocFails sampleRegistry 0).result =
      VK_ERROR_OUT_OF_HOST_MEMORY ∧
    (vkCreateInstance dispAllocFails sampleRegistry 0).pInstance = 0 ∧
    (vkCreateInstance dispAllocFails sampleRegistry 0).loader = sampleRegistry :=
  have h1 := vkCreateInstance_allocation_failure instanceAllocFails sampleRegistry 0
    (Or.inl rfl)
  have h2 := vkCreateInstance_allocation_failure dispAllocFails sampleRegistry 0
    (Or.inr ⟨by decide, Or.inr rfl, rfl, rfl⟩)
  ⟨rfl, h1.1, h1.2.2.2.1, ⟨by decide, Or.inr rfl, rfl, rfl⟩, h2.1, h2.2.1, h2.2.2.2.1⟩

/-! ### The returns of `vkCreateInstance` -/

theorem vkCreateInstance_cases (c : Collaborators) (loader : LoaderState) (pInstance : Ptr) :
    (c.alloc_instance = NULL ∧
      vkCreateInstance c loader pInstance =
        { result := VK_ERROR_OUT_OF_HOST_MEMORY, pInstance := pInstance, loader := loader,
          trace := [Event.thread_once, Event.alloc_instance c.pAllocator NULL] }) ∨
    (c.alloc_instance ≠ NULL ∧ c.enabledLayerNameCount > 0 ∧
      c.validate_layers ≠ VK_SUCCESS ∧
      vkCreateInstance c loader pInstance =
        { result := c.validate_layers, pInstance := pInstance, loader := loader,
          trace := prologue c ++ [Event.unlock_mutex] }) ∨
    (c.alloc_instance ≠ NULL ∧ c.validate_instance_extensions ≠ VK_SUCCESS ∧
      vkCreateInstance c loader pInstance =
        { result := c.validate_instance_extensions, pInstance := pInstance,
          loader := loader,
          trace := prologue c ++ ([Event.memset_icd_libs, Event.icd_scan,
            Event.get_icd_loader_instance_extensions,
            Event.validate_instance_extensions c.validate_instance_extensions] ++
            releaseLists ++
            [Event.unlock_mutex, Event.heap_free_instance c.alloc_instance]) }) ∨
    (c.alloc_instance ≠ NULL ∧ c.alloc_disp = NULL ∧
      vkCreateInstance c loader pInstance =
        { result := VK_ERROR_OUT_OF_HOST_MEMORY, pInstance := pInstance, loader := loader,
          trace := prologue c ++ ([Event.memset_icd_libs, Event.icd_scan,
            Event.get_icd_loader_instance_extensions,
            Event.validate_instance_extensions VK_SUCCESS,
            Event.heap_alloc_disp NULL] ++ releaseLists ++
            [Event.unlock_mutex, Event.heap_free_instance c.alloc_instance]) }) ∨
    (c.alloc_instance ≠ NULL ∧ c.alloc_disp ≠ NULL ∧
      c.enable_instance_layers ≠ VK_SUCCESS ∧
      vkCreateInstance c loader pInstance =
        { result := c.enable_instance_layers, pInstance := pInstance, loader := loader,
          trace := prologue c ++ ([Event.memset_icd_libs, Event.icd_scan,
            Event.get_icd_loader_instance_extensions,
            Event.validate_instance_extensions VK_SUCCESS,
            Event.heap_alloc_disp c.alloc_disp, Event.memcpy_instance_disp,
            Event.link_instance c.alloc_instance,
            Event.enable_instance_layers c.enable_instance_layers] ++ releaseLists ++
            [Event.unlink_instance c.alloc_instance, Event.unlock_mutex,
             Event.heap_free_disp c.alloc_disp,
             Event.heap_free_instance c.alloc_instance]) }) ∨
    (c.alloc_instance ≠ NULL ∧ c.alloc_disp ≠ NULL ∧
      vkCreateInstance c loader pInstance =
        { result := c.chain_CreateInstance,
          pInstance := c.chain_pInstance.getD c.alloc_instance,
          loader := { instances := c.alloc_instance :: loader.instances },
          trace := prologue c ++ [Event.memset_icd_libs, Event.icd_scan,
            Event.get_icd_loader_instance_extensions,
            Event.validate_instance_extensions VK_SUCCESS,
            Event.heap_alloc_disp c.alloc_disp, Event.memcpy_instance_disp,
            Event.link_instance c.alloc_instance,
            Event.enable_instance_layers VK_SUCCESS,
            Event.activate_instance_layers, Event.wsi_swapchain_create_instance,
            Event.debug_report_create_instance, Event.write_pInstance c.alloc_instance,
            Event.chain_CreateInstance c.alloc_instance c.chain_CreateInstance,
            Event.activate_instance_layer_extensions, Event.unlock_mutex] }) := by
  by_cases ha : c.alloc_instance = NULL
  · exact Or.inl ⟨ha, vkCreateInstance_alloc_null c loader pInstance ha⟩
  · by_cases hl : c.enabledLayerNameCount = 0 ∨ c.validate_layers = VK_SUCCESS
    · rw [vkCreateInstance_eq_fromIcdScan c loader pInstance ha hl]
      by_cases he : c.validate_instance_extensions = VK_SUCCESS
      · by_cases hd : c.alloc_disp = NULL
        · exact Or.inr (Or.inr (Or.inr (Or.inl
            ⟨ha, hd, fromIcdScan_alloc_failure c loader pInstance _ _ he hd⟩)))
        · by_cases hn : c.enable_instance_layers = VK_SUCCESS
          · exact Or.inr (Or.inr (Or.inr (Or.inr (Or.inr
              ⟨ha, hd, fromIcdScan_no_failure c loader pInstance _ _ he hd hn⟩))))
          · exact Or.inr (Or.inr (Or.inr (Or.inr (Or.inl
              ⟨ha, hd, hn, fromIcdScan_enable_failure c loader pInstance _ _ he hd hn⟩))))
      · exact Or.inr (Or.inr (Or.inl
          ⟨ha, he, fromIcdScan_extension_failure c loader pInstance _ _ he⟩))
    · have h1 : c.enabledLayerNameCount > 0 := by
        rcases Nat.eq_zero_or_pos c.enabledLayerNameCount with h | h
        · exact absurd (Or.inl h) hl
        · exact h
      have h2 : c.validate_layers ≠ VK_SUCCESS := fun h => hl (Or.inr h)
      exact Or.inr (Or.inl
        ⟨ha, h1, h2, vkCreateInstance_layer_failure c loader pInstance ha hl⟩)

theorem count_append_event (x : Event) (s t : List Event) :
    (s ++ t).count x = s.count x + t.count x := by
  simp

theorem prologue_eq (c : Collaborators) :
    prologue c =
      [Event.thread_once, Event.alloc_instance c.pAllocator c.alloc_instance,
       Event.set_tls_instance, Event.lock_mutex, Event.memset_instance] ++
      (if c.pAllocator then [Event.copy_alloc_callbacks] else []) ++
      [Event.memset_layer_list LayerList.instance_layer_list,
       Event.memset_layer_list LayerList.device_layer_list, Event.layer_scan] ++
      (if c.enabledLayerNameCount > 0 then [Event.validate_layers c.validate_layers]
       else []) := by
  cases hp : c.pAllocator <;> by_cases hc : c.enabledLayerNameCount > 0 <;>
    simp [prologue, hp, hc]

theorem closing_prologue (c : Collaborators) :
    (prologue c).filter Event.isClosingStep = [] := by
  cases hp : c.pAllocator <;> by_cases hc : c.enabledLayerNameCount > 0 <;>
    simp [prologue, hp, hc, Event.isClosingStep]

theorem layer_scan_mem_prologue (c : Collaborators) : Event.layer_scan ∈ prologue c := by
  rw [prologue_eq]; simp

theorem count_layer_scan_prologue (c : Collaborators) :
    (prologue c).count Event.layer_scan = 1 := by
  cases hp : c.pAllocator <;> by_cases hc : c.enabledLayerNameCount > 0 <;>
    simp [prologue, hp, hc]

theorem eventsBefore_layer_scan_prologue (c : Collaborators) :
    eventsBefore Event.layer_scan (prologue c) =
      [Event.thread_once, Event.alloc_instance c.pAllocator c.alloc_instance,
       Event.set_tls_instance, Event.lock_mutex, Event.memset_instance] ++
      (if c.pAllocator then [Event.copy_alloc_callbacks] else []) ++
      [Event.memset_layer_list LayerList.instance_layer_list,
       Event.memset_layer_list LayerList.device_layer_list] := by
  cases hp : c.pAllocator <;> by_cases hc : c.enabledLayerNameCount > 0 <;>
    simp [prologue, hp, hc, eventsBefore]

/-- C24: in every call of `vkCreateInstance` whose instance record is allocated,
`loader_layer_scan` is called exactly once, whatever `enabledLayerNameCount`
is; the steps before it are the one-time initialisation, the allocation, the
acquisition of the mutex, the zeroing of the record, the copy of the
allocation callbacks if any, and last the zeroing of the instance and device
layer lists; neither layer validation nor the ICD scan is among them. -/
theorem vkCreateInstance_always_scans_layers
    (c : Collaborators) (loader : LoaderState) (pInstance : Ptr)
    (halloc : c.alloc_instance ≠ NULL) :
    (vkCreateInstance c loader pInstance).trace.count Event.layer_scan = 1 ∧
    eventsBefore Event.layer_scan (vkCreateInstance c loader pInstance).trace =
      [Event.thread_once, Event.alloc_instance c.pAllocator c.alloc_instance,
       Event.set_tls_instance, Event.lock_mutex, Event.memset_instance] ++
      (if c.pAllocator then [Event.copy_alloc_callbacks] else []) ++
      [Event.memset_layer_list LayerList.instance_layer_list,
       Event.memset_layer_list LayerList.device_layer_list] ∧
    (∀ r, Event.validate_layers r ∉
      eventsBefore Event.layer_scan (vkCreateInstance c loader pInstance).trace) ∧
    Event.icd_scan ∉
      eventsBefore Event.layer_scan (vkCreateInstance c loader pInstance).trace ∧
    (c.enabledLayerNameCount > 0 →
      Event.validate_layers c.validate_layers ∈
        eventsAfter Event.layer_scan (vkCreateInstance c loader pInstance).trace) ∧
    (Event.icd_scan ∈ (vkCreateInstance c loader pInstance).trace →
      Event.icd_scan ∈
        eventsAfter Event.layer_scan (vkCreateInstance c loader pInstance).trace) := by
  have hb : eventsBefore Event.layer_scan (vkCreateInstance c loader pInstance).trace =
      eventsBefore Event.layer_scan (prologue c) := by
    obtain ⟨tail, ht⟩ := vkCreateInstance_trace_prologue c loader pInstance halloc
    rw [ht, eventsBefore_append_of_mem _ _ _ (layer_scan_mem_prologue c)]
  rw [hb, eventsBefore_layer_scan_prologue]
  refine ⟨?_, rfl, ?_, ?_, ?_, ?_⟩
  · rcases vkCreateInstance_cases c loader pInstance with
      ⟨ha, _⟩ | ⟨_, _, _, h⟩ | ⟨_, _, h⟩ | ⟨_, _, h⟩ | ⟨_, _, _, h⟩ | ⟨_, _, h⟩
    · exact absurd ha halloc
    all_goals
      rw [h]
      simp only [count_append_event, count_layer_scan_prologue]
      simp [releaseLists]
  · intro r
    cases hp : c.pAllocator <;> simp
  · cases hp : c.pAllocator <;> simp
  · intro hc
    obtain ⟨tail, ht⟩ := vkCreateInstance_trace_prologue c loader pInstance halloc
    rw [ht]
    cases hp : c.pAllocator <;> simp [prologue, hp, hc, eventsAfter]
  · intro hmem
    obtain ⟨tail, ht⟩ := vkCreateInstance_trace_prologue c loader pInstance halloc
    rw [ht] at hmem ⊢
    have hnot : Event.icd_scan ∉ prologue c := by
      rw [prologue_eq]
      cases hp : c.pAllocator <;> by_cases hc : c.enabledLayerNameCount > 0 <;> simp [hc]
    have htail : Event.icd_scan ∈ tail := by
      rcases List.mem_append.mp hmem with h | h
      · exact absurd h hnot
      · exact h
    cases hp : c.pAllocator <;> by_cases hc : c.enabledLayerNameCount > 0 <;>
      simp [prologue, hp, hc, eventsAfter, htail]

/-- A witness of C24: no layer is requested and extension validation fails;
the layers are scanned all the same. -/
theorem vkCreateInstance_always_scans_layers_witness :
    extensionMissing.alloc_instance ≠ NULL ∧
    extensionMissing.enabledLayerNameCount = 0 ∧
    (vkCreateInstance extensionMissing ⟨[7]⟩ 0).trace.count Event.layer_scan = 1 ∧
    eventsBefore Event.layer_scan (vkCreateInstance extensionMissing ⟨[7]⟩ 0).trace =
      [Event.thread_once, Event.alloc_instance false 100,
       Event.set_tls_instance, Event.lock_mutex, Event.memset_instance,
       Event.memset_layer_list LayerList.instance_layer_list,
       Event.memset_layer_list LayerList.device_layer_list] :=
  have h := vkCreateInstance_always_scans_layers extensionMissing ⟨[7]⟩ 0 (by decide)
  ⟨by decide, rfl, h.1, h.2.1⟩

theorem eventsAfter_append_of_not_mem (x : Event) (s t : List Event) (h : x ∉ s) :
    eventsAfter x (s ++ t) = eventsAfter x t := by
  induction s with
  | nil => rfl
  | cons e s ih =>
    simp only [List.mem_cons, not_or] at h
    have he : e ≠ x := fun hh => h.1 hh.symm
    simp [eventsAfter, he, ih h.2]

theorem link_not_mem_prologue (c : Collaborators) (p : Ptr) :
    Event.link_instance p ∉ prologue c := by
  rw [prologue_eq]
  cases hp : c.pAllocator <;> by_cases hc : c.enabledLayerNameCount > 0 <;> simp [hc]

/-- C25: when `vkCreateInstance` returns without having called the chain head's
`CreateInstance`, the registry on return is the registry on entry; if the
instance had been linked during the call (which happens when
`loader_enable_instance_layers` fails), it has been unlinked again afterwards. -/
theorem vkCreateInstance_registry_unchanged_without_chain
    (c : Collaborators) (loader : LoaderState) (pInstance : Ptr)
    (hchain : ∀ handle r,
      Event.chain_CreateInstance handle r ∉ (vkCreateInstance c loader pInstance).trace) :
    (vkCreateInstance c loader pInstance).loader = loader ∧
    (Event.link_instance c.alloc_instance ∈ (vkCreateInstance c loader pInstance).trace →
      c.enable_instance_layers ≠ VK_SUCCESS ∧
      Event.unlink_instance c.alloc_instance ∈
        eventsAfter (Event.link_instance c.alloc_instance)
          (vkCreateInstance c loader pInstance).trace) := by
  rcases vkCreateInstance_cases c loader pInstance with
    ⟨_, h⟩ | ⟨_, _, _, h⟩ | ⟨_, _, h⟩ | ⟨_, _, h⟩ | ⟨_, _, hn, h⟩ | ⟨_, _, h⟩
  · rw [h]
    exact ⟨rfl, fun hl => by simp at hl⟩
  · rw [h]
    refine ⟨rfl, fun hl => ?_⟩
    have := link_not_mem_prologue c c.alloc_instance
    simp [this] at hl
  · rw [h]
    refine ⟨rfl, fun hl => ?_⟩
    have := link_not_mem_prologue c c.alloc_instance
    simp [this, releaseLists] at hl
  · rw [h]
    refine ⟨rfl, fun hl => ?_⟩
    have := link_not_mem_prologue c c.alloc_instance
    simp [this, releaseLists] at hl
  · rw [h]
    refine ⟨rfl, fun _ => ⟨hn, ?_⟩⟩
    rw [eventsAfter_append_of_not_mem _ _ _ (link_not_mem_prologue c c.alloc_instance)]
    simp [eventsAfter, releaseLists]
  · exfalso
    apply hchain c.alloc_instance c.chain_CreateInstance
    rw [h]
    simp

/-- A witness of C25: `loader_enable_instance_layers` fails after the instance
`100` was linked in front of `[7, 8]`; the registry is `[7, 8]` again on return. -/
theorem vkCreateInstance_registry_unchanged_without_chain_witness :
    (∀ handle r,
      Event.chain_CreateInstance handle r ∉ (vkCreateInstance enableFails ⟨[7, 8]⟩ 0).trace) ∧
    Event.link_instance 100 ∈ (vkCreateInstance enableFails ⟨[7, 8]⟩ 0).trace ∧
    (vkCreateInstance enableFails ⟨[7, 8]⟩ 0).loader = ⟨[7, 8]⟩ ∧
    Event.unlink_instance 100 ∈
      eventsAfter (Event.link_instance 100) (vkCreateInstance enableFails ⟨[7, 8]⟩ 0).trace :=
  have hno : ∀ handle r,
      Event.chain_CreateInstance handle r ∉ (vkCreateInstance enableFails ⟨[7, 8]⟩ 0).trace := by
    intro handle r
    simp [vkCreateInstance, vkCreateInstance_fromIcdScan, enableFails, releaseLists, NULL]
  have hlink : Event.link_instance 100 ∈ (vkCreateInstance enableFails ⟨[7, 8]⟩ 0).trace := by
    decide
  have h := vkCreateInstance_registry_unchanged_without_chain enableFails ⟨[7, 8]⟩ 0 hno
  ⟨hno, hlink, h.1, (h.2 hlink).2⟩

/-- C27: in every call of `vkCreateInstance` that calls the chain head's
`CreateInstance`, the steps `loader_activate_instance_layers`, the write of
`*pInstance`, the chain head's `CreateInstance`,
`loader_activate_instance_layer_extensions` and the release of the mutex occur
once each and in this order, whatever result `CreateInstance` returns; the
chain is called with the new record in `*pInstance`. -/
theorem vkCreateInstance_closing_steps
    (c : Collaborators) (loader : LoaderState) (pInstance : Ptr) (handle : Ptr)
    (r : VkResult)
    (hchain : Event.chain_CreateInstance handle r ∈
      (vkCreateInstance c loader pInstance).trace) :
    (vkCreateInstance c loader pInstance).trace.filter Event.isClosingStep =
      [Event.activate_instance_layers, Event.write_pInstance c.alloc_instance,
       Event.chain_CreateInstance c.alloc_instance c.chain_CreateInstance,
       Event.activate_instance_layer_extensions, Event.unlock_mutex] ∧
    handle = c.alloc_instance ∧ r = c.chain_CreateInstance ∧
    (vkCreateInstance c loader pInstance).result = r := by
  have hp := chain_not_mem_prologue c handle r
  rcases vkCreateInstance_cases c loader pInstance with
    ⟨_, h⟩ | ⟨_, _, _, h⟩ | ⟨_, _, h⟩ | ⟨_, _, h⟩ | ⟨_, _, _, h⟩ | ⟨_, _, h⟩
  · rw [h] at hchain; simp at hchain
  · rw [h] at hchain; simp [hp] at hchain
  · rw [h] at hchain; simp [hp, releaseLists] at hchain
  · rw [h] at hchain; simp [hp, releaseLists] at hchain
  · rw [h] at hchain; simp [hp, releaseLists] at hchain
  · rw [h] at hchain ⊢
    simp only [List.mem_append, hp, false_or] at hchain
    simp only [List.filter_append, closing_prologue, List.nil_append]
    simp at hchain
    exact ⟨by simp [Event.isClosingStep], hchain.1, hchain.2, hchain.2.symm⟩

/-- A witness of C27: the chain head's `CreateInstance` fails, and
`loader_activate_instance_layer_extensions` is called after it all the same. -/
theorem vkCreateInstance_closing_steps_witness :
    Event.chain_CreateInstance 100 VK_ERROR_INITIALIZATION_FAILED ∈
      (vkCreateInstance chainFails ⟨[]⟩ 0).trace ∧
    (vkCreateInstance chainFails ⟨[]⟩ 0).trace.filter Event.isClosingStep =
      [Event.activate_instance_layers, Event.write_pInstance 100,
       Event.chain_CreateInstance 100 VK_ERROR_INITIALIZATION_FAILED,
       Event.activate_instance_layer_extensions, Event.unlock_mutex] :=
  have hmem : Event.chain_CreateInstance 100 VK_ERROR_INITIALIZATION_FAILED ∈
      (vkCreateInstance chainFails ⟨[]⟩ 0).trace := by decide
  ⟨hmem, (vkCreateInstance_closing_steps chainFails ⟨[]⟩ 0 100
    VK_ERROR_INITIALIZATION_FAILED hmem).1⟩

/-! ### Writes of embedded pointers -/

theorem stampCommandBuffers_frame (disp : Ptr) (bufs : Nat → Ptr) (a : Ptr) :
    ∀ (k i : Nat) (mem : Memory),
      (∀ j, i ≤ j → j < i + k → bufs j = NULL ∨ bufs j ≠ a) →
      stampCommandBuffers disp bufs k i mem a = mem a := by
  intro k
  induction k with
  | zero => intro i mem _; rfl
  | succ k ih =>
    intro i mem h
    simp only [stampCommandBuffers]
    rw [ih (i + 1) _ (fun j h1 h2 => h j (by omega) (by omega))]
    rcases h i (Nat.le_refl i) (by omega) with h0 | h0
    · simp [h0]
    · by_cases hb : bufs i ≠ NULL
      · have : a ≠ bufs i := fun e => h0 e.symm
        simp [hb, loader_init_dispatch, loader_set_dispatch, this]
      · simp [hb]

theorem dispatchWritesFrom_stamp_cons (record disp : Ptr) (bufs : Nat → Ptr) (k i : Nat) :
    dispatchWritesFrom record (stampCommandBuffers_trace disp bufs (k + 1) i) =
      (if bufs i ≠ NULL then [(bufs i, disp)] else []) ++
        dispatchWritesFrom record (stampCommandBuffers_trace disp bufs k (i + 1)) := by
  by_cases hb : bufs i ≠ NULL
  · simp [stampCommandBuffers_trace, hb, dispatchWritesFrom]
  · simp [stampCommandBuffers_trace, hb]

theorem mem_dispatchWrites_stamp (record disp : Ptr) (bufs : Nat → Ptr) (obj d : Ptr) :
    ∀ (k i : Nat),
      ((obj, d) ∈ dispatchWritesFrom record (stampCommandBuffers_trace disp bufs k i) ↔
        d = disp ∧ obj ≠ NULL ∧ ∃ j, i ≤ j ∧ j < i + k ∧ bufs j = obj) := by
  intro k
  induction k with
  | zero =>
    intro i
    simp only [stampCommandBuffers_trace, dispatchWritesFrom, List.not_mem_nil, false_iff]
    rintro ⟨_, _, j, h1, h2, _⟩
    omega
  | succ k ih =>
    intro i
    rw [dispatchWritesFrom_stamp_cons, List.mem_append, ih (i + 1)]
    constructor
    · rintro (h | ⟨h1, h2, j, h3, h4, h5⟩)
      · by_cases hb : bufs i ≠ NULL
        · simp [hb] at h
          obtain ⟨rfl, rfl⟩ := h
          exact ⟨rfl, hb, i, Nat.le_refl i, by omega, rfl⟩
        · simp [hb] at h
      · exact ⟨h1, h2, j, by omega, by omega, h5⟩
    · rintro ⟨h1, h2, j, h3, h4, h5⟩
      by_cases hij : j = i
      · left
        subst hij
        subst h5
        simp [h2, h1]
      · right
        exact ⟨h1, h2, j, by omega, by omega, h5⟩

theorem stampCommandBuffers_eq_applyWrites (record disp : Ptr) (bufs : Nat → Ptr) :
    ∀ (k i : Nat) (mem : Memory),
      stampCommandBuffers disp bufs k i mem =
        applyWrites (dispatchWritesFrom record (stampCommandBuffers_trace disp bufs k i))
          mem := by
  intro k
  induction k with
  | zero => intro i mem; rfl
  | succ k ih =>
    intro i mem
    rw [dispatchWritesFrom_stamp_cons]
    simp only [stampCommandBuffers]
    rw [ih (i + 1)]
    by_cases hb : bufs i ≠ NULL
    · simp [hb, applyWrites, loader_init_dispatch]
    · simp [hb, applyWrites]

theorem dispatchWrites_allocate_trace
    (tables : Ptr → VkLayerDispatchTable) (mem : Memory) (device : Ptr)
    (pAllocateInfo : VkCommandBufferAllocateInfo) (pCommandBuffers : Nat → Ptr) :
    dispatchWrites
        (vkAllocateCommandBuffers_trace tables mem device pAllocateInfo pCommandBuffers) =
      if ((tables (loader_get_dispatch mem device)).AllocateCommandBuffers mem device
          pAllocateInfo pCommandBuffers).1 = VK_SUCCESS then
        dispatchWritesFrom NULL (stampCommandBuffers_trace (loader_get_dispatch mem device)
          ((tables (loader_get_dispatch mem device)).AllocateCommandBuffers mem device
            pAllocateInfo pCommandBuffers).2.2 pAllocateInfo.bufferCount 0)
      else [] := by
  by_cases hs : ((tables (loader_get_dispatch mem device)).AllocateCommandBuffers mem device
      pAllocateInfo pCommandBuffers).1 = VK_SUCCESS
  · simp [dispatchWrites, vkAllocateCommandBuffers_trace, vkAllocateCommandBuffers, hs,
      dispatchWritesFrom]
  · simp [dispatchWrites, vkAllocateCommandBuffers_trace, vkAllocateCommandBuffers, hs,
      dispatchWritesFrom]

theorem mem_dispatchWrites_allocate
    (tables : Ptr → VkLayerDispatchTable) (mem : Memory) (device : Ptr)
    (pAllocateInfo : VkCommandBufferAllocateInfo) (pCommandBuffers : Nat → Ptr)
    (hs : ((tables (loader_get_dispatch mem device)).AllocateCommandBuffers mem device
        pAllocateInfo pCommandBuffers).1 = VK_SUCCESS) (obj d : Ptr) :
    ((obj, d) ∈ dispatchWrites
        (vkAllocateCommandBuffers_trace tables mem device pAllocateInfo pCommandBuffers) ↔
      d = loader_get_dispatch mem device ∧ obj ≠ NULL ∧
      ∃ j, j < pAllocateInfo.bufferCount ∧
        ((tables (loader_get_dispatch mem device)).AllocateCommandBuffers mem device
          pAllocateInfo pCommandBuffers).2.2 j = obj) := by
  have h := mem_dispatchWrites_stamp NULL (loader_get_dispatch mem device)
    ((tables (loader_get_dispatch mem device)).AllocateCommandBuffers mem device
      pAllocateInfo pCommandBuffers).2.2 obj d pAllocateInfo.bufferCount 0
  rw [dispatchWrites_allocate_trace, if_pos hs]
  constructor
  · intro h0
    obtain ⟨h1, h2, j, _, h4, h5⟩ := h.mp h0
    exact ⟨h1, h2, j, by omega, h5⟩
  · rintro ⟨h1, h2, j, h4, h5⟩
    exact h.mpr ⟨h1, h2, j, Nat.zero_le j, by omega, h5⟩

/-- C26: `vkAllocateCommandBuffers` returns the result of the chain's
`AllocateCommandBuffers` and leaves the array as the chain filled it.  If that
result is not `VK_SUCCESS`, the trampoline writes no embedded pointer: the
memory is as the chain left it.  If it is `VK_SUCCESS`, the embedded pointers
written are exactly those of the non-null handles `pCommandBuffers[j]` with
`j < bufferCount`, each with the device's table pointer; every other address
(the null handle and any handle found only at an index `j >= bufferCount`
among them) holds what the chain left there. -/
theorem vkAllocateCommandBuffers_stamps_conditionally
    (tables : Ptr → VkLayerDispatchTable) (mem : Memory) (device : Ptr)
    (pAllocateInfo : VkCommandBufferAllocateInfo) (pCommandBuffers : Nat → Ptr) :
    (vkAllocateCommandBuffers tables mem device pAllocateInfo pCommandBuffers).result =
      ((tables (loader_get_dispatch mem device)).AllocateCommandBuffers mem device
        pAllocateInfo pCommandBuffers).1 ∧
    (vkAllocateCommandBuffers tables mem device pAllocateInfo pCommandBuffers).pCommandBuffers =
      ((tables (loader_get_dispatch mem device)).AllocateCommandBuffers mem device
        pAllocateInfo pCommandBuffers).2.2 ∧
    (((tables (loader_get_dispatch mem device)).AllocateCommandBuffers mem device
        pAllocateInfo pCommandBuffers).1 ≠ VK_SUCCESS →
      (vkAllocateCommandBuffers tables mem device pAllocateInfo pCommandBuffers).mem =
        ((tables (loader_get_dispatch mem device)).AllocateCommandBuffers mem device
          pAllocateInfo pCommandBuffers).2.1 ∧
      dispatchWrites
        (vkAllocateCommandBuffers_trace tables mem device pAllocateInfo pCommandBuffers) = []) ∧
    (((tables (loader_get_dispatch mem device)).AllocateCommandBuffers mem device
        pAllocateInfo pCommandBuffers).1 = VK_SUCCESS →
      (∀ a, (∀ j, j < pAllocateInfo.bufferCount →
          ((tables (loader_get_dispatch mem device)).AllocateCommandBuffers mem device
            pAllocateInfo pCommandBuffers).2.2 j = NULL ∨
          ((tables (loader_get_dispatch mem device)).AllocateCommandBuffers mem device
            pAllocateInfo pCommandBuffers).2.2 j ≠ a) →
        (vkAllocateCommandBuffers tables mem device pAllocateInfo pCommandBuffers).mem a =
          ((tables (loader_get_dispatch mem device)).AllocateCommandBuffers mem device
            pAllocateInfo pCommandBuffers).2.1 a) ∧
      (∀ obj d, (obj, d) ∈ dispatchWrites
          (vkAllocateCommandBuffers_trace tables mem device pAllocateInfo pCommandBuffers) ↔
        d = loader_get_dispatch mem device ∧ obj ≠ NULL ∧
        ∃ j, j < pAllocateInfo.bufferCount ∧
          ((tables (loader_get_dispatch mem device)).AllocateCommandBuffers mem device
            pAllocateInfo pCommandBuffers).2.2 j = obj)) := by
  refine ⟨?_, ?_, ?_, ?_⟩
  · simp only [vkAllocateCommandBuffers]
    split <;> rfl
  · simp only [vkAllocateCommandBuffers]
    split <;> rfl
  · intro hne
    constructor
    · simp only [vkAllocateCommandBuffers, hne, if_false]
    · rw [dispatchWrites_allocate_trace, if_neg hne]
  · intro hs
    constructor
    · intro a ha
      simp only [vkAllocateCommandBuffers, hs, if_true]
      exact stampCommandBuffers_frame _ _ a _ 0 _ (fun j _ h2 => ha j (by omega))
    · intro obj d
      exact mem_dispatchWrites_allocate tables mem device pAllocateInfo pCommandBuffers hs
        obj d

/-- A witness of C26: three buffers are asked for on the device `1`, whose
table is `5`.  With the failing chain nothing is stamped; with the chain that
returns `10, 0, 12, 13, ...` the handles `10` and `12` are stamped, the null
entry is skipped and the handle `13` at index `3` keeps its `0`. -/
theorem vkAllocateCommandBuffers_stamps_conditionally_witness :
    (failingTable.AllocateCommandBuffers sampleMemory 1 ⟨3⟩ (fun _ => 0)).1 ≠ VK_SUCCESS ∧
    (vkAllocateCommandBuffers (fun _ => failingTable) sampleMemory 1 ⟨3⟩
      (fun _ => 0)).result = VK_ERROR_OUT_OF_HOST_MEMORY ∧
    (vkAllocateCommandBuffers (fun _ => failingTable) sampleMemory 1 ⟨3⟩
      (fun _ => 0)).mem = sampleMemory ∧
    dispatchWrites (vkAllocateCommandBuffers_trace (fun _ => failingTable) sampleMemory 1
      ⟨3⟩ (fun _ => 0)) = [] ∧
    (sparseTable.AllocateCommandBuffers sampleMemory 1 ⟨3⟩ (fun _ => 0)).1 = VK_SUCCESS ∧
    dispatchWrites (vkAllocateCommandBuffers_trace (fun _ => sparseTable) sampleMemory 1
      ⟨3⟩ (fun _ => 0)) = [(10, 5), (12, 5)] ∧
    (vkAllocateCommandBuffers (fun _ => sparseTable) sampleMemory 1 ⟨3⟩
      (fun _ => 0)).mem 13 = 0 :=
  have hf := vkAllocateCommandBuffers_stamps_conditionally (fun _ => failingTable)
    sampleMemory 1 ⟨3⟩ (fun _ => 0)
  have hs := vkAllocateCommandBuffers_stamps_conditionally (fun _ => sparseTable)
    sampleMemory 1 ⟨3⟩ (fun _ => 0)
  have hne : (failingTable.AllocateCommandBuffers sampleMemory 1 ⟨3⟩ (fun _ => 0)).1 ≠
      VK_SUCCESS := by decide
  ⟨hne, hf.1, (hf.2.2.1 hne).1, (hf.2.2.1 hne).2, rfl, by decide,
    (hs.2.2.2 rfl).1 13 (by decide)⟩

theorem dispatchWrites_prologue (c : Collaborators) (rest : List Event) :
    dispatchWrites (prologue c ++ rest) =
      (c.alloc_instance, NULL) :: dispatchWritesFrom c.alloc_instance rest := by
  cases hp : c.pAllocator <;> by_cases hc : c.enabledLayerNameCount > 0 <;>
    simp [prologue, hp, hc, dispatchWrites, dispatchWritesFrom]

theorem vkCreateInstance_dispatchWrites (c : Collaborators) (loader : LoaderState)
    (pInstance : Ptr) (obj d : Ptr)
    (h : (obj, d) ∈ dispatchWrites (vkCreateInstance c loader pInstance).trace) :
    obj = c.alloc_instance ∧ c.alloc_instance ≠ NULL := by
  rcases vkCreateInstance_cases c loader pInstance with
    ⟨_, h1⟩ | ⟨ha, _, _, h1⟩ | ⟨ha, _, h1⟩ | ⟨ha, _, h1⟩ | ⟨ha, _, _, h1⟩ | ⟨ha, _, h1⟩
  · rw [h1] at h
    simp [dispatchWrites, dispatchWritesFrom] at h
  all_goals
    rw [h1] at h
    simp only [dispatchWrites_prologue] at h
    simp [dispatchWritesFrom, releaseLists] at h
    first
      | exact ⟨h.1, ha⟩
      | exact ⟨h.elim (fun x => x.1) (fun x => x.1), ha⟩

/-- C21, refuted as stated: two calls of `vkGetDeviceQueue` in a row for the
same queue of the device `1` (table `5`) both write the embedded pointer of the
queue handle `9`: the handle stamped by the first call is written again by the
second. -/
theorem vkGetDeviceQueue_stamps_again :
    (vkGetDeviceQueue (fun _ => sampleTable) sampleMemory 1 0 0 9).2 = 9 ∧
    (vkGetDeviceQueue (fun _ => sampleTable)
      (vkGetDeviceQueue (fun _ => sampleTable) sampleMemory 1 0 0 9).1 1 0 0 9).2 = 9 ∧
    dispatchWrites
      (vkGetDeviceQueue_trace (fun _ => sampleTable) sampleMemory 1 0 0 9 ++
       vkGetDeviceQueue_trace (fun _ => sampleTable)
        (vkGetDeviceQueue (fun _ => sampleTable) sampleMemory 1 0 0 9).1 1 0 0 9) =
      [(9, 5), (9, 5)] ∧
    (dispatchWrites
      (vkGetDeviceQueue_trace (fun _ => sampleTable) sampleMemory 1 0 0 9 ++
       vkGetDeviceQueue_trace (fun _ => sampleTable)
        (vkGetDeviceQueue (fun _ => sampleTable) sampleMemory 1 0 0 9).1 1 0 0 9)).count
      (9, 5) ≠ 1 := by
  decide

/-- C21, amended: an embedded pointer is written only by the trampoline that
creates or obtains the handle, and it may be written again.  `vkGetDeviceQueue`
on every call stamps the queue handle the chain returned, and
`vkAllocateCommandBuffers` stamps the non-null handles it returns; both write
the table pointer embedded in the device they are called on, and the memory
they leave is the chain's with exactly these writes made.  `vkCreateInstance`
writes only the first slot of the record it allocates.  No forwarding
trampoline and none of the six other trampolines that take the mutex writes an
embedded pointer, and stamping a handle again with the table it already carries
leaves the memory as it is. -/
theorem embedded_pointer_written_only_by_stamping
    (f : Forwarder) (_hf : f ∈ hotPathTrampolines)
    (slotResult : Ptr → Slot → List Nat → VkResult) (mem : Memory) (vals : List Nat) :
    dispatchWrites (f.run slotResult mem vals).trace = [] ∧
    (∀ (tables : Ptr → VkLayerDispatchTable) (device queueNodeIndex queueIndex pQueue : Nat),
      dispatchWrites
          (vkGetDeviceQueue_trace tables mem device queueNodeIndex queueIndex pQueue) =
        [((vkGetDeviceQueue tables mem device queueNodeIndex queueIndex pQueue).2,
          loader_get_dispatch mem device)] ∧
      (vkGetDeviceQueue tables mem device queueNodeIndex queueIndex pQueue).1 =
        applyWrites
          (dispatchWrites
            (vkGetDeviceQueue_trace tables mem device queueNodeIndex queueIndex pQueue))
          ((tables (loader_get_dispatch mem device)).GetDeviceQueue mem device
            queueNodeIndex queueIndex pQueue).1) ∧
    (∀ (tables : Ptr → VkLayerDispatchTable) (device : Nat)
      (pAllocateInfo : VkCommandBufferAllocateInfo) (pCommandBuffers : Nat → Ptr),
      (∀ (obj d : Ptr), (obj, d) ∈ dispatchWrites
          (vkAllocateCommandBuffers_trace tables mem device pAllocateInfo pCommandBuffers) →
        d = loader_get_dispatch mem device ∧ obj ≠ NULL ∧
        ∃ j, j < pAllocateInfo.bufferCount ∧
          (vkAllocateCommandBuffers tables mem device pAllocateInfo
            pCommandBuffers).pCommandBuffers j = obj) ∧
      (vkAllocateCommandBuffers tables mem device pAllocateInfo pCommandBuffers).mem =
        applyWrites
          (dispatchWrites
            (vkAllocateCommandBuffers_trace tables mem device pAllocateInfo pCommandBuffers))
          ((tables (loader_get_dispatch mem device)).AllocateCommandBuffers mem device
            pAllocateInfo pCommandBuffers).2.1) ∧
    (∀ (c : Collaborators) (loader : LoaderState) (pInstance : Ptr) (obj d : Ptr),
      (obj, d) ∈ dispatchWrites (vkCreateInstance c loader pInstance).trace →
        obj = c.alloc_instance ∧ c.alloc_instance ≠ NULL) ∧
    (∀ (DestroyInstance : Ptr → LoaderState → Nat → Nat → LoaderState)
      (loader : LoaderState) (inst pAllocator : Nat) (out : DestroyInstanceOutcome),
      vkDestroyInstance DestroyInstance loader mem inst pAllocator = some out →
        dispatchWrites out.trace = []) ∧
    (∀ inst pPhysicalDeviceCount pPhysicalDevices : Nat,
      dispatchWrites (vkEnumeratePhysicalDevices slotResult mem inst pPhysicalDeviceCount
        pPhysicalDevices).trace = []) ∧
    (∀ (CreateDevice : Nat → Nat → Nat → Nat → VkResult)
      (gpu pCreateInfo pAllocator pDevice : Nat),
      dispatchWrites (vkCreateDevice CreateDevice gpu pCreateInfo pAllocator
        pDevice).trace = []) ∧
    (∀ (icdOf this_instance : Ptr → Ptr)
      (remove_logical_device : (Ptr → List Ptr) → Ptr → Ptr → Ptr → List Ptr)
      (devices : Ptr → List Ptr)
      (device pAllocator : Nat) (out : DestroyDeviceOutcome),
      vkDestroyDevice icdOf this_instance remove_logical_device mem devices device
          pAllocator = some out →
        dispatchWrites out.trace = []) ∧
    (∀ (Enumerate : Nat → Nat → Nat → Nat → VkResult)
      (physicalDevice pLayerName pPropertyCount pProperties : Nat),
      dispatchWrites (vkEnumerateDeviceExtensionProperties Enumerate physicalDevice
        pLayerName pPropertyCount pProperties).trace = []) ∧
    (∀ (Enumerate : Nat → Nat → Nat → VkResult)
      (physicalDevice pPropertyCount pProperties : Nat),
      dispatchWrites (vkEnumerateDeviceLayerProperties Enumerate physicalDevice
        pPropertyCount pProperties).trace = []) ∧
    (∀ (obj T : Ptr), loader_get_dispatch mem obj = T → loader_set_dispatch mem obj T = mem) := by
  refine ⟨?_, ?_, ?_, vkCreateInstance_dispatchWrites, ?_, ?_, ?_, ?_, ?_, ?_, ?_⟩
  · cases hg : f.getter <;>
      simp [Forwarder.run, Getter.event, hg, dispatchWrites, dispatchWritesFrom]
  · intro tables device queueNodeIndex queueIndex pQueue
    constructor
    · simp [vkGetDeviceQueue_trace, dispatchWrites, dispatchWritesFrom]
    · simp [vkGetDeviceQueue_trace, vkGetDeviceQueue, dispatchWrites, dispatchWritesFrom,
        applyWrites]
  · intro tables device pAllocateInfo pCommandBuffers
    by_cases hs : ((tables (loader_get_dispatch mem device)).AllocateCommandBuffers mem device
        pAllocateInfo pCommandBuffers).1 = VK_SUCCESS
    · constructor
      · intro obj d h
        have h2 := (mem_dispatchWrites_allocate tables mem device pAllocateInfo
          pCommandBuffers hs obj d).mp h
        refine ⟨h2.1, h2.2.1, ?_⟩
        obtain ⟨j, hj, hb⟩ := h2.2.2
        refine ⟨j, hj, ?_⟩
        simp only [vkAllocateCommandBuffers, hs, if_true]
        exact hb
      · rw [dispatchWrites_allocate_trace, if_pos hs]
        simp only [vkAllocateCommandBuffers, hs, if_true]
        exact stampCommandBuffers_eq_applyWrites NULL _ _ _ 0 _
    · constructor
      · intro obj d h
        rw [dispatchWrites_allocate_trace, if_neg hs] at h
        simp at h
      · rw [dispatchWrites_allocate_trace, if_neg hs]
        simp only [vkAllocateCommandBuffers, hs, if_false]
        rfl
  · intro DestroyInstance loader inst pAllocator out h
    rw [vkDestroyInstance_some DestroyInstance loader mem inst pAllocator out h]
    simp [dispatchWrites, dispatchWritesFrom]
  · intro inst a b
    simp [vkEnumeratePhysicalDevices, dispatchWrites, dispatchWritesFrom]
  · intro CreateDevice a b d e
    simp [vkCreateDevice, dispatchWrites, dispatchWritesFrom]
  · intro icdOf this_instance remove_logical_device devices device pAllocator out h
    rw [vkDestroyDevice_some icdOf this_instance remove_logical_device mem devices device
      pAllocator out h]
    simp [dispatchWrites, dispatchWritesFrom]
  · intro Enumerate a b d e
    simp [vkEnumerateDeviceExtensionProperties, dispatchWrites, dispatchWritesFrom]
  · intro Enumerate a b d
    simp [vkEnumerateDeviceLayerProperties, dispatchWrites, dispatchWritesFrom]
  · intro obj T h
    funext a
    by_cases ha : a = obj
    · simp [loader_set_dispatch, ha, ← h, loader_get_dispatch]
    · simp [loader_set_dispatch, ha]

/-- A witness of amended C21: `vkQueueSubmit` writes no embedded pointer,
`vkGetDeviceQueue` on the device `1` writes the table `5` into the queue `9`,
and a successful `vkCreateInstance` writes the first slot of its new record
`100` twice, with `NULL` and with the table `200`. -/
theorem embedded_pointer_written_only_by_stamping_witness :
    queueSubmitForwarder ∈ hotPathTrampolines ∧
    dispatchWrites (queueSubmitForwarder.run sampleSlotResult sampleMemory
      [1, 2, 3, 4]).trace = [] ∧
    dispatchWrites (vkGetDeviceQueue_trace (fun _ => sampleTable) sampleMemory 1 0 0 9) =
      [((vkGetDeviceQueue (fun _ => sampleTable) sampleMemory 1 0 0 9).2,
        loader_get_dispatch sampleMemory 1)] ∧
    dispatchWrites (vkCreateInstance allSucceed ⟨[7]⟩ 0).trace = [(100, 0), (100, 200)] ∧
    ((100, 200) ∈ dispatchWrites (vkCreateInstance allSucceed ⟨[7]⟩ 0).trace →
      100 = allSucceed.alloc_instance ∧ allSucceed.alloc_instance ≠ NULL) :=
  have hmem : queueSubmitForwarder ∈ hotPathTrampolines := by
    simp [hotPathTrampolines, queueForwarders, queueSubmitForwarder]
  have h := embedded_pointer_written_only_by_stamping queueSubmitForwarder hmem
    sampleSlotResult sampleMemory [1, 2, 3, 4]
  ⟨hmem, h.1, (h.2.1 (fun _ => sampleTable) 1 0 0 9).1, by decide,
    h.2.2.2.1 allSucceed ⟨[7]⟩ 0 100 200⟩

/-! ### The instance chain -/

theorem accessesUnderLock_cons_other (held : Bool) (e : Event) (t : List Event)
    (h1 : e ≠ Event.lock_mutex) (h2 : e ≠ Event.unlock_mutex) :
    accessesUnderLock held (e :: t) =
      ((held || !e.accessesRegistry) && accessesUnderLock held t) := by
  cases e <;> simp_all [accessesUnderLock]

theorem project_cons (tid t : Bool) (e : Event) (s : List (Bool × Event)) :
    project tid ((t, e) :: s) = if t = tid then e :: project tid s else project tid s := by
  by_cases h : t = tid <;> simp [project, h]

theorem noTornAccess_of_mutexRespected :
    ∀ (s : List (Bool × Event)) (heldT heldF : Bool),
      (heldT && heldF) = false →
      mutexRespected heldT heldF s = true →
      accessesUnderLock heldT (project true s) = true →
      accessesUnderLock heldF (project false s) = true →
      noTornAccess heldT heldF s = true := by
  intro s
  induction s with
  | nil => intro _ _ _ _ _ _; rfl
  | cons x s ih =>
    obtain ⟨tid, e⟩ := x
    intro heldT heldF hex hm hT hF
    by_cases h1 : e = Event.lock_mutex
    · subst h1
      cases tid
      · simp only [mutexRespected, noTornAccess, project_cons, accessesUnderLock] at hm hT hF ⊢
        simp only [if_true, Bool.and_eq_true, Bool.not_eq_true'] at hm
        simp at hT hF
        obtain ⟨⟨hm1, hm2⟩, hm3⟩ := hm
        simp at hm3 ⊢
        exact ih heldT true (by simp [hm1]) hm3 hT hF
      · simp only [mutexRespected, noTornAccess, project_cons, accessesUnderLock] at hm hT hF ⊢
        simp only [if_true, Bool.and_eq_true, Bool.not_eq_true'] at hm
        simp at hT hF
        obtain ⟨⟨hm1, hm2⟩, hm3⟩ := hm
        simp at hm3 ⊢
        exact ih true heldF (by simp [hm2]) hm3 hT hF
    · by_cases h2 : e = Event.unlock_mutex
      · subst h2
        cases tid
        · simp [mutexRespected, noTornAccess, project_cons, accessesUnderLock] at hm hT hF ⊢
          exact ih heldT false (by simp) hm.2 hT hF
        · simp [mutexRespected, noTornAccess, project_cons, accessesUnderLock] at hm hT hF ⊢
          exact ih false heldF (by simp) hm.2 hT hF
      · cases tid
        · simp only [mutexRespected, noTornAccess, project_cons, h1, h2, if_false] at hm hT hF ⊢
          simp at hT hF
          rw [accessesUnderLock_cons_other _ _ _ h1 h2] at hF
          simp only [Bool.and_eq_true, Bool.or_eq_true, Bool.not_eq_true'] at hF
          have hrest := ih heldT heldF hex hm hT hF.2
          simp only [Bool.and_eq_true, Bool.or_eq_true, Bool.not_eq_true', hrest, and_true]
          rcases hF.1 with hh | hh
          · right
            cases heldT <;> simp_all
          · left; exact hh
        · simp only [mutexRespected, noTornAccess, project_cons, h1, h2, if_false] at hm hT hF ⊢
          simp at hT hF
          rw [accessesUnderLock_cons_other _ _ _ h1 h2] at hT
          simp only [Bool.and_eq_true, Bool.or_eq_true, Bool.not_eq_true'] at hT
          have hrest := ih heldT heldF hex hm hT.2 hF
          simp only [Bool.and_eq_true, Bool.or_eq_true, Bool.not_eq_true', hrest, and_true]
          rcases hT.1 with hh | hh
          · right
            cases heldF <;> simp_all
          · left; exact hh

/-- C23: in every interleaving of the steps of two threads that each execute
`vkCreateInstance`, provided the mutex is granted to one thread at a time,
every access to the registry (insertion or unlinking) is made by a thread that
holds the mutex while the other thread is outside its own lock-to-unlock
section; the other thread's insertion, and its roll-back on failure, both lie
inside that section, so they are seen either entirely or not at all. -/
theorem concurrent_vkCreateInstance_no_torn_registry
    (cT cF : Collaborators) (loaderT loaderF : LoaderState) (pT pF : Ptr)
    (s : List (Bool × Event))
    (hT : project true s = (vkCreateInstance cT loaderT pT).trace)
    (hF : project false s = (vkCreateInstance cF loaderF pF).trace)
    (hm : mutexRespected false false s = true) :
    noTornAccess false false s = true := by
  apply noTornAccess_of_mutexRespected s false false rfl hm
  · rw [hT]; exact vkCreateInstance_accessesUnderLock cT loaderT pT
  · rw [hF]; exact vkCreateInstance_accessesUnderLock cF loaderF pF

/-- A witness of C23: the thread `true` is preempted just before it acquires the
mutex, the thread `false` creates its instance, and the thread `true` then
links its instance, fails to enable its layers and unlinks it. -/
theorem concurrent_vkCreateInstance_no_torn_registry_witness :
    project true sampleInterleaving = (vkCreateInstance enableFails ⟨[]⟩ 0).trace ∧
    project false sampleInterleaving = (vkCreateInstance allSucceed ⟨[]⟩ 0).trace ∧
    mutexRespected false false sampleInterleaving = true ∧
    noTornAccess false false sampleInterleaving = true :=
  have h1 : project true sampleInterleaving = (vkCreateInstance enableFails ⟨[]⟩ 0).trace := by
    decide
  have h2 : project false sampleInterleaving = (vkCreateInstance allSucceed ⟨[]⟩ 0).trace := by
    decide
  have h3 : mutexRespected false false sampleInterleaving = true := by decide
  ⟨h1, h2, h3,
    concurrent_vkCreateInstance_no_torn_registry enableFails allSucceed ⟨[]⟩ ⟨[]⟩ 0 0
      sampleInterleaving h1 h2 h3⟩

end VkLoader
